import Mathlib

/-!
Local bounding volume of a geometry view (Qt3DCore, `qgeometryview.cpp`).

A shallow embedding of the bounding-volume calculator of `qgeometryview.cpp`:
the two buffer visitors `FindExtremePoints` and `FindMaxDistantPoint`,
`BoundingVolumeCalculator::apply`, which runs four traversals of the position
data (axis extremes, then Ritter's three farthest-point passes), and the driver
`calculateLocalBoundingVolume`, which checks the node and its attributes, emits
the warnings and calls the calculator.

The code is read in two ways.  In the main model floats are exact rationals:
this is the code in exact arithmetic, without rounding, overflow or NaN.  The
only operation that leaves the rationals is `Vector3D::length`; its result is
kept symbolically as the square root of a rational (`Scalar.sqrt`).  The second
model (`Binary32`) reads the two visitors and the calculator over float values
with NaN, the infinities and overflow; it is used for the statements that
depend on those values.
-/

namespace Qt3DCore

/-! ## Vectors and scalars -/

/-- Modelled from the spec: the `Vector3D` value type of `vector3d_p.h`, which is
not among the sources; three float coordinates, here exact rationals. -/
structure Vector3D where
  x : ℚ
  y : ℚ
  z : ℚ
deriving DecidableEq

namespace Vector3D

/-- The default-constructed vector `Vector3D{}`. -/
instance : Zero Vector3D := ⟨⟨0, 0, 0⟩⟩

/-- Componentwise `operator+`. -/
instance : Add Vector3D := ⟨fun a b => ⟨a.x + b.x, a.y + b.y, a.z + b.z⟩⟩

/-- Componentwise `operator-`. -/
instance : Sub Vector3D := ⟨fun a b => ⟨a.x - b.x, a.y - b.y, a.z - b.z⟩⟩

/-- The product `v * f` of a vector with a float. -/
def scale (v : Vector3D) (f : ℚ) : Vector3D := ⟨v.x * f, v.y * f, v.z * f⟩

/-- The squared Euclidean length, `lengthSquared()`. -/
def lengthSquared (v : Vector3D) : ℚ := v.x * v.x + v.y * v.y + v.z * v.z

end Vector3D

/-- The float values that the calculator keeps as a radius, in exact form: a
rational literal (the initial `-1.f`) or the non-negative square root of a
rational (a result of `Vector3D::length`). -/
inductive Scalar where
  | lit (q : ℚ)
  | sqrt (q : ℚ)
deriving DecidableEq

/-- The test `r < 0.f`: a literal is compared directly, a square root is never
negative. -/
def Scalar.isNegative : Scalar → Bool
  | Scalar.lit q => decide (q < 0)
  | Scalar.sqrt _ => false

/-- The Euclidean length, `length()`: the square root of `lengthSquared()`. -/
def Vector3D.length (v : Vector3D) : Scalar := Scalar.sqrt v.lengthSquared

/-! ## Attributes and buffers -/

/-- Modelled from the spec: the enumeration `QAttribute::VertexBaseType` of the
attribute header, which is not among the sources (spec 3: F32, U8, U16, U32 and
the other base types). -/
inductive VertexBaseType where
  | Byte | UnsignedByte | Short | UnsignedShort | Int | UnsignedInt | HalfFloat | Float | Double
deriving DecidableEq

/-- Modelled from the spec: the enumeration `QAttribute::AttributeType` of the
attribute header, which is not among the sources (spec 6). -/
inductive AttributeType where
  | VertexAttribute | IndexAttribute | DrawIndirectAttribute
deriving DecidableEq

/-- Modelled from the spec: the byte storage behind a `BufferView` (spec 3 and
4.1), whose decoder is not among the sources.  The bytes are represented by the
logical elements they decode to through the attribute that refers to them:
`positions` lists the elements read as three F32 components, `indices` the
elements read as one zero-extended unsigned integer.  An element past the end
of the list is a decode error. -/
structure QBuffer where
  positions : List Vector3D
  indices : List Nat
deriving DecidableEq

/-- Modelled from the spec: the properties of a `QAttribute` (spec 6), whose
header is not among the sources. -/
structure QAttribute where
  name : String
  attributeType : AttributeType
  vertexBaseType : VertexBaseType
  vertexSize : Nat
  count : Nat
  byteOffset : Nat
  byteStride : Nat
  buffer : Option QBuffer
deriving DecidableEq

/-! ## The traversal of `Buffer3fVisitor` -/

namespace Buffer3fVisitor

/-- Modelled from the spec: the loop of the traversal of `buffervisitor_p.h`
(spec 4.2, rules 3 and 4), which is not among the sources.  `remaining` raw
elements are still to be read, `i` is the raw element index and `ordinal` the
number of callbacks fired so far.  Indexed: an index equal to the restart value
(with restart enabled) is skipped without a callback and without advancing the
ordinal; otherwise the position at that index is read.  Unindexed: the position
at `i` is read.  The result is the sequence of callbacks `(ordinal, point)`, or
`none` on a decode error. -/
def loop (positions : List Vector3D) (indices : Option (List Nat))
    (primitiveRestartEnabled : Bool) (primitiveRestartIndex : Int) :
    (remaining : Nat) → (i : Nat) → (ordinal : Nat) → Option (List (Nat × Vector3D))
  | 0, _, _ => some []
  | remaining + 1, i, ordinal =>
    match indices with
    | some ix =>
      match ix[i]? with
      | none => none
      | some idx =>
        if primitiveRestartEnabled && decide ((idx : Int) = primitiveRestartIndex) then
          loop positions indices primitiveRestartEnabled primitiveRestartIndex
            remaining (i + 1) ordinal
        else
          match positions[idx]? with
          | none => none
          | some p =>
            (loop positions indices primitiveRestartEnabled primitiveRestartIndex
              remaining (i + 1) (ordinal + 1)).map (fun cs => (ordinal, p) :: cs)
    | none =>
      match positions[i]? with
      | none => none
      | some p =>
        (loop positions indices primitiveRestartEnabled primitiveRestartIndex
          remaining (i + 1) (ordinal + 1)).map (fun cs => (ordinal, p) :: cs)

/-- Modelled from the spec: a position view is suitable when its base type is
F32, it has at least three components and its bytes are present (spec 3, 4.1). -/
def positionData (positionAttribute : Option QAttribute) : Option (QAttribute × List Vector3D) :=
  match positionAttribute with
  | none => none
  | some a =>
    if a.vertexBaseType = VertexBaseType.Float ∧ 3 ≤ a.vertexSize then
      match a.buffer with
      | none => none
      | some b => some (a, b.positions)
    else none

/-- Modelled from the spec: an index view is supported when its base type is one
of U8, U16, U32 and its bytes are present (spec 3, 4.1, 4.2). -/
def indexData (a : QAttribute) : Option (List Nat) :=
  if a.vertexBaseType = VertexBaseType.UnsignedByte
      ∨ a.vertexBaseType = VertexBaseType.UnsignedShort
      ∨ a.vertexBaseType = VertexBaseType.UnsignedInt then
    match a.buffer with
    | none => none
    | some b => some b.indices
  else none

/-- Modelled from the spec: the callbacks of one traversal
`apply(position, index?, drawCount, restartEnabled, restartValue)` of
`buffervisitor_p.h` (spec 4.2), which is not among the sources.  Rule 1 rejects
an absent or unsuitable position, rule 2 fixes the effective count `N`
(`index.count` or `position.count` when `drawCount` is zero), rules 3 and 4 are
`loop`.  `none` stands for the return value `false`. -/
def callbacks (positionAttribute indexAttribute : Option QAttribute) (drawVertexCount : Int)
    (primitiveRestartEnabled : Bool) (primitiveRestartIndex : Int) :
    Option (List (Nat × Vector3D)) :=
  match positionData positionAttribute with
  | none => none
  | some (position, positions) =>
    match indexAttribute with
    | some index =>
      match indexData index with
      | none => none
      | some ix =>
        let N : Nat := if drawVertexCount = 0 then index.count else drawVertexCount.toNat
        loop positions (some ix) primitiveRestartEnabled primitiveRestartIndex N 0 0
    | none =>
      let N : Nat := if drawVertexCount = 0 then position.count else drawVertexCount.toNat
      loop positions none primitiveRestartEnabled primitiveRestartIndex N 0 0

end Buffer3fVisitor

/-! ## The visitors -/

/-- The state of the visitor `FindExtremePoints`: the six axis extremes and the
points they come from. -/
structure FindExtremePoints where
  xMin : ℚ := 0
  xMax : ℚ := 0
  yMin : ℚ := 0
  yMax : ℚ := 0
  zMin : ℚ := 0
  zMax : ℚ := 0
  xMinPt : Vector3D := 0
  xMaxPt : Vector3D := 0
  yMinPt : Vector3D := 0
  yMaxPt : Vector3D := 0
  zMinPt : Vector3D := 0
  zMaxPt : Vector3D := 0
deriving DecidableEq

namespace FindExtremePoints

/-- The callback `FindExtremePoints::visit(ndx, x, y, z)`. -/
def visit (s : FindExtremePoints) (ndx : Nat) (x y z : ℚ) : FindExtremePoints :=
  if ndx ≠ 0 then
    let s := if x < s.xMin then { s with xMin := x, xMinPt := ⟨x, y, z⟩ } else s
    let s := if x > s.xMax then { s with xMax := x, xMaxPt := ⟨x, y, z⟩ } else s
    let s := if y < s.yMin then { s with yMin := y, yMinPt := ⟨x, y, z⟩ } else s
    let s := if y > s.yMax then { s with yMax := y, yMaxPt := ⟨x, y, z⟩ } else s
    let s := if z < s.zMin then { s with zMin := z, zMinPt := ⟨x, y, z⟩ } else s
    let s := if z > s.zMax then { s with zMax := z, zMaxPt := ⟨x, y, z⟩ } else s
    s
  else
    { xMin := x, xMax := x, yMin := y, yMax := y, zMin := z, zMax := z,
      xMinPt := ⟨x, y, z⟩, xMaxPt := ⟨x, y, z⟩, yMinPt := ⟨x, y, z⟩,
      yMaxPt := ⟨x, y, z⟩, zMinPt := ⟨x, y, z⟩, zMaxPt := ⟨x, y, z⟩ }

/-- The inherited `apply`: the traversal feeds its callbacks to `visit`. -/
def apply (s : FindExtremePoints) (positionAttribute indexAttribute : Option QAttribute)
    (drawVertexCount : Int) (primitiveRestartEnabled : Bool) (primitiveRestartIndex : Int) :
    Option FindExtremePoints :=
  (Buffer3fVisitor.callbacks positionAttribute indexAttribute drawVertexCount
    primitiveRestartEnabled primitiveRestartIndex).map
    (fun cs => cs.foldl (fun s c => s.visit c.1 c.2.x c.2.y c.2.z) s)

end FindExtremePoints

/-- The state of the visitor `FindMaxDistantPoint`. -/
structure FindMaxDistantPoint where
  maxLengthSquared : ℚ := 0
  setReferencePoint : Bool := false
  hasNoPoints : Bool := true
  maxDistPt : Vector3D := 0
  referencePt : Vector3D := 0
deriving DecidableEq

namespace FindMaxDistantPoint

/-- The callback `FindMaxDistantPoint::visit(ndx, x, y, z)`; `ndx` is unused. -/
def visit (s : FindMaxDistantPoint) (_ndx : Nat) (x y z : ℚ) : FindMaxDistantPoint :=
  let p : Vector3D := ⟨x, y, z⟩
  let s := if s.hasNoPoints && s.setReferencePoint then
      { s with maxLengthSquared := 0, referencePt := p } else s
  let lengthSquared := (p - s.referencePt).lengthSquared
  let s := if lengthSquared ≥ s.maxLengthSquared then
      { s with maxDistPt := p, maxLengthSquared := lengthSquared } else s
  { s with hasNoPoints := false }

/-- The inherited `apply`: the traversal feeds its callbacks to `visit`. -/
def apply (s : FindMaxDistantPoint) (positionAttribute indexAttribute : Option QAttribute)
    (drawVertexCount : Int) (primitiveRestartEnabled : Bool) (primitiveRestartIndex : Int) :
    Option FindMaxDistantPoint :=
  (Buffer3fVisitor.callbacks positionAttribute indexAttribute drawVertexCount
    primitiveRestartEnabled primitiveRestartIndex).map
    (fun cs => cs.foldl (fun s c => s.visit c.1 c.2.x c.2.y c.2.z) s)

end FindMaxDistantPoint

/-! ## The calculator -/

/-- The members of `BoundingVolumeCalculator`. -/
structure BoundingVolumeCalculator where
  m_min : Vector3D := 0
  m_max : Vector3D := 0
  m_center : Vector3D := 0
  m_radius : Scalar := Scalar.lit (-1)
deriving DecidableEq

namespace BoundingVolumeCalculator

/-- The method `BoundingVolumeCalculator::apply`: the returned flag and the
members after the call. -/
def apply (self : BoundingVolumeCalculator) (positionAttribute indexAttribute : Option QAttribute)
    (drawVertexCount : Int) (primitiveRestartEnabled : Bool) (primitiveRestartIndex : Int) :
    Bool × BoundingVolumeCalculator :=
  let self := { self with m_radius := Scalar.lit (-1) }
  match FindExtremePoints.apply {} positionAttribute indexAttribute drawVertexCount
      primitiveRestartEnabled primitiveRestartIndex with
  | none => (false, self)
  | some findExtremePoints =>
    let self := { self with
      m_min := ⟨findExtremePoints.xMin, findExtremePoints.yMin, findExtremePoints.zMin⟩,
      m_max := ⟨findExtremePoints.xMax, findExtremePoints.yMax, findExtremePoints.zMax⟩ }
    match FindMaxDistantPoint.apply { setReferencePoint := true } positionAttribute
        indexAttribute drawVertexCount primitiveRestartEnabled primitiveRestartIndex with
    | none => (false, self)
    | some maxDistantPointY =>
      if maxDistantPointY.hasNoPoints then (false, self)
      else
        let y := maxDistantPointY.maxDistPt
        match FindMaxDistantPoint.apply { setReferencePoint := false, referencePt := y }
            positionAttribute indexAttribute drawVertexCount primitiveRestartEnabled
            primitiveRestartIndex with
        | none => (false, self)
        | some maxDistantPointZ =>
          let z := maxDistantPointZ.maxDistPt
          let center := (y + z).scale (1 / 2)
          match FindMaxDistantPoint.apply { setReferencePoint := false, referencePt := center }
              positionAttribute indexAttribute drawVertexCount primitiveRestartEnabled
              primitiveRestartIndex with
          | none => (false, self)
          | some maxDistantPointCenter =>
            let radius := (center - maxDistantPointCenter.maxDistPt).length
            if center = 0 ∧ radius.isNegative = true then (false, self)
            else (true, { self with m_radius := radius, m_center := center })

end BoundingVolumeCalculator

/-! ## The geometry view -/

/-- The values of `QGeometryView::PrimitiveType`, as listed in the documentation
of the enumeration in `qgeometryview.cpp`. -/
inductive QGeometryView.PrimitiveType where
  | Points | Lines | LineLoop | LineStrip | Triangles | TriangleStrip | TriangleFan
  | LinesAdjacency | TrianglesAdjacency | LineStripAdjacency | TriangleStripAdjacency | Patches
deriving DecidableEq

/-- Modelled from the spec: the well-known default position name returned by
`QAttribute::defaultPositionAttributeName()`, which is not among the sources. -/
def QAttribute.defaultPositionAttributeName : String := "vertexPosition"

/-- Modelled from the spec: a `QGeometry` with the member of `QGeometryPrivate`
read by the calculator (spec 6): its ordered attributes and the optional
explicit bounding-volume position attribute.  The geometry headers are not
among the sources. -/
structure QGeometry where
  attributes : List QAttribute
  m_boundingVolumePositionAttribute : Option QAttribute
deriving DecidableEq

/-- The members of `QGeometryViewPrivate` with the defaults of its constructor,
and the `isEnabled` flag inherited from `QNode`. -/
structure QGeometryView where
  isEnabled : Bool := true
  m_instanceCount : Int := 1
  m_vertexCount : Int := 0
  m_indexOffset : Int := 0
  m_firstInstance : Int := 0
  m_firstVertex : Int := 0
  m_indexBufferByteOffset : Int := 0
  m_restartIndexValue : Int := -1
  m_verticesPerPatch : Int := 0
  m_primitiveRestart : Bool := false
  m_geometry : Option QGeometry := none
  m_primitiveType : QGeometryView.PrimitiveType := QGeometryView.PrimitiveType.Triangles
  m_dirty : Bool := false
deriving DecidableEq

namespace QGeometryView

/-- The getter `QGeometryView::vertexCount`. -/
def vertexCount (q : QGeometryView) : Int := q.m_vertexCount

/-- The getter `QGeometryView::restartIndexValue`. -/
def restartIndexValue (q : QGeometryView) : Int := q.m_restartIndexValue

/-- The getter `QGeometryView::primitiveRestartEnabled`. -/
def primitiveRestartEnabled (q : QGeometryView) : Bool := q.m_primitiveRestart

/-- The getter `QGeometryView::geometry`. -/
def geometry (q : QGeometryView) : Option QGeometry := q.m_geometry

/-- The getter `QGeometryView::primitiveType`. -/
def primitiveType (q : QGeometryView) : QGeometryView.PrimitiveType := q.m_primitiveType

end QGeometryView

/-- The warning of `calculateLocalBoundingVolume` for an unsuited position
attribute. -/
def warnPositionNotSuited : String :=
  "calculateLocalBoundingVolume: Position attribute not suited for bounding volume computation"

/-- The warning of `calculateLocalBoundingVolume` for a position attribute
without a buffer. -/
def warnPositionNoBuffer : String :=
  "calculateLocalBoundingVolume: Position attribute not referencing a valid buffer"

/-- The warning of `calculateLocalBoundingVolume` for an index attribute of an
unsupported base type; the name of the attribute follows the text. -/
def warnUnsupportedIndex (indexAttribute : QAttribute) : String :=
  "calculateLocalBoundingVolume: Unsupported index attribute type " ++ indexAttribute.name

/-- The table `validIndexTypes` of `calculateLocalBoundingVolume`. -/
def validIndexTypes : List VertexBaseType :=
  [VertexBaseType.UnsignedShort, VertexBaseType.UnsignedInt, VertexBaseType.UnsignedByte]

/-- The position attribute chosen by `calculateLocalBoundingVolume`: the configured
`m_boundingVolumePositionAttribute`, or else the first attribute whose name is the
default position name. -/
def positionAttributeOf (geom : QGeometry) : Option QAttribute :=
  match geom.m_boundingVolumePositionAttribute with
  | some positionAttribute => some positionAttribute
  | none => geom.attributes.find? (fun attr => attr.name == QAttribute.defaultPositionAttributeName)

/-- The index attribute chosen by the loop of `calculateLocalBoundingVolume`: the
first attribute of type `IndexAttribute` that references a buffer. -/
def indexAttributeOf (geom : QGeometry) : Option QAttribute :=
  geom.attributes.find? (fun attr =>
    decide (attr.attributeType = AttributeType.IndexAttribute) && attr.buffer.isSome)

/-- The conversion `static_cast<int>(count)` of an unsigned 32-bit count to a
32-bit `int`: the value is kept modulo 2^32 in the range from -2^31 to 2^31 - 1,
so a count of 2^31 or more becomes negative. -/
def staticCastInt (count : Nat) : Int :=
  ((count : Int) + 2147483648) % 4294967296 - 2147483648

/-- The part of `calculateLocalBoundingVolume` before the call of `reader.apply`:
the warnings emitted and, unless the function returns early, the position
attribute, index attribute and draw count handed to `reader.apply`.  The count of
an attribute is unsigned and reaches the draw count through `static_cast<int>`.
The source evaluates `QGeometryPrivate::get(geom)` before it tests `geom` for null; the body
of that accessor is not among the sources and is taken not to fail. -/
def boundingVolumeArguments (node : QGeometryView) :
    List String × Option (QAttribute × Option QAttribute × Int) :=
  if !node.isEnabled then ([], none)
  else if node.primitiveType = QGeometryView.PrimitiveType.Patches then ([], none)
  else
    match node.geometry with
    | none => ([], none)
    | some geom =>
      let drawVertexCount := node.vertexCount
      match positionAttributeOf geom with
      | none => ([warnPositionNotSuited], none)
      | some positionAttribute =>
        if positionAttribute.attributeType ≠ AttributeType.VertexAttribute
            ∨ positionAttribute.vertexBaseType ≠ VertexBaseType.Float
            ∨ positionAttribute.vertexSize < 3 then
          ([warnPositionNotSuited], none)
        else
          match positionAttribute.buffer with
          | none => ([warnPositionNoBuffer], none)
          | some _ =>
            match indexAttributeOf geom with
            | some indexAttribute =>
              let drawVertexCount :=
                if drawVertexCount = 0 then staticCastInt indexAttribute.count else drawVertexCount
              if indexAttribute.vertexBaseType ∉ validIndexTypes then
                ([warnUnsupportedIndex indexAttribute], none)
              else
                ([], some (positionAttribute, some indexAttribute, drawVertexCount))
            | none =>
              let drawVertexCount :=
                if drawVertexCount = 0 then staticCastInt positionAttribute.count else drawVertexCount
              ([], some (positionAttribute, none, drawVertexCount))

/-- The function `calculateLocalBoundingVolume`: the returned pair `(min, max)`,
where the empty result `{}` is the pair of zero vectors, and the warnings
emitted. -/
def calculateLocalBoundingVolume (node : QGeometryView) :
    (Vector3D × Vector3D) × List String :=
  match boundingVolumeArguments node with
  | (warnings, none) => ((0, 0), warnings)
  | (warnings, some (positionAttribute, indexAttribute, drawVertexCount)) =>
    let reader := BoundingVolumeCalculator.apply {} (some positionAttribute) indexAttribute
      drawVertexCount node.primitiveRestartEnabled node.restartIndexValue
    if reader.1 then ((reader.2.m_min, reader.2.m_max), warnings)
    else ((0, 0), warnings)

/-! ## The visitors and the calculator over binary32 values -/

/-- A value of the type `float` (IEEE 754 binary32) with its special values: NaN,
the two infinities, and the finite values.  A finite value is kept as an exact
rational.  The comparisons are exact on all values.  The arithmetic adds to the
rationals what they lack, the overflow of a result to an infinity and the
propagation of NaN; the rounding of a finite result to 24 significant bits is
not modelled, so the arithmetic follows the code exactly on computations whose
finite results are representable.  The sign of a zero is not kept. -/
inductive Binary32 where
  | nan
  | inf (negative : Bool)
  | fin (q : ℚ)
deriving DecidableEq

namespace Binary32

/-- The result of an operation whose exact value is `q`: a magnitude of at least
2^128 - 2^103, the midpoint between the largest finite binary32 value and
2^128, is rounded to an infinity. -/
def ofExact (q : ℚ) : Binary32 :=
  if 2 ^ 128 - 2 ^ 103 ≤ q then inf false
  else if q ≤ -(2 ^ 128 - 2 ^ 103) then inf true
  else fin q

/-- The sum `a + b`. -/
def add : Binary32 → Binary32 → Binary32
  | fin a, fin b => ofExact (a + b)
  | fin _, inf t => inf t
  | inf s, fin _ => inf s
  | inf s, inf t => if s = t then inf s else nan
  | fin _, nan => nan
  | inf _, nan => nan
  | nan, _ => nan

/-- The difference `a - b`. -/
def sub : Binary32 → Binary32 → Binary32
  | fin a, fin b => ofExact (a - b)
  | fin _, inf t => inf (!t)
  | inf s, fin _ => inf s
  | inf s, inf t => if s = t then nan else inf s
  | fin _, nan => nan
  | inf _, nan => nan
  | nan, _ => nan

/-- The product `a * b`. -/
def mul : Binary32 → Binary32 → Binary32
  | fin a, fin b => ofExact (a * b)
  | fin a, inf t => if a = 0 then nan else inf (decide (a < 0) != t)
  | inf s, fin b => if b = 0 then nan else inf (s != decide (b < 0))
  | inf s, inf t => inf (s != t)
  | fin _, nan => nan
  | inf _, nan => nan
  | nan, _ => nan

/-- The comparison `a < b`; false when an operand is NaN. -/
def lt : Binary32 → Binary32 → Bool
  | fin a, fin b => decide (a < b)
  | fin _, inf t => !t
  | inf s, fin _ => s
  | inf s, inf t => s && !t
  | fin _, nan => false
  | inf _, nan => false
  | nan, _ => false

/-- The comparison `a == b`; false when an operand is NaN. -/
def eq : Binary32 → Binary32 → Bool
  | fin a, fin b => decide (a = b)
  | inf s, inf t => s == t
  | fin _, inf _ => false
  | inf _, fin _ => false
  | fin _, nan => false
  | inf _, nan => false
  | nan, _ => false

/-- The comparison `a <= b`; false when an operand is NaN. -/
def le (a b : Binary32) : Bool := lt a b || eq a b

/-- Modelled from the spec: the `Vector3D` value type of `vector3d_p.h`, which is
not among the sources; three float coordinates, here binary32 values. -/
structure Vector3D where
  x : Binary32
  y : Binary32
  z : Binary32
deriving DecidableEq

namespace Vector3D

/-- The default-constructed vector `Vector3D{}`. -/
instance : Zero Vector3D := ⟨⟨fin 0, fin 0, fin 0⟩⟩

/-- Componentwise `operator+`. -/
def add (a b : Vector3D) : Vector3D := ⟨a.x.add b.x, a.y.add b.y, a.z.add b.z⟩

/-- Componentwise `operator-`. -/
def sub (a b : Vector3D) : Vector3D := ⟨a.x.sub b.x, a.y.sub b.y, a.z.sub b.z⟩

/-- The product `v * f` of a vector with a float. -/
def scale (v : Vector3D) (f : Binary32) : Vector3D := ⟨v.x.mul f, v.y.mul f, v.z.mul f⟩

/-- The comparison `a == b` of two vectors, componentwise. -/
def eq (a b : Vector3D) : Bool := a.x.eq b.x && a.y.eq b.y && a.z.eq b.z

/-- The squared Euclidean length, `lengthSquared()`, computed in binary32. -/
def lengthSquared (v : Vector3D) : Binary32 :=
  ((v.x.mul v.x).add (v.y.mul v.y)).add (v.z.mul v.z)

end Vector3D

/-- The float values that the calculator keeps as a radius: a literal (the
initial `-1.f`) or the result of `length()` on a vector, which is kept
symbolically. -/
inductive Scalar where
  | lit (v : Binary32)
  | length (v : Vector3D)
deriving DecidableEq

/-- The test `r < 0.f`: a literal is compared directly; a result of `length()` is a
square root, an infinity or NaN and never compares below zero. -/
def Scalar.isNegative : Scalar → Bool
  | Scalar.lit v => v.lt (fin 0)
  | Scalar.length _ => false

/-- The state of the visitor `FindExtremePoints` over binary32 values. -/
structure FindExtremePoints where
  xMin : Binary32 := fin 0
  xMax : Binary32 := fin 0
  yMin : Binary32 := fin 0
  yMax : Binary32 := fin 0
  zMin : Binary32 := fin 0
  zMax : Binary32 := fin 0
  xMinPt : Vector3D := 0
  xMaxPt : Vector3D := 0
  yMinPt : Vector3D := 0
  yMaxPt : Vector3D := 0
  zMinPt : Vector3D := 0
  zMaxPt : Vector3D := 0
deriving DecidableEq

namespace FindExtremePoints

/-- The callback `FindExtremePoints::visit(ndx, x, y, z)` over binary32 values. -/
def visit (s : FindExtremePoints) (ndx : Nat) (x y z : Binary32) : FindExtremePoints :=
  if ndx ≠ 0 then
    let s := if x.lt s.xMin then { s with xMin := x, xMinPt := ⟨x, y, z⟩ } else s
    let s := if s.xMax.lt x then { s with xMax := x, xMaxPt := ⟨x, y, z⟩ } else s
    let s := if y.lt s.yMin then { s with yMin := y, yMinPt := ⟨x, y, z⟩ } else s
    let s := if s.yMax.lt y then { s with yMax := y, yMaxPt := ⟨x, y, z⟩ } else s
    let s := if z.lt s.zMin then { s with zMin := z, zMinPt := ⟨x, y, z⟩ } else s
    let s := if s.zMax.lt z then { s with zMax := z, zMaxPt := ⟨x, y, z⟩ } else s
    s
  else
    { xMin := x, xMax := x, yMin := y, yMax := y, zMin := z, zMax := z,
      xMinPt := ⟨x, y, z⟩, xMaxPt := ⟨x, y, z⟩, yMinPt := ⟨x, y, z⟩,
      yMaxPt := ⟨x, y, z⟩, zMinPt := ⟨x, y, z⟩, zMaxPt := ⟨x, y, z⟩ }

/-- The inherited `apply`.  The traversal of `Buffer3fVisitor` is not among the
sources and is a parameter here: `traversal` is the sequence of callbacks it
makes, or `none` when it fails.  The callbacks are fed to `visit`. -/
def apply (s : FindExtremePoints) (traversal : Option (List (Nat × Vector3D))) :
    Option FindExtremePoints :=
  traversal.map (fun cs => cs.foldl (fun s c => s.visit c.1 c.2.x c.2.y c.2.z) s)

end FindExtremePoints

/-- The state of the visitor `FindMaxDistantPoint` over binary32 values. -/
structure FindMaxDistantPoint where
  maxLengthSquared : Binary32 := fin 0
  setReferencePoint : Bool := false
  hasNoPoints : Bool := true
  maxDistPt : Vector3D := 0
  referencePt : Vector3D := 0
deriving DecidableEq

namespace FindMaxDistantPoint

/-- The callback `FindMaxDistantPoint::visit(ndx, x, y, z)` over binary32 values;
`ndx` is unused. -/
def visit (s : FindMaxDistantPoint) (_ndx : Nat) (x y z : Binary32) : FindMaxDistantPoint :=
  let p : Vector3D := ⟨x, y, z⟩
  let s := if s.hasNoPoints && s.setReferencePoint then
      { s with maxLengthSquared := fin 0, referencePt := p } else s
  let lengthSquared := (p.sub s.referencePt).lengthSquared
  let s := if s.maxLengthSquared.le lengthSquared then
      { s with maxDistPt := p, maxLengthSquared := lengthSquared } else s
  { s with hasNoPoints := false }

/-- The inherited `apply`.  The traversal of `Buffer3fVisitor` is not among the
sources and is a parameter here: `traversal` is the sequence of callbacks it
makes, or `none` when it fails.  The callbacks are fed to `visit`. -/
def apply (s : FindMaxDistantPoint) (traversal : Option (List (Nat × Vector3D))) :
    Option FindMaxDistantPoint :=
  traversal.map (fun cs => cs.foldl (fun s c => s.visit c.1 c.2.x c.2.y c.2.z) s)

end FindMaxDistantPoint

/-- The members of `BoundingVolumeCalculator` over binary32 values. -/
structure BoundingVolumeCalculator where
  m_min : Vector3D := 0
  m_max : Vector3D := 0
  m_center : Vector3D := 0
  m_radius : Scalar := Scalar.lit (fin (-1))
deriving DecidableEq

namespace BoundingVolumeCalculator

/-- The method `BoundingVolumeCalculator::apply` over binary32 values: the returned
flag and the members after the call.  The four traversals of the source run
over the same attributes with the same arguments and make the same callbacks,
which are the parameter `traversal` (`none` when the traversal fails). -/
def apply (self : BoundingVolumeCalculator) (traversal : Option (List (Nat × Vector3D))) :
    Bool × BoundingVolumeCalculator :=
  let self := { self with m_radius := Scalar.lit (fin (-1)) }
  match FindExtremePoints.apply {} traversal with
  | none => (false, self)
  | some findExtremePoints =>
    let self := { self with
      m_min := ⟨findExtremePoints.xMin, findExtremePoints.yMin, findExtremePoints.zMin⟩,
      m_max := ⟨findExtremePoints.xMax, findExtremePoints.yMax, findExtremePoints.zMax⟩ }
    match FindMaxDistantPoint.apply { setReferencePoint := true } traversal with
    | none => (false, self)
    | some maxDistantPointY =>
      if maxDistantPointY.hasNoPoints then (false, self)
      else
        let y := maxDistantPointY.maxDistPt
        match FindMaxDistantPoint.apply { setReferencePoint := false, referencePt := y }
            traversal with
        | none => (false, self)
        | some maxDistantPointZ =>
          let z := maxDistantPointZ.maxDistPt
          let center := (y.add z).scale (fin (1 / 2))
          match FindMaxDistantPoint.apply { setReferencePoint := false, referencePt := center }
              traversal with
          | none => (false, self)
          | some maxDistantPointCenter =>
            let radius := Scalar.length (center.sub maxDistantPointCenter.maxDistPt)
            if center.eq 0 && radius.isNegative then (false, self)
            else (true, { self with m_radius := radius, m_center := center })

end BoundingVolumeCalculator

end Binary32

/-! ## Sample inputs -/

/-- An unindexed position attribute with three F32 components over the given
points. -/
def positionsOf (pts : List Vector3D) : QAttribute :=
  { name := "vertexPosition", attributeType := AttributeType.VertexAttribute,
    vertexBaseType := VertexBaseType.Float, vertexSize := 3, count := pts.length,
    byteOffset := 0, byteStride := 0, buffer := some { positions := pts, indices := [] } }

/-- An index attribute of the given base type over the given indices. -/
def indicesOf (t : VertexBaseType) (ix : List Nat) : QAttribute :=
  { name := "", attributeType := AttributeType.IndexAttribute,
    vertexBaseType := t, vertexSize := 1, count := ix.length,
    byteOffset := 0, byteStride := 0, buffer := some { positions := [], indices := ix } }

/-! ## Auxiliary definitions for the proofs -/

/-- The points of a callback sequence, in order. -/
def points (cs : List (Nat × Vector3D)) : List Vector3D := cs.map Prod.snd

/-- The squared distance between two points. -/
def distSq (p q : Vector3D) : ℚ := (p - q).lengthSquared

/-- The point `m` is one of `pts` and no point of `pts` is farther from `ref`. -/
def IsFarthest (ref : Vector3D) (pts : List Vector3D) (m : Vector3D) : Prop :=
  m ∈ pts ∧ ∀ p ∈ pts, distSq p ref ≤ distSq m ref

/-- The least of `m` and the `c`-coordinates of the points. -/
def foldMin (c : Vector3D → ℚ) (m : ℚ) (pts : List Vector3D) : ℚ :=
  pts.foldl (fun m p => min m (c p)) m

/-- The greatest of `m` and the `c`-coordinates of the points. -/
def foldMax (c : Vector3D → ℚ) (m : ℚ) (pts : List Vector3D) : ℚ :=
  pts.foldl (fun m p => max m (c p)) m

namespace FindExtremePoints

/-- The visitor fed the given points with the ordinals `ndx`, `ndx + 1`, ... -/
def run (s : FindExtremePoints) (ndx : Nat) : List Vector3D → FindExtremePoints
  | [] => s
  | p :: ps => run (s.visit ndx p.x p.y p.z) (ndx + 1) ps

/-- The corner of the three recorded minima. -/
def lo (s : FindExtremePoints) : Vector3D := ⟨s.xMin, s.yMin, s.zMin⟩

/-- The corner of the three recorded maxima. -/
def hi (s : FindExtremePoints) : Vector3D := ⟨s.xMax, s.yMax, s.zMax⟩

/-- The first of the six updates of `visit` for a non-zero ordinal. -/
def stepXMin (s : FindExtremePoints) (x y z : ℚ) : FindExtremePoints :=
  if x < s.xMin then { s with xMin := x, xMinPt := ⟨x, y, z⟩ } else s

/-- The second of the six updates. -/
def stepXMax (s : FindExtremePoints) (x y z : ℚ) : FindExtremePoints :=
  if x > s.xMax then { s with xMax := x, xMaxPt := ⟨x, y, z⟩ } else s

/-- The third of the six updates. -/
def stepYMin (s : FindExtremePoints) (x y z : ℚ) : FindExtremePoints :=
  if y < s.yMin then { s with yMin := y, yMinPt := ⟨x, y, z⟩ } else s

/-- The fourth of the six updates. -/
def stepYMax (s : FindExtremePoints) (x y z : ℚ) : FindExtremePoints :=
  if y > s.yMax then { s with yMax := y, yMaxPt := ⟨x, y, z⟩ } else s

/-- The fifth of the six updates. -/
def stepZMin (s : FindExtremePoints) (x y z : ℚ) : FindExtremePoints :=
  if z < s.zMin then { s with zMin := z, zMinPt := ⟨x, y, z⟩ } else s

/-- The last of the six updates. -/
def stepZMax (s : FindExtremePoints) (x y z : ℚ) : FindExtremePoints :=
  if z > s.zMax then { s with zMax := z, zMaxPt := ⟨x, y, z⟩ } else s

end FindExtremePoints

/-- The visitor `FindMaxDistantPoint` fed the given points in order. -/
def FindMaxDistantPoint.run (s : FindMaxDistantPoint) : List Vector3D → FindMaxDistantPoint
  | [] => s
  | p :: ps => FindMaxDistantPoint.run (s.visit 0 p.x p.y p.z) ps

/-- The point `y` recorded by pass 2 (seeded with the first visited point). -/
def ritterY (pts : List Vector3D) : Vector3D :=
  (FindMaxDistantPoint.run { setReferencePoint := true } pts).maxDistPt

/-- The point `z` recorded by pass 3 (reference point `y`). -/
def ritterZ (pts : List Vector3D) : Vector3D :=
  (FindMaxDistantPoint.run { setReferencePoint := false, referencePt := ritterY pts } pts).maxDistPt

/-- The centre `(y + z) * .5f`. -/
def ritterCenter (pts : List Vector3D) : Vector3D :=
  (ritterY pts + ritterZ pts).scale (1 / 2)

/-- The point recorded by pass 4 (reference point `center`). -/
def ritterFar (pts : List Vector3D) : Vector3D :=
  (FindMaxDistantPoint.run { setReferencePoint := false, referencePt := ritterCenter pts }
    pts).maxDistPt

/-- The members after a successful `apply` whose traversals visit `p :: ps`. -/
def ritter (p : Vector3D) (ps : List Vector3D) : BoundingVolumeCalculator :=
  { m_min := ⟨foldMin Vector3D.x p.x ps, foldMin Vector3D.y p.y ps, foldMin Vector3D.z p.z ps⟩,
    m_max := ⟨foldMax Vector3D.x p.x ps, foldMax Vector3D.y p.y ps, foldMax Vector3D.z p.z ps⟩,
    m_center := ritterCenter (p :: ps),
    m_radius := (ritterCenter (p :: ps) - ritterFar (p :: ps)).length }

/-- The image of a point under `p ↦ s * p + t`. -/
def Vector3D.affine (s : ℚ) (t p : Vector3D) : Vector3D := p.scale s + t

/-- The indexed traversal loop over an explicit list of raw indices. -/
def Buffer3fVisitor.loopRaw (positions : List Vector3D) (re : Bool) (ri : Int) :
    List Nat → Nat → Option (List (Nat × Vector3D))
  | [], _ => some []
  | idx :: rest, ordinal =>
    if re && decide ((idx : Int) = ri) then
      Buffer3fVisitor.loopRaw positions re ri rest ordinal
    else
      match positions[idx]? with
      | none => none
      | some p =>
        (Buffer3fVisitor.loopRaw positions re ri rest (ordinal + 1)).map
          (fun cs => (ordinal, p) :: cs)

/-- The right triangle of the indexed-triangle scenario. -/
def triangle : List Vector3D := [⟨0, 0, 0⟩, ⟨1, 0, 0⟩, ⟨0, 1, 0⟩]

/-- The callbacks of a traversal of `triangle` in order. -/
def triangleCallbacks : List (Nat × Vector3D) :=
  [(0, ⟨0, 0, 0⟩), (1, ⟨1, 0, 0⟩), (2, ⟨0, 1, 0⟩)]

/-- Four coplanar points whose first three give a larger sphere than all four. -/
def truncationPoints : List Vector3D := [⟨0, 0, 0⟩, ⟨6, 0, 0⟩, ⟨3, 6, 0⟩, ⟨3, -2, 0⟩]

/-- The image of a `FindMaxDistantPoint` state under `p ↦ s * p + t`. -/
def FindMaxDistantPoint.mapState (s : ℚ) (t : Vector3D) (a : FindMaxDistantPoint) :
    FindMaxDistantPoint :=
  { maxLengthSquared := s * s * a.maxLengthSquared,
    setReferencePoint := a.setReferencePoint,
    hasNoPoints := a.hasNoPoints,
    maxDistPt := Vector3D.affine s t a.maxDistPt,
    referencePt := Vector3D.affine s t a.referencePt }

/-- The callbacks of a traversal of `triangle` translated by `(1, 2, 3)`. -/
def shiftedCallbacks : List (Nat × Vector3D) :=
  [(0, ⟨1, 2, 3⟩), (1, ⟨2, 2, 3⟩), (2, ⟨1, 3, 3⟩)]

/-- The callbacks of a traversal of `triangle` scaled by `2`. -/
def scaledCallbacks : List (Nat × Vector3D) :=
  [(0, ⟨0, 0, 0⟩), (1, ⟨2, 0, 0⟩), (2, ⟨0, 2, 0⟩)]

/-- The corners `(±1, ±1, ±1)` of the unit-cube scenario. -/
def cubeCorners : List Vector3D :=
  [⟨-1, -1, -1⟩, ⟨-1, -1, 1⟩, ⟨-1, 1, -1⟩, ⟨-1, 1, 1⟩,
   ⟨1, -1, -1⟩, ⟨1, -1, 1⟩, ⟨1, 1, -1⟩, ⟨1, 1, 1⟩]

/-- The callbacks of a traversal of `cubeCorners` in the listed order. -/
def cubeCallbacks : List (Nat × Vector3D) :=
  [(0, ⟨-1, -1, -1⟩), (1, ⟨-1, -1, 1⟩), (2, ⟨-1, 1, -1⟩), (3, ⟨-1, 1, 1⟩),
   (4, ⟨1, -1, -1⟩), (5, ⟨1, -1, 1⟩), (6, ⟨1, 1, -1⟩), (7, ⟨1, 1, 1⟩)]

/-- The dot product of two vectors. -/
def Vector3D.dot (u v : Vector3D) : ℚ := u.x * v.x + u.y * v.y + u.z * v.z

/-- The count used when the node's `vertexCount` is zero: the count of the index
attribute if there is one, else the count of the position attribute, each
converted by `static_cast<int>`. -/
def defaultDrawCount (pa : QAttribute) (ia : Option QAttribute) : Int :=
  match ia with
  | some i => staticCastInt i.count
  | none => staticCastInt pa.count

/-- The geometry of the indexed-triangle scenario: positions and U16 indices. -/
def triangleGeometry : QGeometry :=
  { attributes := [positionsOf triangle, indicesOf VertexBaseType.UnsignedShort [0, 1, 2]],
    m_boundingVolumePositionAttribute := none }

/-- An enabled node over `triangleGeometry` with the defaults of the constructor. -/
def triangleNode : QGeometryView := { m_geometry := some triangleGeometry }

/-- The node `triangleNode` with the primitive type `Patches`. -/
def patchesNode : QGeometryView :=
  { m_geometry := some triangleGeometry, m_primitiveType := QGeometryView.PrimitiveType.Patches }

/-- A node whose position attribute has only two components. -/
def flatNode : QGeometryView :=
  { m_geometry := some
      { attributes := [{ positionsOf triangle with vertexSize := 2 }],
        m_boundingVolumePositionAttribute := none } }

/-- A node whose only index attribute has base type `Float` and no buffer. -/
def floatIndexNoBufferNode : QGeometryView :=
  { m_geometry := some
      { attributes := [positionsOf triangle,
          { indicesOf VertexBaseType.Float [0, 1, 2] with buffer := none }],
        m_boundingVolumePositionAttribute := none } }

/-- A node with a U16 index attribute followed by a `Float` index attribute. -/
def twoIndexNode : QGeometryView :=
  { m_geometry := some
      { attributes := [positionsOf triangle, indicesOf VertexBaseType.UnsignedShort [0, 1, 2],
          indicesOf VertexBaseType.Float [0, 1, 2]],
        m_boundingVolumePositionAttribute := none } }

/-- A node whose index attribute has base type `Float` and a buffer. -/
def floatIndexNode : QGeometryView :=
  { m_geometry := some
      { attributes := [positionsOf triangle, indicesOf VertexBaseType.Float [0, 1, 2]],
        m_boundingVolumePositionAttribute := none } }

/-- A node whose position attribute references no buffer. -/
def noBufferNode : QGeometryView :=
  { m_geometry := some
      { attributes := [{ positionsOf triangle with buffer := none }],
        m_boundingVolumePositionAttribute := none } }

/-- A node with restart enabled whose indices all equal the restart value 7. -/
def restartOnlyNode : QGeometryView :=
  { m_geometry := some
      { attributes := [positionsOf triangle, indicesOf VertexBaseType.UnsignedInt [7, 7]],
        m_boundingVolumePositionAttribute := none },
    m_primitiveRestart := true, m_restartIndexValue := 7 }

/-- An enabled node over a single position at the origin, unindexed. -/
def originNode : QGeometryView :=
  { m_geometry := some
      { attributes := [positionsOf [⟨0, 0, 0⟩]], m_boundingVolumePositionAttribute := none } }

/-- The node `triangleNode`, disabled. -/
def disabledNode : QGeometryView := { m_geometry := some triangleGeometry, isEnabled := false }

/-- A node whose position attribute reports the count 0x80000003 over the three
points of the triangle, unindexed, with `vertexCount = 0`. -/
def wrappedCountNode : QGeometryView :=
  { m_geometry := some
      { attributes := [{ positionsOf triangle with count := 2147483651 }],
        m_boundingVolumePositionAttribute := none } }

/-- The dot product of two vectors, computed in binary32. -/
def Binary32.Vector3D.dot (u v : Binary32.Vector3D) : Binary32 :=
  ((u.x.mul v.x).add (u.y.mul v.y)).add (u.z.mul v.z)

/-- The callbacks of a traversal of the two points (NaN, 0, 0) and (1, 2, 3). -/
def Binary32.nanCallbacks : List (Nat × Binary32.Vector3D) :=
  [(0, ⟨Binary32.nan, Binary32.fin 0, Binary32.fin 0⟩),
   (1, ⟨Binary32.fin 1, Binary32.fin 2, Binary32.fin 3⟩)]

/-- The callbacks of a traversal of the single point (2^127, 0, 0). -/
def Binary32.hugeCallbacks : List (Nat × Binary32.Vector3D) :=
  [(0, ⟨Binary32.fin (2 ^ 127), Binary32.fin 0, Binary32.fin 0⟩)]

/-- The callbacks of a traversal of the right triangle A = (0, 0, 0),
B = (2^64, 0, 0), C = (0, 2^64, 0) in the order C, B, A. -/
def Binary32.hugeTriangleCallbacks : List (Nat × Binary32.Vector3D) :=
  [(0, ⟨Binary32.fin 0, Binary32.fin (2 ^ 64), Binary32.fin 0⟩),
   (1, ⟨Binary32.fin (2 ^ 64), Binary32.fin 0, Binary32.fin 0⟩),
   (2, ⟨Binary32.fin 0, Binary32.fin 0, Binary32.fin 0⟩)]

namespace Binary32

/-- The visitor `FindExtremePoints` over binary32 values fed the given points with
the ordinals `ndx`, `ndx + 1`, ... -/
def FindExtremePoints.run (s : FindExtremePoints) (ndx : Nat) :
    List Vector3D → FindExtremePoints
  | [] => s
  | p :: ps => FindExtremePoints.run (s.visit ndx p.x p.y p.z) (ndx + 1) ps

/-- The update of one extreme and its point by a visit with a non-zero ordinal:
the point `p` replaces the pair when `r (c p) m` holds, where `m` is the extreme
so far (`r a b` is `a < b` for a minimum and `a > b` for a maximum). -/
def pick (r : Binary32 → Binary32 → Bool) (c : Vector3D → Binary32)
    (acc : Binary32 × Vector3D) (p : Vector3D) : Binary32 × Vector3D :=
  if r (c p) acc.1 then (c p, p) else acc

/-- The value `m` is a lower bound of the `c`-coordinates of `pts` and `b` is the
first point of `pts` that attains it. -/
def IsFirstMin (c : Vector3D → Binary32) (pts : List Vector3D) (m : Binary32)
    (b : Vector3D) : Prop :=
  c b = m ∧ (∀ q ∈ pts, m.le (c q) = true) ∧
    ∃ pre post, pts = pre ++ b :: post ∧ ∀ q ∈ pre, m.lt (c q) = true

/-- The value `m` is an upper bound of the `c`-coordinates of `pts` and `b` is the
first point of `pts` that attains it. -/
def IsFirstMax (c : Vector3D → Binary32) (pts : List Vector3D) (m : Binary32)
    (b : Vector3D) : Prop :=
  c b = m ∧ (∀ q ∈ pts, (c q).le m = true) ∧
    ∃ pre post, pts = pre ++ b :: post ∧ ∀ q ∈ pre, (c q).lt m = true

/-- No coordinate of the point is NaN. -/
def Vector3D.NoNaN (p : Vector3D) : Prop := p.x ≠ nan ∧ p.y ≠ nan ∧ p.z ≠ nan

end Binary32

namespace Binary32.FindExtremePoints

/-- The first of the six updates of `visit` for a non-zero ordinal. -/
def stepXMin (s : FindExtremePoints) (x y z : Binary32) : FindExtremePoints :=
  if x.lt s.xMin then { s with xMin := x, xMinPt := ⟨x, y, z⟩ } else s

/-- The second of the six updates. -/
def stepXMax (s : FindExtremePoints) (x y z : Binary32) : FindExtremePoints :=
  if s.xMax.lt x then { s with xMax := x, xMaxPt := ⟨x, y, z⟩ } else s

/-- The third of the six updates. -/
def stepYMin (s : FindExtremePoints) (x y z : Binary32) : FindExtremePoints :=
  if y.lt s.yMin then { s with yMin := y, yMinPt := ⟨x, y, z⟩ } else s

/-- The fourth of the six updates. -/
def stepYMax (s : FindExtremePoints) (x y z : Binary32) : FindExtremePoints :=
  if s.yMax.lt y then { s with yMax := y, yMaxPt := ⟨x, y, z⟩ } else s

/-- The fifth of the six updates. -/
def stepZMin (s : FindExtremePoints) (x y z : Binary32) : FindExtremePoints :=
  if z.lt s.zMin then { s with zMin := z, zMinPt := ⟨x, y, z⟩ } else s

/-- The last of the six updates. -/
def stepZMax (s : FindExtremePoints) (x y z : Binary32) : FindExtremePoints :=
  if s.zMax.lt z then { s with zMax := z, zMaxPt := ⟨x, y, z⟩ } else s

/-- The six extremes of the visitor, each with its recorded point. -/
def pairs (s : FindExtremePoints) :
    (Binary32 × Vector3D) × (Binary32 × Vector3D) × (Binary32 × Vector3D) ×
    (Binary32 × Vector3D) × (Binary32 × Vector3D) × (Binary32 × Vector3D) :=
  ((s.xMin, s.xMinPt), (s.xMax, s.xMaxPt), (s.yMin, s.yMinPt), (s.yMax, s.yMaxPt),
    (s.zMin, s.zMinPt), (s.zMax, s.zMaxPt))

end Binary32.FindExtremePoints

/-- The callbacks of a traversal of the two points (-inf, 0, 0) and (1, 2, 3). -/
def Binary32.infCallbacks : List (Nat × Binary32.Vector3D) :=
  [(0, ⟨Binary32.inf true, Binary32.fin 0, Binary32.fin 0⟩),
   (1, ⟨Binary32.fin 1, Binary32.fin 2, Binary32.fin 3⟩)]

/-! ## Basic facts -/

theorem Vector3D.sub_def (a b : Vector3D) : a - b = ⟨a.x - b.x, a.y - b.y, a.z - b.z⟩ := rfl
theorem Vector3D.add_def (a b : Vector3D) : a + b = ⟨a.x + b.x, a.y + b.y, a.z + b.z⟩ := rfl
theorem Vector3D.zero_def : (0 : Vector3D) = ⟨0, 0, 0⟩ := rfl

theorem distSq_def (p q : Vector3D) :
    distSq p q = (p.x - q.x) * (p.x - q.x) + (p.y - q.y) * (p.y - q.y)
      + (p.z - q.z) * (p.z - q.z) := rfl

theorem distSq_nonneg (p q : Vector3D) : 0 ≤ distSq p q := by
  rw [distSq_def]
  nlinarith [mul_self_nonneg (p.x - q.x), mul_self_nonneg (p.y - q.y), mul_self_nonneg (p.z - q.z)]

theorem distSq_self (p : Vector3D) : distSq p p = 0 := by
  rw [distSq_def]; ring

theorem distSq_comm (p q : Vector3D) : distSq p q = distSq q p := by
  rw [distSq_def, distSq_def]; ring

theorem FindMaxDistantPoint.visit_stable (s : FindMaxDistantPoint) (n : Nat) (p : Vector3D)
    (hs : (s.hasNoPoints && s.setReferencePoint) = false) :
    s.visit n p.x p.y p.z =
      { s with
        maxDistPt := if s.maxLengthSquared ≤ distSq p s.referencePt then p else s.maxDistPt,
        maxLengthSquared := if s.maxLengthSquared ≤ distSq p s.referencePt
          then distSq p s.referencePt else s.maxLengthSquared,
        hasNoPoints := false } := by
  unfold FindMaxDistantPoint.visit
  simp only [hs, Bool.false_eq_true, if_false, ge_iff_le]
  by_cases h : s.maxLengthSquared ≤ distSq p s.referencePt
  · have h' : s.maxLengthSquared ≤ ((⟨p.x, p.y, p.z⟩ : Vector3D) - s.referencePt).lengthSquared := h
    simp only [h, h', if_true]; rfl
  · have h' : ¬ s.maxLengthSquared ≤ ((⟨p.x, p.y, p.z⟩ : Vector3D) - s.referencePt).lengthSquared := h
    simp only [h, h', if_false]

theorem FindMaxDistantPoint.visit_first (s : FindMaxDistantPoint) (n : Nat) (p : Vector3D)
    (hs : s.hasNoPoints = true) (hr : s.setReferencePoint = true) :
    s.visit n p.x p.y p.z =
      { s with maxDistPt := p, maxLengthSquared := 0, referencePt := p, hasNoPoints := false } := by
  unfold FindMaxDistantPoint.visit
  have h0 : ((⟨p.x, p.y, p.z⟩ : Vector3D) - ⟨p.x, p.y, p.z⟩).lengthSquared = 0 := distSq_self p
  simp [hs, hr, h0]

theorem FindMaxDistantPoint.visit_stable_cases (s : FindMaxDistantPoint) (n : Nat) (p : Vector3D)
    (hs : (s.hasNoPoints && s.setReferencePoint) = false) :
    (s.visit n p.x p.y p.z).referencePt = s.referencePt ∧
    (s.visit n p.x p.y p.z).setReferencePoint = s.setReferencePoint ∧
    (s.visit n p.x p.y p.z).hasNoPoints = false ∧
    ((s.maxLengthSquared ≤ distSq p s.referencePt ∧ (s.visit n p.x p.y p.z).maxDistPt = p ∧
        (s.visit n p.x p.y p.z).maxLengthSquared = distSq p s.referencePt) ∨
      (distSq p s.referencePt < s.maxLengthSquared ∧
        (s.visit n p.x p.y p.z).maxDistPt = s.maxDistPt ∧
        (s.visit n p.x p.y p.z).maxLengthSquared = s.maxLengthSquared)) := by
  rw [FindMaxDistantPoint.visit_stable s n p hs]
  refine ⟨rfl, rfl, rfl, ?_⟩
  by_cases h : s.maxLengthSquared ≤ distSq p s.referencePt
  · left; simp [h]
  · right; simp [h, not_le.1 h]

theorem FindMaxDistantPoint.run_stable : ∀ (pts : List Vector3D) (s : FindMaxDistantPoint),
    (s.hasNoPoints && s.setReferencePoint) = false →
    (s.run pts).referencePt = s.referencePt ∧
    (s.run pts).setReferencePoint = s.setReferencePoint ∧
    s.maxLengthSquared ≤ (s.run pts).maxLengthSquared ∧
    (∀ p ∈ pts, distSq p s.referencePt ≤ (s.run pts).maxLengthSquared) ∧
    (((s.run pts).maxDistPt = s.maxDistPt ∧ (s.run pts).maxLengthSquared = s.maxLengthSquared ∧
        ∀ p ∈ pts, distSq p s.referencePt < s.maxLengthSquared) ∨
      ((s.run pts).maxDistPt ∈ pts ∧
        distSq (s.run pts).maxDistPt s.referencePt = (s.run pts).maxLengthSquared)) := by
  intro pts
  induction pts with
  | nil =>
    intro s _
    simp [FindMaxDistantPoint.run]
  | cons p ps ih =>
    intro s hs
    obtain ⟨v1, v2, v3, v4⟩ := FindMaxDistantPoint.visit_stable_cases s 0 p hs
    obtain ⟨h1, h2, h3, h4, h5⟩ := ih (s.visit 0 p.x p.y p.z) (by simp [v3])
    simp only [FindMaxDistantPoint.run]
    rw [v1] at h1 h4 h5
    rw [v2] at h2
    refine ⟨h1, h2, ?_, ?_, ?_⟩
    · rcases v4 with ⟨a, _, c⟩ | ⟨a, _, c⟩
      · rw [c] at h3; exact le_trans a h3
      · rw [c] at h3; exact h3
    · intro q hq
      rcases List.mem_cons.1 hq with rfl | hq
      · rcases v4 with ⟨_, _, c⟩ | ⟨a, _, c⟩
        · rw [c] at h3; exact h3
        · rw [c] at h3; exact le_trans (le_of_lt a) h3
      · exact h4 q hq
    · rcases h5 with ⟨e1, e2, e3⟩ | ⟨m1, m2⟩
      · rcases v4 with ⟨_, b, c⟩ | ⟨a, b, c⟩
        · right
          rw [e1, e2, b, c]
          exact ⟨List.mem_cons_self _ _, rfl⟩
        · left
          rw [e1, e2, b, c]
          refine ⟨rfl, rfl, ?_⟩
          intro q hq
          rcases List.mem_cons.1 hq with rfl | hq
          · exact a
          · have := e3 q hq
            rw [c] at this
            exact this
      · right
        exact ⟨List.mem_cons_of_mem _ m1, m2⟩

theorem FindMaxDistantPoint.run_hasNoPoints_of_false : ∀ (pts : List Vector3D)
    (s : FindMaxDistantPoint), s.hasNoPoints = false → (s.run pts).hasNoPoints = false := by
  intro pts
  induction pts with
  | nil => intro s h; exact h
  | cons p ps ih => intro s _; exact ih _ rfl

theorem FindMaxDistantPoint.run_hasNoPoints (s : FindMaxDistantPoint) (p : Vector3D)
    (ps : List Vector3D) : (s.run (p :: ps)).hasNoPoints = false :=
  FindMaxDistantPoint.run_hasNoPoints_of_false ps _ rfl

/-- After a pass with a fixed reference point over a non-empty sequence, the
recorded point is a farthest visited point. -/
theorem FindMaxDistantPoint.run_isFarthest (ref : Vector3D) (pts : List Vector3D)
    (h : pts ≠ []) :
    IsFarthest ref pts
      (FindMaxDistantPoint.run { setReferencePoint := false, referencePt := ref } pts).maxDistPt := by
  obtain ⟨_, _, _, h4, h5⟩ := FindMaxDistantPoint.run_stable pts
    { setReferencePoint := false, referencePt := ref } (by simp)
  simp only at h4 h5
  rcases h5 with ⟨_, _, e3⟩ | ⟨m1, m2⟩
  · obtain ⟨p, ps, rfl⟩ := List.exists_cons_of_ne_nil h
    exact absurd (e3 p (List.mem_cons_self _ _)) (not_lt.2 (distSq_nonneg _ _))
  · refine ⟨m1, ?_⟩
    intro p hp
    rw [m2]
    exact h4 p hp

/-- After the seeding pass over a non-empty sequence, the recorded point is a
visited point farthest from the first visited point. -/
theorem FindMaxDistantPoint.run_isFarthest_seed (p : Vector3D) (ps : List Vector3D) :
    IsFarthest p (p :: ps)
      (FindMaxDistantPoint.run { setReferencePoint := true } (p :: ps)).maxDistPt := by
  simp only [FindMaxDistantPoint.run]
  rw [FindMaxDistantPoint.visit_first _ 0 p rfl rfl]
  obtain ⟨_, _, h3, h4, h5⟩ := FindMaxDistantPoint.run_stable ps
    { maxLengthSquared := 0, setReferencePoint := true, hasNoPoints := false, maxDistPt := p,
      referencePt := p } (by simp)
  simp only at h3 h4 h5
  rcases h5 with ⟨e1, e2, _⟩ | ⟨m1, m2⟩
  · rw [e1]
    refine ⟨List.mem_cons_self _ _, ?_⟩
    intro q hq
    rw [distSq_self]
    rcases List.mem_cons.1 hq with rfl | hq
    · rw [distSq_self]
    · have := h4 q hq
      rw [e2] at this
      exact this
  · refine ⟨List.mem_cons_of_mem _ m1, ?_⟩
    intro q hq
    rw [m2]
    rcases List.mem_cons.1 hq with rfl | hq
    · rw [distSq_self]; exact h3
    · exact h4 q hq

/-! ## The traversal and the visitors -/

theorem loop_ordinals (positions : List Vector3D) (indices : Option (List Nat)) (re : Bool)
    (ri : Int) : ∀ (remaining i ordinal : Nat) (cs : List (Nat × Vector3D)),
    Buffer3fVisitor.loop positions indices re ri remaining i ordinal = some cs →
    cs.map Prod.fst = List.range' ordinal cs.length := by
  intro remaining
  induction remaining with
  | zero =>
    intro i ordinal cs h
    simp only [Buffer3fVisitor.loop, Option.some.injEq] at h
    subst h; rfl
  | succ k ih =>
    intro i ordinal cs h
    unfold Buffer3fVisitor.loop at h
    split at h
    · split at h
      · exact absurd h (by simp)
      · split at h
        · exact ih _ _ _ h
        · split at h
          · exact absurd h (by simp)
          · rcases hl : Buffer3fVisitor.loop positions (some _) re ri k (i + 1) (ordinal + 1) with _ | cs'
            · rw [hl] at h; exact absurd h (by simp)
            · rw [hl] at h
              simp only [Option.map_some', Option.some.injEq] at h
              subst h
              simp [List.range'_succ, ih _ _ _ hl]
    · split at h
      · exact absurd h (by simp)
      · rcases hl : Buffer3fVisitor.loop positions none re ri k (i + 1) (ordinal + 1) with _ | cs'
        · rw [hl] at h; exact absurd h (by simp)
        · rw [hl] at h
          simp only [Option.map_some', Option.some.injEq] at h
          subst h
          simp [List.range'_succ, ih _ _ _ hl]

theorem callbacks_ordinals {pa ia : Option QAttribute} {n : Int} {re : Bool} {ri : Int}
    {cs : List (Nat × Vector3D)} (h : Buffer3fVisitor.callbacks pa ia n re ri = some cs) :
    cs.map Prod.fst = List.range' 0 cs.length := by
  unfold Buffer3fVisitor.callbacks at h
  split at h
  · exact absurd h (by simp)
  · split at h
    · split at h
      · exact absurd h (by simp)
      · exact loop_ordinals _ _ _ _ _ _ _ _ h
    · exact loop_ordinals _ _ _ _ _ _ _ _ h

theorem FindExtremePoints.extremes_foldl_eq_run : ∀ (cs : List (Nat × Vector3D)) (s : FindExtremePoints)
    (ordinal : Nat), cs.map Prod.fst = List.range' ordinal cs.length →
    cs.foldl (fun s c => s.visit c.1 c.2.x c.2.y c.2.z) s = s.run ordinal (points cs) := by
  intro cs
  induction cs with
  | nil => intro s ordinal _; rfl
  | cons c cs ih =>
    intro s ordinal h
    simp only [List.map_cons, List.length_cons, List.range'_succ, List.cons.injEq] at h
    simp only [List.foldl_cons, points, List.map_cons, FindExtremePoints.run]
    rw [ih _ _ h.2, h.1]
    rfl

theorem FindMaxDistantPoint.farthest_foldl_eq_run : ∀ (cs : List (Nat × Vector3D))
    (s : FindMaxDistantPoint),
    cs.foldl (fun s c => s.visit c.1 c.2.x c.2.y c.2.z) s = s.run (points cs) := by
  intro cs
  induction cs with
  | nil => intro s; rfl
  | cons c cs ih =>
    intro s
    simp only [List.foldl_cons, points, List.map_cons, FindMaxDistantPoint.run]
    rw [ih]
    rfl

theorem FindExtremePoints.visit_succ_eq (s : FindExtremePoints) (n : Nat) (x y z : ℚ) :
    s.visit (n + 1) x y z =
      ((((((s.stepXMin x y z).stepXMax x y z).stepYMin x y z).stepYMax x y z).stepZMin
        x y z).stepZMax x y z) := rfl

theorem FindExtremePoints.stepXMin_spec (s : FindExtremePoints) (x y z : ℚ) :
    (s.stepXMin x y z).lo = ⟨min s.lo.x x, s.lo.y, s.lo.z⟩ ∧ (s.stepXMin x y z).hi = s.hi := by
  unfold FindExtremePoints.stepXMin FindExtremePoints.lo FindExtremePoints.hi
  split_ifs with h
  · simp [min_eq_right (le_of_lt h)]
  · simp [min_eq_left (not_lt.1 h)]

theorem FindExtremePoints.stepXMax_spec (s : FindExtremePoints) (x y z : ℚ) :
    (s.stepXMax x y z).hi = ⟨max s.hi.x x, s.hi.y, s.hi.z⟩ ∧ (s.stepXMax x y z).lo = s.lo := by
  unfold FindExtremePoints.stepXMax FindExtremePoints.lo FindExtremePoints.hi
  split_ifs with h
  · simp [max_eq_right (le_of_lt h)]
  · simp [max_eq_left (not_lt.1 h)]

theorem FindExtremePoints.stepYMin_spec (s : FindExtremePoints) (x y z : ℚ) :
    (s.stepYMin x y z).lo = ⟨s.lo.x, min s.lo.y y, s.lo.z⟩ ∧ (s.stepYMin x y z).hi = s.hi := by
  unfold FindExtremePoints.stepYMin FindExtremePoints.lo FindExtremePoints.hi
  split_ifs with h
  · simp [min_eq_right (le_of_lt h)]
  · simp [min_eq_left (not_lt.1 h)]

theorem FindExtremePoints.stepYMax_spec (s : FindExtremePoints) (x y z : ℚ) :
    (s.stepYMax x y z).hi = ⟨s.hi.x, max s.hi.y y, s.hi.z⟩ ∧ (s.stepYMax x y z).lo = s.lo := by
  unfold FindExtremePoints.stepYMax FindExtremePoints.lo FindExtremePoints.hi
  split_ifs with h
  · simp [max_eq_right (le_of_lt h)]
  · simp [max_eq_left (not_lt.1 h)]

theorem FindExtremePoints.stepZMin_spec (s : FindExtremePoints) (x y z : ℚ) :
    (s.stepZMin x y z).lo = ⟨s.lo.x, s.lo.y, min s.lo.z z⟩ ∧ (s.stepZMin x y z).hi = s.hi := by
  unfold FindExtremePoints.stepZMin FindExtremePoints.lo FindExtremePoints.hi
  split_ifs with h
  · simp [min_eq_right (le_of_lt h)]
  · simp [min_eq_left (not_lt.1 h)]

theorem FindExtremePoints.stepZMax_spec (s : FindExtremePoints) (x y z : ℚ) :
    (s.stepZMax x y z).hi = ⟨s.hi.x, s.hi.y, max s.hi.z z⟩ ∧ (s.stepZMax x y z).lo = s.lo := by
  unfold FindExtremePoints.stepZMax FindExtremePoints.lo FindExtremePoints.hi
  split_ifs with h
  · simp [max_eq_right (le_of_lt h)]
  · simp [max_eq_left (not_lt.1 h)]

theorem FindExtremePoints.visit_succ (s : FindExtremePoints) (n : Nat) (x y z : ℚ) :
    (s.visit (n + 1) x y z).lo = ⟨min s.xMin x, min s.yMin y, min s.zMin z⟩ ∧
    (s.visit (n + 1) x y z).hi = ⟨max s.xMax x, max s.yMax y, max s.zMax z⟩ := by
  rw [FindExtremePoints.visit_succ_eq]
  obtain ⟨a1, a2⟩ := FindExtremePoints.stepXMin_spec s x y z
  obtain ⟨b1, b2⟩ := FindExtremePoints.stepXMax_spec (s.stepXMin x y z) x y z
  obtain ⟨c1, c2⟩ := FindExtremePoints.stepYMin_spec ((s.stepXMin x y z).stepXMax x y z) x y z
  obtain ⟨d1, d2⟩ := FindExtremePoints.stepYMax_spec
    (((s.stepXMin x y z).stepXMax x y z).stepYMin x y z) x y z
  obtain ⟨e1, e2⟩ := FindExtremePoints.stepZMin_spec
    ((((s.stepXMin x y z).stepXMax x y z).stepYMin x y z).stepYMax x y z) x y z
  obtain ⟨f1, f2⟩ := FindExtremePoints.stepZMax_spec
    (((((s.stepXMin x y z).stepXMax x y z).stepYMin x y z).stepYMax x y z).stepZMin x y z) x y z
  constructor
  · rw [f2, e1, d2, c1, b2, a1]; rfl
  · rw [f1, e2, d1, c2, b1, a2]; rfl

theorem FindExtremePoints.visit_zero (s : FindExtremePoints) (x y z : ℚ) :
    (s.visit 0 x y z).lo = ⟨x, y, z⟩ ∧ (s.visit 0 x y z).hi = ⟨x, y, z⟩ := ⟨rfl, rfl⟩

theorem FindExtremePoints.run_succ : ∀ (pts : List Vector3D) (s : FindExtremePoints) (n : Nat),
    (s.run (n + 1) pts).lo = ⟨foldMin Vector3D.x s.xMin pts, foldMin Vector3D.y s.yMin pts,
      foldMin Vector3D.z s.zMin pts⟩ ∧
    (s.run (n + 1) pts).hi = ⟨foldMax Vector3D.x s.xMax pts, foldMax Vector3D.y s.yMax pts,
      foldMax Vector3D.z s.zMax pts⟩ := by
  intro pts
  induction pts with
  | nil => intro s n; exact ⟨rfl, rfl⟩
  | cons p ps ih =>
    intro s n
    obtain ⟨a1, a2⟩ := FindExtremePoints.visit_succ s n p.x p.y p.z
    obtain ⟨b1, b2⟩ := ih (s.visit (n + 1) p.x p.y p.z) (n + 1)
    simp only [FindExtremePoints.lo, Vector3D.mk.injEq] at a1
    simp only [FindExtremePoints.hi, Vector3D.mk.injEq] at a2
    simp only [FindExtremePoints.run, foldMin, foldMax, List.foldl_cons]
    simp only [foldMin, foldMax] at b1 b2
    rw [b1, b2, a1.1, a1.2.1, a1.2.2, a2.1, a2.2.1, a2.2.2]
    exact ⟨rfl, rfl⟩

theorem FindExtremePoints.run_zero (s : FindExtremePoints) (p : Vector3D) (ps : List Vector3D) :
    (s.run 0 (p :: ps)).lo = ⟨foldMin Vector3D.x p.x ps, foldMin Vector3D.y p.y ps,
      foldMin Vector3D.z p.z ps⟩ ∧
    (s.run 0 (p :: ps)).hi = ⟨foldMax Vector3D.x p.x ps, foldMax Vector3D.y p.y ps,
      foldMax Vector3D.z p.z ps⟩ := by
  simp only [FindExtremePoints.run]
  exact FindExtremePoints.run_succ ps (s.visit 0 p.x p.y p.z) 0

theorem FindExtremePoints.extremes_apply_eq {pa ia : Option QAttribute} {n : Int} {re : Bool} {ri : Int}
    {cs : List (Nat × Vector3D)} (h : Buffer3fVisitor.callbacks pa ia n re ri = some cs)
    (s : FindExtremePoints) :
    s.apply pa ia n re ri = some (s.run 0 (points cs)) := by
  unfold FindExtremePoints.apply
  rw [h, Option.map_some', FindExtremePoints.extremes_foldl_eq_run cs s 0 (callbacks_ordinals h)]

theorem FindMaxDistantPoint.farthest_apply_eq {pa ia : Option QAttribute} {n : Int} {re : Bool} {ri : Int}
    {cs : List (Nat × Vector3D)} (h : Buffer3fVisitor.callbacks pa ia n re ri = some cs)
    (s : FindMaxDistantPoint) :
    s.apply pa ia n re ri = some (s.run (points cs)) := by
  unfold FindMaxDistantPoint.apply
  rw [h, Option.map_some', FindMaxDistantPoint.farthest_foldl_eq_run cs s]

/-- A failed traversal makes `apply` return false. -/
theorem BoundingVolumeCalculator.apply_of_none {pa ia : Option QAttribute} {n : Int} {re : Bool}
    {ri : Int} (h : Buffer3fVisitor.callbacks pa ia n re ri = none)
    (self : BoundingVolumeCalculator) :
    self.apply pa ia n re ri = (false, { self with m_radius := Scalar.lit (-1) }) := by
  unfold BoundingVolumeCalculator.apply FindExtremePoints.apply
  simp only [h, Option.map_none']

/-- A traversal without callbacks makes `apply` return false. -/
theorem BoundingVolumeCalculator.apply_of_nil {pa ia : Option QAttribute} {n : Int} {re : Bool}
    {ri : Int} {cs : List (Nat × Vector3D)}
    (h : Buffer3fVisitor.callbacks pa ia n re ri = some cs) (hn : points cs = [])
    (self : BoundingVolumeCalculator) :
    self.apply pa ia n re ri =
      (false, { self with m_radius := Scalar.lit (-1), m_min := 0, m_max := 0 }) := by
  unfold BoundingVolumeCalculator.apply
  simp only [FindExtremePoints.extremes_apply_eq h, FindMaxDistantPoint.farthest_apply_eq h, hn]
  rfl

/-- A traversal that visits `p :: ps` makes `apply` return true with the members
`ritter p ps`. -/
theorem BoundingVolumeCalculator.apply_of_cons {pa ia : Option QAttribute} {n : Int} {re : Bool}
    {ri : Int} {cs : List (Nat × Vector3D)} {p : Vector3D} {ps : List Vector3D}
    (h : Buffer3fVisitor.callbacks pa ia n re ri = some cs) (hn : points cs = p :: ps)
    (self : BoundingVolumeCalculator) :
    self.apply pa ia n re ri = (true, ritter p ps) := by
  unfold BoundingVolumeCalculator.apply
  simp only [FindExtremePoints.extremes_apply_eq h, FindMaxDistantPoint.farthest_apply_eq h, hn]
  have hlo := (FindExtremePoints.run_zero {} p ps).1
  have hhi := (FindExtremePoints.run_zero {} p ps).2
  simp only [FindExtremePoints.lo] at hlo
  simp only [FindExtremePoints.hi] at hhi
  rw [FindMaxDistantPoint.run_hasNoPoints]
  simp only [Bool.false_eq_true, if_false, hlo, hhi, Vector3D.length, Scalar.isNegative,
    and_false]
  rfl

theorem foldMin_le_init (c : Vector3D → ℚ) : ∀ (pts : List Vector3D) (m : ℚ),
    foldMin c m pts ≤ m := by
  intro pts
  induction pts with
  | nil => intro m; exact le_refl _
  | cons p ps ih => intro m; exact le_trans (ih _) (min_le_left _ _)

theorem foldMin_le_mem (c : Vector3D → ℚ) : ∀ (pts : List Vector3D) (m : ℚ) (p : Vector3D),
    p ∈ pts → foldMin c m pts ≤ c p := by
  intro pts
  induction pts with
  | nil => intro m p h; exact absurd h (List.not_mem_nil _)
  | cons q qs ih =>
    intro m p h
    rcases List.mem_cons.1 h with rfl | h
    · exact le_trans (foldMin_le_init c qs _) (min_le_right _ _)
    · exact ih _ p h

theorem foldMin_attained (c : Vector3D → ℚ) : ∀ (pts : List Vector3D) (m : ℚ),
    foldMin c m pts = m ∨ ∃ p ∈ pts, foldMin c m pts = c p := by
  intro pts
  induction pts with
  | nil => intro m; exact Or.inl rfl
  | cons q qs ih =>
    intro m
    rcases ih (min m (c q)) with h | ⟨p, hp, h⟩
    · rcases min_choice m (c q) with e | e
      · left; exact h.trans e
      · right; exact ⟨q, List.mem_cons_self _ _, h.trans e⟩
    · right; exact ⟨p, List.mem_cons_of_mem _ hp, h⟩

theorem foldMax_ge_init (c : Vector3D → ℚ) : ∀ (pts : List Vector3D) (m : ℚ),
    m ≤ foldMax c m pts := by
  intro pts
  induction pts with
  | nil => intro m; exact le_refl _
  | cons p ps ih => intro m; exact le_trans (le_max_left _ _) (ih _)

theorem foldMax_ge_mem (c : Vector3D → ℚ) : ∀ (pts : List Vector3D) (m : ℚ) (p : Vector3D),
    p ∈ pts → c p ≤ foldMax c m pts := by
  intro pts
  induction pts with
  | nil => intro m p h; exact absurd h (List.not_mem_nil _)
  | cons q qs ih =>
    intro m p h
    rcases List.mem_cons.1 h with rfl | h
    · exact le_trans (le_max_right _ _) (foldMax_ge_init c qs _)
    · exact ih _ p h

theorem foldMax_attained (c : Vector3D → ℚ) : ∀ (pts : List Vector3D) (m : ℚ),
    foldMax c m pts = m ∨ ∃ p ∈ pts, foldMax c m pts = c p := by
  intro pts
  induction pts with
  | nil => intro m; exact Or.inl rfl
  | cons q qs ih =>
    intro m
    rcases ih (max m (c q)) with h | ⟨p, hp, h⟩
    · rcases max_choice m (c q) with e | e
      · left; exact h.trans e
      · right; exact ⟨q, List.mem_cons_self _ _, h.trans e⟩
    · right; exact ⟨p, List.mem_cons_of_mem _ hp, h⟩

/-- The outcome of `apply` when the traversals succeed, by the visited points. -/
theorem BoundingVolumeCalculator.apply_cases {pa ia : Option QAttribute} {n : Int} {re : Bool}
    {ri : Int} {cs : List (Nat × Vector3D)}
    (h : Buffer3fVisitor.callbacks pa ia n re ri = some cs) (self : BoundingVolumeCalculator) :
    ((self.apply pa ia n re ri).1 = false ∧ cs = []) ∨
    ∃ p ps, points cs = p :: ps ∧ self.apply pa ia n re ri = (true, ritter p ps) := by
  rcases hp : points cs with _ | ⟨p, ps⟩
  · left
    rw [BoundingVolumeCalculator.apply_of_nil h hp]
    exact ⟨rfl, List.map_eq_nil_iff.1 hp⟩
  · right
    exact ⟨p, ps, rfl, BoundingVolumeCalculator.apply_of_cons h hp self⟩

theorem BoundingVolumeCalculator.apply_true {pa ia : Option QAttribute} {n : Int} {re : Bool}
    {ri : Int} {cs : List (Nat × Vector3D)}
    (h : Buffer3fVisitor.callbacks pa ia n re ri = some cs) (self : BoundingVolumeCalculator)
    (hok : (self.apply pa ia n re ri).1 = true) :
    ∃ p ps, points cs = p :: ps ∧ self.apply pa ia n re ri = (true, ritter p ps) := by
  rcases BoundingVolumeCalculator.apply_cases h self with ⟨hf, _⟩ | h'
  · rw [hf] at hok; exact absurd hok (by simp)
  · exact h'

theorem ritterY_isFarthest (p : Vector3D) (ps : List Vector3D) :
    IsFarthest p (p :: ps) (ritterY (p :: ps)) :=
  FindMaxDistantPoint.run_isFarthest_seed p ps

theorem ritterZ_isFarthest (pts : List Vector3D) (h : pts ≠ []) :
    IsFarthest (ritterY pts) pts (ritterZ pts) :=
  FindMaxDistantPoint.run_isFarthest _ pts h

theorem ritterFar_isFarthest (pts : List Vector3D) (h : pts ≠ []) :
    IsFarthest (ritterCenter pts) pts (ritterFar pts) :=
  FindMaxDistantPoint.run_isFarthest _ pts h

theorem sqrt_cast_le {a b : ℚ} (h : a ≤ b) : Real.sqrt (a : ℝ) ≤ Real.sqrt (b : ℝ) :=
  Real.sqrt_le_sqrt (by exact_mod_cast h)

theorem Buffer3fVisitor.loop_eq_loopRaw (positions : List Vector3D) (ix : List Nat) (re : Bool)
    (ri : Int) : ∀ (k i ordinal : Nat), i + k ≤ ix.length →
    Buffer3fVisitor.loop positions (some ix) re ri k i ordinal =
      Buffer3fVisitor.loopRaw positions re ri ((ix.drop i).take k) ordinal := by
  intro k
  induction k with
  | zero => intro i ordinal _; simp [Buffer3fVisitor.loop, Buffer3fVisitor.loopRaw]
  | succ k ih =>
    intro i ordinal h
    have hi : i < ix.length := by omega
    rw [List.drop_eq_getElem_cons hi, List.take_succ_cons]
    unfold Buffer3fVisitor.loop Buffer3fVisitor.loopRaw
    simp only [List.getElem?_eq_getElem hi]
    rw [ih (i + 1) ordinal (by omega), ih (i + 1) (ordinal + 1) (by omega)]

theorem Buffer3fVisitor.loopRaw_insert (positions : List Vector3D) (ri : Int) (r : Nat)
    (hr : (r : Int) = ri) : ∀ (j : Nat) (ix : List Nat) (ordinal : Nat), j ≤ ix.length →
    Buffer3fVisitor.loopRaw positions true ri (ix.insertIdx j r) ordinal =
      Buffer3fVisitor.loopRaw positions true ri ix ordinal := by
  intro j
  induction j with
  | zero =>
    intro ix ordinal _
    rw [List.insertIdx_zero]
    conv_lhs => unfold Buffer3fVisitor.loopRaw
    simp [hr]
  | succ j ih =>
    intro ix ordinal h
    rcases ix with _ | ⟨a, rest⟩
    · simp at h
    · rw [List.insertIdx_succ_cons]
      have hl : j ≤ rest.length := by simpa using h
      unfold Buffer3fVisitor.loopRaw
      rw [ih rest ordinal hl, ih rest (ordinal + 1) hl]

/-- `apply` depends on its input only through the callbacks of the traversal. -/
theorem BoundingVolumeCalculator.apply_congr {pa ia pa' ia' : Option QAttribute} {n n' : Int}
    {re re' : Bool} {ri ri' : Int}
    (h : Buffer3fVisitor.callbacks pa' ia' n' re' ri' = Buffer3fVisitor.callbacks pa ia n re ri)
    (self : BoundingVolumeCalculator) :
    self.apply pa' ia' n' re' ri' = self.apply pa ia n re ri := by
  unfold BoundingVolumeCalculator.apply FindExtremePoints.apply FindMaxDistantPoint.apply
  rw [h]

theorem triangle_callbacks :
    Buffer3fVisitor.callbacks (some (positionsOf triangle))
      (some (indicesOf VertexBaseType.UnsignedShort [0, 1, 2])) 0 false 0
      = some triangleCallbacks := by
  simp [Buffer3fVisitor.callbacks, Buffer3fVisitor.positionData, Buffer3fVisitor.indexData,
    Buffer3fVisitor.loop, positionsOf, indicesOf, triangle, triangleCallbacks]

theorem triangle_apply :
    BoundingVolumeCalculator.apply {} (some (positionsOf triangle))
      (some (indicesOf VertexBaseType.UnsignedShort [0, 1, 2])) 0 false 0
      = (true, { m_min := ⟨0, 0, 0⟩, m_max := ⟨1, 1, 0⟩, m_center := ⟨1 / 2, 1 / 2, 0⟩,
                 m_radius := Scalar.sqrt (1 / 2) }) := by
  rw [BoundingVolumeCalculator.apply_of_cons triangle_callbacks
    (rfl : points triangleCallbacks = (⟨0, 0, 0⟩ : Vector3D) :: [⟨1, 0, 0⟩, ⟨0, 1, 0⟩])]
  norm_num [ritter, ritterCenter, ritterFar, ritterY, ritterZ, FindMaxDistantPoint.run,
    FindMaxDistantPoint.visit, foldMin, foldMax, Vector3D.length, Vector3D.lengthSquared,
    Vector3D.scale, Vector3D.sub_def, Vector3D.add_def, Vector3D.zero_def]

theorem Buffer3fVisitor.loop_prefix (positions : List Vector3D) (indices : Option (List Nat))
    (re : Bool) (ri : Int) : ∀ (k n i ordinal : Nat) (cn : List (Nat × Vector3D)), k ≤ n →
    Buffer3fVisitor.loop positions indices re ri n i ordinal = some cn →
    ∃ ck rest, Buffer3fVisitor.loop positions indices re ri k i ordinal = some ck ∧
      cn = ck ++ rest := by
  intro k
  induction k with
  | zero =>
    intro n i ordinal cn _ _
    exact ⟨[], cn, by simp [Buffer3fVisitor.loop], rfl⟩
  | succ k ih =>
    intro n i ordinal cn hkn h
    obtain ⟨m, rfl⟩ : ∃ m, n = m + 1 := ⟨n - 1, by omega⟩
    have hkm : k ≤ m := by omega
    unfold Buffer3fVisitor.loop at h ⊢
    split at h
    · split at h
      · exact absurd h (by simp)
      · rename_i ix _ idx hidx
        split at h
        · rename_i hc
          simp only [hc, if_true]
          exact ih _ _ _ _ hkm h
        · rename_i hc
          simp only [hc, if_false]
          split at h
          · exact absurd h (by simp)
          · rename_i p hp
            rcases hl : Buffer3fVisitor.loop positions (some ix) re ri m (i + 1) (ordinal + 1)
              with _ | cs'
            · rw [hl] at h; exact absurd h (by simp)
            · rw [hl] at h
              simp only [Option.map_some', Option.some.injEq] at h
              obtain ⟨ck, rest, e1, e2⟩ := ih _ _ _ _ hkm hl
              refine ⟨(ordinal, p) :: ck, rest, by rw [e1]; rfl, ?_⟩
              rw [← h, e2]; rfl
    · split at h
      · exact absurd h (by simp)
      · rename_i p hp
        rcases hl : Buffer3fVisitor.loop positions none re ri m (i + 1) (ordinal + 1)
          with _ | cs'
        · rw [hl] at h; exact absurd h (by simp)
        · rw [hl] at h
          simp only [Option.map_some', Option.some.injEq] at h
          obtain ⟨ck, rest, e1, e2⟩ := ih _ _ _ _ hkm hl
          refine ⟨(ordinal, p) :: ck, rest, by rw [e1]; rfl, ?_⟩
          rw [← h, e2]; rfl

theorem Buffer3fVisitor.callbacks_prefix {pa ia : Option QAttribute} {re : Bool} {ri : Int}
    {k n : Nat} {cn : List (Nat × Vector3D)} (hk : 1 ≤ k) (hkn : k ≤ n)
    (h : Buffer3fVisitor.callbacks pa ia (n : Int) re ri = some cn) :
    ∃ ck rest, Buffer3fVisitor.callbacks pa ia (k : Int) re ri = some ck ∧ cn = ck ++ rest := by
  have hk0 : ¬ ((k : Int) = 0) := by omega
  have hn0 : ¬ ((n : Int) = 0) := by omega
  unfold Buffer3fVisitor.callbacks at h ⊢
  split at h
  · exact absurd h (by simp)
  · rename_i position positions hp
    simp only [hn0, if_false, Int.toNat_ofNat] at h
    simp only [hk0, if_false, Int.toNat_ofNat]
    split at h
    · split at h
      · exact absurd h (by simp)
      · rename_i ix hix
        exact Buffer3fVisitor.loop_prefix _ _ _ _ _ _ _ _ _ hkn h
    · exact Buffer3fVisitor.loop_prefix _ _ _ _ _ _ _ _ _ hkn h

theorem Vector3D.scale_def (v : Vector3D) (f : ℚ) : v.scale f = ⟨v.x * f, v.y * f, v.z * f⟩ := rfl

theorem distSq_mid_le (y z f : Vector3D) :
    distSq ((y + z).scale (1 / 2)) f ≤ (distSq y f + distSq z f) / 2 := by
  simp only [distSq_def, Vector3D.add_def, Vector3D.scale_def]
  nlinarith [mul_self_nonneg (y.x - z.x), mul_self_nonneg (y.y - z.y),
    mul_self_nonneg (y.z - z.z)]

theorem distSq_le_two (a b c : Vector3D) :
    distSq a b ≤ 2 * distSq a c + 2 * distSq b c := by
  simp only [distSq_def]
  nlinarith [mul_self_nonneg ((a.x - c.x) + (b.x - c.x)), mul_self_nonneg ((a.y - c.y) + (b.y - c.y)),
    mul_self_nonneg ((a.z - c.z) + (b.z - c.z))]

theorem ritterY_mem (p : Vector3D) (ps : List Vector3D) : ritterY (p :: ps) ∈ p :: ps :=
  (ritterY_isFarthest p ps).1

theorem ritterZ_mem (p : Vector3D) (ps : List Vector3D) : ritterZ (p :: ps) ∈ p :: ps :=
  (ritterZ_isFarthest (p :: ps) (List.cons_ne_nil _ _)).1

theorem ritterFar_mem (p : Vector3D) (ps : List Vector3D) : ritterFar (p :: ps) ∈ p :: ps :=
  (ritterFar_isFarthest (p :: ps) (List.cons_ne_nil _ _)).1

/-- Every visited point is within the final sphere (squared form). -/
theorem ritter_contains (p : Vector3D) (ps : List Vector3D) (q : Vector3D) (hq : q ∈ p :: ps) :
    distSq q (ritterCenter (p :: ps)) ≤ distSq (ritterCenter (p :: ps)) (ritterFar (p :: ps)) := by
  rw [distSq_comm (ritterCenter (p :: ps))]
  exact (ritterFar_isFarthest (p :: ps) (List.cons_ne_nil _ _)).2 q hq

theorem sqrt_cast_le_two_mul {a b : ℚ} (hb : 0 ≤ b) (h : a ≤ 4 * b) :
    Real.sqrt (a : ℝ) ≤ 2 * Real.sqrt (b : ℝ) := by
  have hb' : (0 : ℝ) ≤ (b : ℝ) := by exact_mod_cast hb
  have h' : (a : ℝ) ≤ 4 * (b : ℝ) := by exact_mod_cast h
  rw [Real.sqrt_le_left (by positivity)]
  calc (a : ℝ) ≤ 4 * (b : ℝ) := h'
    _ = (2 * Real.sqrt (b : ℝ)) ^ 2 := by rw [mul_pow, Real.sq_sqrt hb']; norm_num

theorem truncationPoints_apply_three :
    BoundingVolumeCalculator.apply {} (some (positionsOf truncationPoints)) none 3 false 0
      = (true, { m_min := ⟨0, 0, 0⟩, m_max := ⟨6, 6, 0⟩, m_center := ⟨9 / 2, 3, 0⟩,
                 m_radius := Scalar.sqrt (117 / 4) }) := by
  norm_num [BoundingVolumeCalculator.apply, FindExtremePoints.apply, FindMaxDistantPoint.apply,
    Buffer3fVisitor.callbacks, Buffer3fVisitor.positionData, Buffer3fVisitor.loop, positionsOf,
    truncationPoints, FindExtremePoints.visit, FindMaxDistantPoint.visit,
    Vector3D.lengthSquared, Vector3D.length, Vector3D.scale, Vector3D.sub_def, Vector3D.add_def,
    Vector3D.zero_def, Scalar.isNegative]

theorem truncationPoints_apply_four :
    BoundingVolumeCalculator.apply {} (some (positionsOf truncationPoints)) none 4 false 0
      = (true, { m_min := ⟨0, -2, 0⟩, m_max := ⟨6, 6, 0⟩, m_center := ⟨3, 2, 0⟩,
                 m_radius := Scalar.sqrt 16 }) := by
  norm_num [BoundingVolumeCalculator.apply, FindExtremePoints.apply, FindMaxDistantPoint.apply,
    Buffer3fVisitor.callbacks, Buffer3fVisitor.positionData, Buffer3fVisitor.loop, positionsOf,
    truncationPoints, FindExtremePoints.visit, FindMaxDistantPoint.visit,
    Vector3D.lengthSquared, Vector3D.length, Vector3D.scale, Vector3D.sub_def, Vector3D.add_def,
    Vector3D.zero_def, Scalar.isNegative]

theorem BoundingVolumeCalculator.callbacks_of_true {pa ia : Option QAttribute} {n : Int}
    {re : Bool} {ri : Int} {self : BoundingVolumeCalculator}
    (hok : (self.apply pa ia n re ri).1 = true) :
    ∃ cs, Buffer3fVisitor.callbacks pa ia n re ri = some cs := by
  rcases h : Buffer3fVisitor.callbacks pa ia n re ri with _ | cs
  · rw [BoundingVolumeCalculator.apply_of_none h] at hok
    exact absurd hok (by simp)
  · exact ⟨cs, rfl⟩

/-- Two successful calls with draw counts `1 ≤ k ≤ n` visit `p :: ps` and
`p :: (ps ++ more)`. -/
theorem BoundingVolumeCalculator.truncation_cases {pa ia : Option QAttribute} {re : Bool}
    {ri : Int} {k n : Nat} {self self' : BoundingVolumeCalculator} (hk : 1 ≤ k) (hkn : k ≤ n)
    (hokk : (self.apply pa ia (k : Int) re ri).1 = true)
    (hokn : (self'.apply pa ia (n : Int) re ri).1 = true) :
    ∃ p ps more ck, Buffer3fVisitor.callbacks pa ia (k : Int) re ri = some ck ∧
      points ck = p :: ps ∧
      self.apply pa ia (k : Int) re ri = (true, ritter p ps) ∧
      self'.apply pa ia (n : Int) re ri = (true, ritter p (ps ++ more)) := by
  obtain ⟨cn, hcn⟩ := BoundingVolumeCalculator.callbacks_of_true hokn
  obtain ⟨ck, rest, hck, happ⟩ := Buffer3fVisitor.callbacks_prefix hk hkn hcn
  obtain ⟨p, ps, hp, he⟩ := BoundingVolumeCalculator.apply_true hck self hokk
  have hpn : points cn = p :: (ps ++ points rest) := by
    rw [happ, points, List.map_append, ← points, ← points, hp]; rfl
  exact ⟨p, ps, points rest, ck, hck, hp, he, BoundingVolumeCalculator.apply_of_cons hcn hpn self'⟩

theorem Vector3D.eq_of_components {a b : Vector3D} (hx : a.x = b.x) (hy : a.y = b.y)
    (hz : a.z = b.z) : a = b := by
  cases a; cases b; simp only [Vector3D.mk.injEq]; exact ⟨hx, hy, hz⟩

theorem Vector3D.affine_def (s : ℚ) (t p : Vector3D) :
    Vector3D.affine s t p = ⟨p.x * s + t.x, p.y * s + t.y, p.z * s + t.z⟩ := rfl

theorem distSq_affine (s : ℚ) (t p q : Vector3D) :
    distSq (Vector3D.affine s t p) (Vector3D.affine s t q) = s * s * distSq p q := by
  simp only [distSq_def, Vector3D.affine_def]; ring

theorem Vector3D.affine_mid (s : ℚ) (t y z : Vector3D) :
    (Vector3D.affine s t y + Vector3D.affine s t z).scale (1 / 2)
      = Vector3D.affine s t ((y + z).scale (1 / 2)) := by
  apply Vector3D.eq_of_components <;>
    simp only [Vector3D.affine_def, Vector3D.add_def, Vector3D.scale_def] <;> ring

theorem FindMaxDistantPoint.visit_mapState (s : ℚ) (hs : 0 < s) (t : Vector3D)
    (a : FindMaxDistantPoint) (n : Nat) (p : Vector3D)
    (ha : (a.hasNoPoints && a.setReferencePoint) = false) :
    (FindMaxDistantPoint.mapState s t a).visit n (Vector3D.affine s t p).x
        (Vector3D.affine s t p).y (Vector3D.affine s t p).z
      = FindMaxDistantPoint.mapState s t (a.visit n p.x p.y p.z) := by
  rw [FindMaxDistantPoint.visit_stable a n p ha,
    FindMaxDistantPoint.visit_stable (FindMaxDistantPoint.mapState s t a) n
      (Vector3D.affine s t p) ha]
  have hss : 0 < s * s := mul_pos hs hs
  have hiff : s * s * a.maxLengthSquared ≤ s * s * distSq p a.referencePt
      ↔ a.maxLengthSquared ≤ distSq p a.referencePt := mul_le_mul_left hss
  simp only [FindMaxDistantPoint.mapState, distSq_affine, hiff]
  by_cases h : a.maxLengthSquared ≤ distSq p a.referencePt
  · simp only [h, if_true]
  · simp only [h, if_false]

theorem FindMaxDistantPoint.run_mapState (s : ℚ) (hs : 0 < s) (t : Vector3D) :
    ∀ (pts : List Vector3D) (a : FindMaxDistantPoint),
    (a.hasNoPoints && a.setReferencePoint) = false →
    (FindMaxDistantPoint.mapState s t a).run (pts.map (Vector3D.affine s t))
      = FindMaxDistantPoint.mapState s t (a.run pts) := by
  intro pts
  induction pts with
  | nil => intro a _; rfl
  | cons p ps ih =>
    intro a ha
    simp only [List.map_cons, FindMaxDistantPoint.run]
    rw [FindMaxDistantPoint.visit_mapState s hs t a 0 p ha]
    exact ih _ (by simp [(FindMaxDistantPoint.visit_stable_cases a 0 p ha).2.2.1])

theorem ritterY_affine (s : ℚ) (hs : 0 < s) (t p : Vector3D) (ps : List Vector3D) :
    ritterY ((p :: ps).map (Vector3D.affine s t)) = Vector3D.affine s t (ritterY (p :: ps)) := by
  simp only [ritterY, List.map_cons, FindMaxDistantPoint.run]
  rw [FindMaxDistantPoint.visit_first _ 0 _ rfl rfl, FindMaxDistantPoint.visit_first _ 0 p rfl rfl]
  have h := FindMaxDistantPoint.run_mapState s hs t ps
    { maxLengthSquared := 0, setReferencePoint := true, hasNoPoints := false, maxDistPt := p,
      referencePt := p } (by simp)
  simp only [FindMaxDistantPoint.mapState, mul_zero] at h
  rw [h]

theorem FindMaxDistantPoint.visit_init (r p : Vector3D) (n : Nat) :
    FindMaxDistantPoint.visit { setReferencePoint := false, referencePt := r } n p.x p.y p.z
      = { maxLengthSquared := distSq p r, setReferencePoint := false, hasNoPoints := false,
          maxDistPt := p, referencePt := r } := by
  rw [FindMaxDistantPoint.visit_stable _ n p (by simp)]
  simp [distSq_nonneg]

theorem FindMaxDistantPoint.run_affine (s : ℚ) (hs : 0 < s) (t r p : Vector3D)
    (ps : List Vector3D) :
    (FindMaxDistantPoint.run { setReferencePoint := false, referencePt := Vector3D.affine s t r }
        ((p :: ps).map (Vector3D.affine s t))).maxDistPt
      = Vector3D.affine s t
        (FindMaxDistantPoint.run { setReferencePoint := false, referencePt := r }
          (p :: ps)).maxDistPt := by
  simp only [List.map_cons, FindMaxDistantPoint.run]
  rw [FindMaxDistantPoint.visit_init, FindMaxDistantPoint.visit_init]
  have h := FindMaxDistantPoint.run_mapState s hs t ps
    { maxLengthSquared := distSq p r, setReferencePoint := false, hasNoPoints := false,
      maxDistPt := p, referencePt := r } (by simp)
  simp only [FindMaxDistantPoint.mapState] at h
  rw [distSq_affine, h]

theorem ritterZ_affine (s : ℚ) (hs : 0 < s) (t p : Vector3D) (ps : List Vector3D) :
    ritterZ ((p :: ps).map (Vector3D.affine s t)) = Vector3D.affine s t (ritterZ (p :: ps)) := by
  unfold ritterZ
  rw [ritterY_affine s hs t p ps]
  exact FindMaxDistantPoint.run_affine s hs t _ p ps

theorem ritterCenter_affine (s : ℚ) (hs : 0 < s) (t p : Vector3D) (ps : List Vector3D) :
    ritterCenter ((p :: ps).map (Vector3D.affine s t))
      = Vector3D.affine s t (ritterCenter (p :: ps)) := by
  unfold ritterCenter
  rw [ritterY_affine s hs t p ps, ritterZ_affine s hs t p ps, Vector3D.affine_mid]

theorem ritterFar_affine (s : ℚ) (hs : 0 < s) (t p : Vector3D) (ps : List Vector3D) :
    ritterFar ((p :: ps).map (Vector3D.affine s t)) = Vector3D.affine s t (ritterFar (p :: ps)) := by
  unfold ritterFar
  rw [ritterCenter_affine s hs t p ps]
  exact FindMaxDistantPoint.run_affine s hs t _ p ps

theorem foldMin_affine (c : Vector3D → ℚ) (s tc : ℚ) (hs : 0 < s) (f : Vector3D → Vector3D)
    (hf : ∀ p, c (f p) = c p * s + tc) : ∀ (pts : List Vector3D) (m : ℚ),
    foldMin c (m * s + tc) (pts.map f) = foldMin c m pts * s + tc := by
  intro pts
  induction pts with
  | nil => intro m; rfl
  | cons p ps ih =>
    intro m
    simp only [foldMin, List.map_cons, List.foldl_cons] at ih ⊢
    rw [hf p, ← ih]
    congr 1
    rcases le_total m (c p) with h | h
    · rw [min_eq_left h, min_eq_left]
      have := mul_le_mul_of_nonneg_right h (le_of_lt hs)
      linarith
    · rw [min_eq_right h, min_eq_right]
      have := mul_le_mul_of_nonneg_right h (le_of_lt hs)
      linarith

theorem foldMax_affine (c : Vector3D → ℚ) (s tc : ℚ) (hs : 0 < s) (f : Vector3D → Vector3D)
    (hf : ∀ p, c (f p) = c p * s + tc) : ∀ (pts : List Vector3D) (m : ℚ),
    foldMax c (m * s + tc) (pts.map f) = foldMax c m pts * s + tc := by
  intro pts
  induction pts with
  | nil => intro m; rfl
  | cons p ps ih =>
    intro m
    simp only [foldMax, List.map_cons, List.foldl_cons] at ih ⊢
    rw [hf p, ← ih]
    congr 1
    rcases le_total m (c p) with h | h
    · rw [max_eq_right h, max_eq_right]
      have := mul_le_mul_of_nonneg_right h (le_of_lt hs)
      linarith
    · rw [max_eq_left h, max_eq_left]
      have := mul_le_mul_of_nonneg_right h (le_of_lt hs)
      linarith

/-- The members after `apply` on the image of the points under `p ↦ s * p + t`,
`s > 0`. -/
theorem ritter_affine (s : ℚ) (hs : 0 < s) (t p : Vector3D) (ps : List Vector3D) :
    ritter (Vector3D.affine s t p) (ps.map (Vector3D.affine s t))
      = { m_min := Vector3D.affine s t (ritter p ps).m_min,
          m_max := Vector3D.affine s t (ritter p ps).m_max,
          m_center := Vector3D.affine s t (ritter p ps).m_center,
          m_radius := Scalar.sqrt
            (s * s * distSq (ritterCenter (p :: ps)) (ritterFar (p :: ps))) } := by
  have hmap : Vector3D.affine s t p :: ps.map (Vector3D.affine s t)
      = (p :: ps).map (Vector3D.affine s t) := rfl
  unfold ritter
  rw [hmap, ritterCenter_affine s hs t p ps, ritterFar_affine s hs t p ps]
  have hx := foldMin_affine Vector3D.x s t.x hs (Vector3D.affine s t) (fun _ => rfl) ps p.x
  have hy := foldMin_affine Vector3D.y s t.y hs (Vector3D.affine s t) (fun _ => rfl) ps p.y
  have hz := foldMin_affine Vector3D.z s t.z hs (Vector3D.affine s t) (fun _ => rfl) ps p.z
  have hX := foldMax_affine Vector3D.x s t.x hs (Vector3D.affine s t) (fun _ => rfl) ps p.x
  have hY := foldMax_affine Vector3D.y s t.y hs (Vector3D.affine s t) (fun _ => rfl) ps p.y
  have hZ := foldMax_affine Vector3D.z s t.z hs (Vector3D.affine s t) (fun _ => rfl) ps p.z
  simp only [Vector3D.affine_def] at hx hy hz hX hY hZ ⊢
  simp only [hx, hy, hz, hX, hY, hZ, Vector3D.length]
  congr 2
  exact distSq_affine s t _ _

theorem Vector3D.affine_one (t : Vector3D) :
    Vector3D.affine 1 t = fun p => p + t := by
  funext p
  apply Vector3D.eq_of_components <;> simp [Vector3D.affine_def, Vector3D.add_def]

theorem Vector3D.affine_zero (s : ℚ) :
    Vector3D.affine s 0 = fun p => p.scale s := by
  funext p
  apply Vector3D.eq_of_components <;>
    simp [Vector3D.affine_def, Vector3D.scale_def, Vector3D.zero_def]

theorem ritter_radius (p : Vector3D) (ps : List Vector3D) :
    (ritter p ps).m_radius
      = Scalar.sqrt (distSq (ritterCenter (p :: ps)) (ritterFar (p :: ps))) := rfl

theorem sqrt_cast_mul_self (s q : ℚ) (hs : 0 < s) :
    Real.sqrt ((s * s * q : ℚ) : ℝ) = (s : ℝ) * Real.sqrt (q : ℝ) := by
  have hs' : (0 : ℝ) ≤ (s : ℝ) := by exact_mod_cast hs.le
  push_cast
  rw [Real.sqrt_mul (mul_self_nonneg _), Real.sqrt_mul_self hs']

theorem unindexed_callbacks_shifted :
    Buffer3fVisitor.callbacks
      (some (positionsOf [⟨1, 2, 3⟩, ⟨2, 2, 3⟩, ⟨1, 3, 3⟩])) none 0 false 0
      = some shiftedCallbacks := by
  simp [Buffer3fVisitor.callbacks, Buffer3fVisitor.positionData, Buffer3fVisitor.loop,
    positionsOf, shiftedCallbacks]

theorem unindexed_callbacks_scaled :
    Buffer3fVisitor.callbacks
      (some (positionsOf [⟨0, 0, 0⟩, ⟨2, 0, 0⟩, ⟨0, 2, 0⟩])) none 0 false 0
      = some scaledCallbacks := by
  simp [Buffer3fVisitor.callbacks, Buffer3fVisitor.positionData, Buffer3fVisitor.loop,
    positionsOf, scaledCallbacks]

/-- Two traversals whose points correspond under `p ↦ s * p + t`, `s > 0`, give
corresponding results. -/
theorem BoundingVolumeCalculator.apply_affine {pa ia pa' ia' : Option QAttribute} {n n' : Int}
    {re re' : Bool} {ri ri' : Int} {cs cs' : List (Nat × Vector3D)}
    (self self' : BoundingVolumeCalculator) (s : ℚ) (hs : 0 < s) (t : Vector3D)
    (hcs : Buffer3fVisitor.callbacks pa ia n re ri = some cs)
    (hcs' : Buffer3fVisitor.callbacks pa' ia' n' re' ri' = some cs')
    (hne : cs ≠ []) (ht : points cs' = (points cs).map (Vector3D.affine s t)) :
    ∃ p ps, self.apply pa ia n re ri = (true, ritter p ps) ∧
      self'.apply pa' ia' n' re' ri' =
        (true, { m_min := Vector3D.affine s t (ritter p ps).m_min,
                 m_max := Vector3D.affine s t (ritter p ps).m_max,
                 m_center := Vector3D.affine s t (ritter p ps).m_center,
                 m_radius := Scalar.sqrt
                   (s * s * distSq (ritterCenter (p :: ps)) (ritterFar (p :: ps))) }) := by
  rcases hp : points cs with _ | ⟨p, ps⟩
  · exact absurd (List.map_eq_nil_iff.1 hp) hne
  · refine ⟨p, ps, BoundingVolumeCalculator.apply_of_cons hcs hp self, ?_⟩
    rw [hp, List.map_cons] at ht
    rw [BoundingVolumeCalculator.apply_of_cons hcs' ht self', ritter_affine s hs t p ps]

theorem foldMin_eq (c : Vector3D → ℚ) (p : Vector3D) (ps : List Vector3D) (v : ℚ)
    (hex : ∃ q ∈ p :: ps, c q = v) (hall : ∀ q ∈ p :: ps, v ≤ c q) :
    foldMin c (c p) ps = v := by
  apply le_antisymm
  · obtain ⟨q, hq, rfl⟩ := hex
    rcases List.mem_cons.1 hq with rfl | hq
    · exact foldMin_le_init c ps _
    · exact foldMin_le_mem c ps _ q hq
  · rcases foldMin_attained c ps (c p) with h | ⟨q, hq, h⟩
    · rw [h]; exact hall p (List.mem_cons_self _ _)
    · rw [h]; exact hall q (List.mem_cons_of_mem _ hq)

theorem foldMax_eq (c : Vector3D → ℚ) (p : Vector3D) (ps : List Vector3D) (v : ℚ)
    (hex : ∃ q ∈ p :: ps, c q = v) (hall : ∀ q ∈ p :: ps, c q ≤ v) :
    foldMax c (c p) ps = v := by
  apply le_antisymm
  · rcases foldMax_attained c ps (c p) with h | ⟨q, hq, h⟩
    · rw [h]; exact hall p (List.mem_cons_self _ _)
    · rw [h]; exact hall q (List.mem_cons_of_mem _ hq)
  · obtain ⟨q, hq, rfl⟩ := hex
    rcases List.mem_cons.1 hq with rfl | hq
    · exact foldMax_ge_init c ps _
    · exact foldMax_ge_mem c ps _ q hq

theorem eq_of_distSq_le_zero {p q : Vector3D} (h : distSq p q ≤ 0) : p = q := by
  rw [distSq_def] at h
  have hx : (p.x - q.x) * (p.x - q.x) = 0 := by
    nlinarith [mul_self_nonneg (p.x - q.x), mul_self_nonneg (p.y - q.y),
      mul_self_nonneg (p.z - q.z)]
  have hy : (p.y - q.y) * (p.y - q.y) = 0 := by
    nlinarith [mul_self_nonneg (p.x - q.x), mul_self_nonneg (p.y - q.y),
      mul_self_nonneg (p.z - q.z)]
  have hz : (p.z - q.z) * (p.z - q.z) = 0 := by
    nlinarith [mul_self_nonneg (p.x - q.x), mul_self_nonneg (p.y - q.y),
      mul_self_nonneg (p.z - q.z)]
  exact Vector3D.eq_of_components (sub_eq_zero.1 (mul_self_eq_zero.1 hx))
    (sub_eq_zero.1 (mul_self_eq_zero.1 hy)) (sub_eq_zero.1 (mul_self_eq_zero.1 hz))

theorem Vector3D.mid_self (p : Vector3D) : (p + p).scale (1 / 2) = p := by
  apply Vector3D.eq_of_components <;> simp only [Vector3D.add_def, Vector3D.scale_def] <;> ring

/-- The members after `apply` when all visited points are equal. -/
theorem ritter_const (p : Vector3D) (ps : List Vector3D) (hall : ∀ q ∈ ps, q = p) :
    ritter p ps = { m_min := p, m_max := p, m_center := p, m_radius := Scalar.sqrt 0 } := by
  have hall' : ∀ q ∈ p :: ps, q = p := by
    intro q hq
    rcases List.mem_cons.1 hq with rfl | hq
    · rfl
    · exact hall q hq
  have hmin : ∀ c : Vector3D → ℚ, foldMin c (c p) ps = c p := fun c =>
    foldMin_eq c p ps (c p) ⟨p, List.mem_cons_self _ _, rfl⟩
      (fun q hq => by rw [hall' q hq])
  have hmax : ∀ c : Vector3D → ℚ, foldMax c (c p) ps = c p := fun c =>
    foldMax_eq c p ps (c p) ⟨p, List.mem_cons_self _ _, rfl⟩
      (fun q hq => by rw [hall' q hq])
  have hy : ritterY (p :: ps) = p := hall' _ (ritterY_mem p ps)
  have hz : ritterZ (p :: ps) = p := hall' _ (ritterZ_mem p ps)
  have hf : ritterFar (p :: ps) = p := hall' _ (ritterFar_mem p ps)
  have hc : ritterCenter (p :: ps) = p := by
    unfold ritterCenter; rw [hy, hz, Vector3D.mid_self]
  unfold ritter
  rw [hc, hf, hmin, hmin, hmin, hmax, hmax, hmax]
  have h0 : (p - p).lengthSquared = 0 := distSq_self p
  simp only [Vector3D.length, h0]

theorem single_point_callbacks :
    Buffer3fVisitor.callbacks (some (positionsOf [⟨2, 3, 4⟩])) none 0 false 0
      = some [(0, ⟨2, 3, 4⟩)] := by
  simp [Buffer3fVisitor.callbacks, Buffer3fVisitor.positionData, Buffer3fVisitor.loop,
    positionsOf]

theorem cubeCorners_bounds (q : Vector3D) (hq : q ∈ cubeCorners) :
    (-1 ≤ q.x ∧ q.x ≤ 1) ∧ (-1 ≤ q.y ∧ q.y ≤ 1) ∧ (-1 ≤ q.z ∧ q.z ≤ 1) := by
  simp only [cubeCorners, List.mem_cons, List.mem_singleton, List.not_mem_nil, or_false] at hq
  rcases hq with rfl | rfl | rfl | rfl | rfl | rfl | rfl | rfl <;> norm_num

theorem cubeCorners_origin (q : Vector3D) (hq : q ∈ cubeCorners) :
    distSq ⟨0, 0, 0⟩ q = 3 := by
  simp only [cubeCorners, List.mem_cons, List.mem_singleton, List.not_mem_nil, or_false] at hq
  rcases hq with rfl | rfl | rfl | rfl | rfl | rfl | rfl | rfl <;> norm_num [distSq_def]

theorem cubeCorners_antipode (p : Vector3D) (hp : p ∈ cubeCorners) :
    (⟨-p.x, -p.y, -p.z⟩ : Vector3D) ∈ cubeCorners ∧
      distSq ⟨-p.x, -p.y, -p.z⟩ p = 12 := by
  simp only [cubeCorners, List.mem_cons, List.mem_singleton, List.not_mem_nil, or_false] at hp
  rcases hp with rfl | rfl | rfl | rfl | rfl | rfl | rfl | rfl <;>
    norm_num [distSq_def, cubeCorners]

theorem cubeCorners_farthest (p y : Vector3D) (hp : p ∈ cubeCorners) (hy : y ∈ cubeCorners)
    (h : 12 ≤ distSq y p) : y = ⟨-p.x, -p.y, -p.z⟩ := by
  simp only [cubeCorners, List.mem_cons, List.mem_singleton, List.not_mem_nil, or_false] at hp hy
  rcases hp with rfl | rfl | rfl | rfl | rfl | rfl | rfl | rfl <;>
    rcases hy with rfl | rfl | rfl | rfl | rfl | rfl | rfl | rfl <;>
    first
      | (norm_num; done)
      | (norm_num [distSq_def] at h)

/-- The members after `apply` when the visited points are the cube corners in
any order. -/
theorem ritter_cube (p : Vector3D) (ps : List Vector3D) (hperm : (p :: ps).Perm cubeCorners) :
    ritter p ps = { m_min := ⟨-1, -1, -1⟩, m_max := ⟨1, 1, 1⟩, m_center := ⟨0, 0, 0⟩,
                    m_radius := Scalar.sqrt 3 } := by
  have hmem : ∀ q, q ∈ p :: ps ↔ q ∈ cubeCorners := fun q => hperm.mem_iff
  have hlo : (⟨-1, -1, -1⟩ : Vector3D) ∈ p :: ps := (hmem _).2 (by simp [cubeCorners])
  have hhi : (⟨1, 1, 1⟩ : Vector3D) ∈ p :: ps := (hmem _).2 (by simp [cubeCorners])
  have hb := fun q (hq : q ∈ p :: ps) => cubeCorners_bounds q ((hmem q).1 hq)
  have hp : p ∈ cubeCorners := (hmem p).1 (List.mem_cons_self _ _)
  -- pass 2: the antipode of the first point
  have hy : ritterY (p :: ps) = ⟨-p.x, -p.y, -p.z⟩ := by
    obtain ⟨hy1, hy2⟩ := ritterY_isFarthest p ps
    obtain ⟨ha1, ha2⟩ := cubeCorners_antipode p hp
    have := hy2 _ ((hmem _).2 ha1)
    rw [ha2] at this
    exact cubeCorners_farthest p _ hp ((hmem _).1 hy1) this
  -- pass 3: back to the first point
  have hz : ritterZ (p :: ps) = p := by
    obtain ⟨hz1, hz2⟩ := ritterZ_isFarthest (p :: ps) (List.cons_ne_nil _ _)
    rw [hy] at hz2
    obtain ⟨ha1, ha2⟩ := cubeCorners_antipode p hp
    have h12 := hz2 p (List.mem_cons_self _ _)
    have hpa : distSq p ⟨-p.x, -p.y, -p.z⟩ = 12 := by rw [distSq_comm]; exact ha2
    rw [hpa] at h12
    have := cubeCorners_farthest _ _ ha1 ((hmem _).1 hz1) h12
    rw [this]
    apply Vector3D.eq_of_components <;> simp
  have hc : ritterCenter (p :: ps) = ⟨0, 0, 0⟩ := by
    unfold ritterCenter
    rw [hy, hz]
    apply Vector3D.eq_of_components <;> simp [Vector3D.add_def, Vector3D.scale_def]
  have hr : ((⟨0, 0, 0⟩ : Vector3D) - ritterFar (p :: ps)).lengthSquared = 3 :=
    cubeCorners_origin _ ((hmem _).1 (ritterFar_mem p ps))
  unfold ritter
  rw [hc, Vector3D.length, hr,
    foldMin_eq Vector3D.x p ps (-1) ⟨_, hlo, rfl⟩ (fun q hq => (hb q hq).1.1),
    foldMin_eq Vector3D.y p ps (-1) ⟨_, hlo, rfl⟩ (fun q hq => (hb q hq).2.1.1),
    foldMin_eq Vector3D.z p ps (-1) ⟨_, hlo, rfl⟩ (fun q hq => (hb q hq).2.2.1),
    foldMax_eq Vector3D.x p ps 1 ⟨_, hhi, rfl⟩ (fun q hq => (hb q hq).1.2),
    foldMax_eq Vector3D.y p ps 1 ⟨_, hhi, rfl⟩ (fun q hq => (hb q hq).2.1.2),
    foldMax_eq Vector3D.z p ps 1 ⟨_, hhi, rfl⟩ (fun q hq => (hb q hq).2.2.2)]

theorem cube_callbacks :
    Buffer3fVisitor.callbacks (some (positionsOf cubeCorners)) none 0 false 0
      = some cubeCallbacks := by
  simp [Buffer3fVisitor.callbacks, Buffer3fVisitor.positionData, Buffer3fVisitor.loop,
    positionsOf, cubeCorners, cubeCallbacks]

theorem Vector3D.add_comm' (a b : Vector3D) : a + b = b + a := by
  apply Vector3D.eq_of_components <;> simp only [Vector3D.add_def] <;> ring

theorem Vector3D.dot_def (u v : Vector3D) :
    u.dot v = u.x * v.x + u.y * v.y + u.z * v.z := rfl

/-- Pythagoras: with a right angle at `A`, `|B - C|² = |B - A|² + |C - A|²`. -/
theorem distSq_hypotenuse (A B C : Vector3D) (h : (B - A).dot (C - A) = 0) :
    distSq B C = distSq B A + distSq C A := by
  simp only [Vector3D.dot_def, Vector3D.sub_def] at h
  simp only [distSq_def]
  linarith

/-- Thales: with a right angle at `A`, the three vertices are at the same distance
from the midpoint of `B` and `C`. -/
theorem distSq_mid_right (A B C : Vector3D) (h : (B - A).dot (C - A) = 0) :
    distSq ((B + C).scale (1 / 2)) A = distSq B C / 4 ∧
    distSq ((B + C).scale (1 / 2)) B = distSq B C / 4 ∧
    distSq ((B + C).scale (1 / 2)) C = distSq B C / 4 := by
  simp only [Vector3D.dot_def, Vector3D.sub_def] at h
  simp only [distSq_def, Vector3D.add_def, Vector3D.scale_def]
  refine ⟨?_, ?_, ?_⟩
  · linarith
  · ring
  · ring

/-- In a right triangle the points of passes 2 and 3 are the two ends of the
hypotenuse, up to coinciding vertices. -/
theorem right_triangle_diameter (A B C p y z : Vector3D) (h : (B - A).dot (C - A) = 0)
    (hp : p = A ∨ p = B ∨ p = C) (hy : y = A ∨ y = B ∨ y = C) (hz : z = A ∨ z = B ∨ z = C)
    (hfy : ∀ q, q = A ∨ q = B ∨ q = C → distSq q p ≤ distSq y p)
    (hfz : ∀ q, q = A ∨ q = B ∨ q = C → distSq q y ≤ distSq z y) :
    y + z = B + C := by
  have hpy := distSq_hypotenuse A B C h
  have hyA := hfy A (Or.inl rfl)
  have hyB := hfy B (Or.inr (Or.inl rfl))
  have hyC := hfy C (Or.inr (Or.inr rfl))
  have hzA := hfz A (Or.inl rfl)
  have hzB := hfz B (Or.inr (Or.inl rfl))
  have hzC := hfz C (Or.inr (Or.inr rfl))
  have nBA := distSq_nonneg B A
  have nCA := distSq_nonneg C A
  have cAB := distSq_comm A B
  have cAC := distSq_comm A C
  have cCB := distSq_comm C B
  have sA := distSq_self A
  have sB := distSq_self B
  have sC := distSq_self C
  clear hfy hfz h
  rcases hp with hp | hp | hp <;> rcases hy with hy | hy | hy <;>
    rcases hz with hz | hz | hz <;> subst p <;> subst y <;> subst z <;>
    first
      | rfl
      | exact Vector3D.add_comm' _ _
      | (have e1 : B = A := eq_of_distSq_le_zero (by linarith)
         have e2 : C = A := eq_of_distSq_le_zero (by linarith)
         rw [e1, e2])
      | (have e1 : B = A := eq_of_distSq_le_zero (by linarith)
         rw [e1]
         done)
      | (have e1 : B = A := eq_of_distSq_le_zero (by linarith)
         rw [e1]
         exact Vector3D.add_comm' _ _)
      | (have e2 : C = A := eq_of_distSq_le_zero (by linarith)
         rw [e2]
         done)
      | (have e2 : C = A := eq_of_distSq_le_zero (by linarith)
         rw [e2]
         exact Vector3D.add_comm' _ _)

theorem sqrt_cast_div_four (q : ℚ) :
    Real.sqrt ((q / 4 : ℚ) : ℝ) = Real.sqrt (q : ℝ) / 2 := by
  have h4 : Real.sqrt 4 = 2 := by
    rw [show (4 : ℝ) = 2 * 2 by norm_num]
    exact Real.sqrt_mul_self (by norm_num)
  push_cast
  rw [Real.sqrt_div' _ (by norm_num : (0 : ℝ) ≤ 4), h4]

/-- What a call of `reader.apply` by `calculateLocalBoundingVolume` implies about
the node and about the arguments of the call. -/
theorem boundingVolumeArguments_some {node : QGeometryView} {warnings : List String}
    {pa : QAttribute} {ia : Option QAttribute} {n : Int}
    (h : boundingVolumeArguments node = (warnings, some (pa, ia, n))) :
    warnings = [] ∧ node.isEnabled = true ∧
    node.primitiveType ≠ QGeometryView.PrimitiveType.Patches ∧
    ∃ geom, node.geometry = some geom ∧ positionAttributeOf geom = some pa ∧
      pa.attributeType = AttributeType.VertexAttribute ∧
      pa.vertexBaseType = VertexBaseType.Float ∧ 3 ≤ pa.vertexSize ∧
      (∃ b, pa.buffer = some b) ∧ ia = indexAttributeOf geom ∧
      (∀ i, ia = some i → i.vertexBaseType ∈ validIndexTypes) ∧
      n = (if node.vertexCount = 0 then defaultDrawCount pa ia else node.vertexCount) := by
  unfold boundingVolumeArguments at h
  by_cases h1 : (!node.isEnabled) = true
  · rw [if_pos h1] at h; simp at h
  rw [if_neg h1] at h
  by_cases h2 : node.primitiveType = QGeometryView.PrimitiveType.Patches
  · rw [if_pos h2] at h; simp at h
  rw [if_neg h2] at h
  rcases hg : node.geometry with _ | geom
  · rw [hg] at h; simp at h
  rw [hg] at h
  simp only at h
  rcases hpos : positionAttributeOf geom with _ | p
  · rw [hpos] at h; simp at h
  rw [hpos] at h
  simp only at h
  by_cases h3 : p.attributeType ≠ AttributeType.VertexAttribute
      ∨ p.vertexBaseType ≠ VertexBaseType.Float ∨ p.vertexSize < 3
  · rw [if_pos h3] at h; simp at h
  rw [if_neg h3] at h
  have h3' : p.attributeType = AttributeType.VertexAttribute ∧
      p.vertexBaseType = VertexBaseType.Float ∧ 3 ≤ p.vertexSize := by
    simp only [not_or, not_not, not_lt, ne_eq] at h3
    exact h3
  have h1' : node.isEnabled = true := by simpa using h1
  rcases hbuf : p.buffer with _ | b
  · rw [hbuf] at h; simp at h
  rw [hbuf] at h
  simp only at h
  rcases hidx : indexAttributeOf geom with _ | i
  · rw [hidx] at h
    simp only [Prod.mk.injEq, Option.some.injEq] at h
    obtain ⟨hw, rfl, rfl, hn⟩ := h
    exact ⟨hw.symm, h1', h2, geom, rfl, hpos, h3'.1, h3'.2.1, h3'.2.2, ⟨b, hbuf⟩, hidx.symm,
      by simp, hn.symm⟩
  · rw [hidx] at h
    simp only at h
    by_cases h5 : i.vertexBaseType ∉ validIndexTypes
    · rw [if_pos h5] at h; simp at h
    rw [if_neg h5] at h
    simp only [Prod.mk.injEq, Option.some.injEq] at h
    obtain ⟨hw, rfl, rfl, hn⟩ := h
    refine ⟨hw.symm, h1', h2, geom, rfl, hpos, h3'.1, h3'.2.1, h3'.2.2, ⟨b, hbuf⟩, hidx.symm,
      ?_, hn.symm⟩
    intro j hj
    simp only [Option.some.injEq] at hj
    subst hj
    exact not_not.1 h5

theorem triangleNode_arguments :
    boundingVolumeArguments triangleNode
      = ([], some (positionsOf triangle,
          some (indicesOf VertexBaseType.UnsignedShort [0, 1, 2]), 3)) := by
  simp [boundingVolumeArguments, staticCastInt, triangleNode, triangleGeometry, QGeometryView.geometry,
    QGeometryView.primitiveType, QGeometryView.vertexCount, positionAttributeOf,
    indexAttributeOf, positionsOf, indicesOf, validIndexTypes,
    QAttribute.defaultPositionAttributeName]

theorem calculateLocalBoundingVolume_of_none {node : QGeometryView}
    (h : (boundingVolumeArguments node).2 = none) :
    calculateLocalBoundingVolume node = ((0, 0), (boundingVolumeArguments node).1) := by
  unfold calculateLocalBoundingVolume
  rcases hb : boundingVolumeArguments node with ⟨w, _ | x⟩
  · rfl
  · rw [hb] at h; simp at h

theorem calculateLocalBoundingVolume_of_some {node : QGeometryView} {warnings : List String}
    {pa : QAttribute} {ia : Option QAttribute} {n : Int}
    (h : boundingVolumeArguments node = (warnings, some (pa, ia, n))) :
    calculateLocalBoundingVolume node =
      if (BoundingVolumeCalculator.apply {} (some pa) ia n node.primitiveRestartEnabled
          node.restartIndexValue).1 = true then
        (((BoundingVolumeCalculator.apply {} (some pa) ia n node.primitiveRestartEnabled
            node.restartIndexValue).2.m_min,
          (BoundingVolumeCalculator.apply {} (some pa) ia n node.primitiveRestartEnabled
            node.restartIndexValue).2.m_max), [])
      else ((0, 0), []) := by
  have hw := (boundingVolumeArguments_some h).1
  subst hw
  unfold calculateLocalBoundingVolume
  rw [h]

theorem patchesNode_result : calculateLocalBoundingVolume patchesNode = ((0, 0), []) := by
  simp [calculateLocalBoundingVolume, boundingVolumeArguments, patchesNode,
    QGeometryView.primitiveType]

theorem triangle_ritter :
    ritter ⟨0, 0, 0⟩ [⟨1, 0, 0⟩, ⟨0, 1, 0⟩]
      = { m_min := ⟨0, 0, 0⟩, m_max := ⟨1, 1, 0⟩, m_center := ⟨1 / 2, 1 / 2, 0⟩,
          m_radius := Scalar.sqrt (1 / 2) } := by
  norm_num [ritter, ritterCenter, ritterFar, ritterY, ritterZ, FindMaxDistantPoint.run,
    FindMaxDistantPoint.visit, foldMin, foldMax, Vector3D.length, Vector3D.lengthSquared,
    Vector3D.scale, Vector3D.sub_def, Vector3D.add_def, Vector3D.zero_def]

theorem floatIndexNoBufferNode_result :
    calculateLocalBoundingVolume floatIndexNoBufferNode = ((⟨0, 0, 0⟩, ⟨1, 1, 0⟩), []) := by
  have ha : boundingVolumeArguments floatIndexNoBufferNode
      = ([], some (positionsOf triangle, none, 3)) := by
    simp [boundingVolumeArguments, staticCastInt, floatIndexNoBufferNode, QGeometryView.geometry,
      QGeometryView.primitiveType, QGeometryView.vertexCount, positionAttributeOf,
      indexAttributeOf, positionsOf, indicesOf, QAttribute.defaultPositionAttributeName,
      triangle]
  have hc : Buffer3fVisitor.callbacks (some (positionsOf triangle)) none 3
      floatIndexNoBufferNode.primitiveRestartEnabled floatIndexNoBufferNode.restartIndexValue
      = some triangleCallbacks := by
    simp [Buffer3fVisitor.callbacks, Buffer3fVisitor.positionData, Buffer3fVisitor.loop,
      positionsOf, triangle, triangleCallbacks]
  have hp : points triangleCallbacks
      = (⟨0, 0, 0⟩ : Vector3D) :: [⟨1, 0, 0⟩, ⟨0, 1, 0⟩] := rfl
  rw [calculateLocalBoundingVolume_of_some ha,
    BoundingVolumeCalculator.apply_of_cons hc hp, triangle_ritter]
  rfl

theorem twoIndexNode_result :
    calculateLocalBoundingVolume twoIndexNode = ((⟨0, 0, 0⟩, ⟨1, 1, 0⟩), []) := by
  have ha : boundingVolumeArguments twoIndexNode
      = ([], some (positionsOf triangle,
          some (indicesOf VertexBaseType.UnsignedShort [0, 1, 2]), 3)) := by
    simp [boundingVolumeArguments, staticCastInt, twoIndexNode, QGeometryView.geometry,
      QGeometryView.primitiveType, QGeometryView.vertexCount, positionAttributeOf,
      indexAttributeOf, positionsOf, indicesOf, validIndexTypes,
      QAttribute.defaultPositionAttributeName]
  have hc : Buffer3fVisitor.callbacks (some (positionsOf triangle))
      (some (indicesOf VertexBaseType.UnsignedShort [0, 1, 2])) 3
      twoIndexNode.primitiveRestartEnabled twoIndexNode.restartIndexValue
      = some triangleCallbacks := by
    simp [Buffer3fVisitor.callbacks, Buffer3fVisitor.positionData, Buffer3fVisitor.indexData,
      Buffer3fVisitor.loop, positionsOf, indicesOf, triangle, triangleCallbacks,
      QGeometryView.primitiveRestartEnabled, twoIndexNode]
  have hp : points triangleCallbacks
      = (⟨0, 0, 0⟩ : Vector3D) :: [⟨1, 0, 0⟩, ⟨0, 1, 0⟩] := rfl
  rw [calculateLocalBoundingVolume_of_some ha,
    BoundingVolumeCalculator.apply_of_cons hc hp, triangle_ritter]
  rfl

theorem floatIndexNode_result :
    calculateLocalBoundingVolume floatIndexNode
      = ((0, 0), [warnUnsupportedIndex (indicesOf VertexBaseType.Float [0, 1, 2])]) := by
  simp [calculateLocalBoundingVolume, boundingVolumeArguments, floatIndexNode,
    QGeometryView.geometry, QGeometryView.primitiveType, QGeometryView.vertexCount,
    positionAttributeOf, indexAttributeOf, positionsOf, indicesOf, validIndexTypes,
    QAttribute.defaultPositionAttributeName]

theorem noBufferNode_result :
    calculateLocalBoundingVolume noBufferNode = ((0, 0), [warnPositionNoBuffer]) := by
  simp [calculateLocalBoundingVolume, boundingVolumeArguments, noBufferNode,
    QGeometryView.geometry, QGeometryView.primitiveType, QGeometryView.vertexCount,
    positionAttributeOf, indexAttributeOf, positionsOf,
    QAttribute.defaultPositionAttributeName]

theorem Vector3D.pair_ne_zero : ((⟨0, 0, 0⟩, ⟨1, 1, 0⟩) : Vector3D × Vector3D) ≠ (0, 0) := by
  intro h
  have h2 := congrArg (fun p : Vector3D × Vector3D => p.2.x) h
  simp [Vector3D.zero_def] at h2

theorem boundingVolumeArguments_position_unsuited {node : QGeometryView} {geom : QGeometry}
    {a : QAttribute} (he : node.isEnabled = true)
    (hp : node.primitiveType ≠ QGeometryView.PrimitiveType.Patches)
    (hg : node.geometry = some geom) (ha : positionAttributeOf geom = some a)
    (hbad : a.vertexBaseType ≠ VertexBaseType.Float ∨ a.vertexSize < 3) :
    boundingVolumeArguments node = ([warnPositionNotSuited], none) := by
  unfold boundingVolumeArguments
  have hbad' : a.attributeType ≠ AttributeType.VertexAttribute
      ∨ a.vertexBaseType ≠ VertexBaseType.Float ∨ a.vertexSize < 3 := Or.inr hbad
  simp only [he, Bool.not_true, Bool.false_eq_true, if_false, hp, hg, ha, if_pos hbad']

theorem boundingVolumeArguments_no_buffer {node : QGeometryView} {geom : QGeometry}
    {a : QAttribute} (he : node.isEnabled = true)
    (hp : node.primitiveType ≠ QGeometryView.PrimitiveType.Patches)
    (hg : node.geometry = some geom) (ha : positionAttributeOf geom = some a)
    (h1 : a.attributeType = AttributeType.VertexAttribute)
    (h2 : a.vertexBaseType = VertexBaseType.Float) (h3 : 3 ≤ a.vertexSize)
    (hb : a.buffer = none) :
    boundingVolumeArguments node = ([warnPositionNoBuffer], none) := by
  unfold boundingVolumeArguments
  have hok : ¬ (a.attributeType ≠ AttributeType.VertexAttribute
      ∨ a.vertexBaseType ≠ VertexBaseType.Float ∨ a.vertexSize < 3) := by
    simp only [not_or, not_not, not_lt, ne_eq]
    exact ⟨h1, h2, h3⟩
  simp only [he, Bool.not_true, Bool.false_eq_true, if_false, hp, hg, ha, if_neg hok, hb]

theorem boundingVolumeArguments_index_unsupported {node : QGeometryView} {geom : QGeometry}
    {a i : QAttribute} {b : QBuffer} (he : node.isEnabled = true)
    (hp : node.primitiveType ≠ QGeometryView.PrimitiveType.Patches)
    (hg : node.geometry = some geom) (ha : positionAttributeOf geom = some a)
    (h1 : a.attributeType = AttributeType.VertexAttribute)
    (h2 : a.vertexBaseType = VertexBaseType.Float) (h3 : 3 ≤ a.vertexSize)
    (hb : a.buffer = some b) (hi : indexAttributeOf geom = some i)
    (ht : i.vertexBaseType ∉ validIndexTypes) :
    boundingVolumeArguments node = ([warnUnsupportedIndex i], none) := by
  unfold boundingVolumeArguments
  have hok : ¬ (a.attributeType ≠ AttributeType.VertexAttribute
      ∨ a.vertexBaseType ≠ VertexBaseType.Float ∨ a.vertexSize < 3) := by
    simp only [not_or, not_not, not_lt, ne_eq]
    exact ⟨h1, h2, h3⟩
  simp only [he, Bool.not_true, Bool.false_eq_true, if_false, hp, hg, ha, if_neg hok, hb, hi,
    if_pos ht]

theorem boundingVolumeArguments_disabled {node : QGeometryView} (he : node.isEnabled = false) :
    boundingVolumeArguments node = ([], none) := by
  unfold boundingVolumeArguments
  simp only [he, Bool.not_false, if_true]

theorem boundingVolumeArguments_patches {node : QGeometryView}
    (hp : node.primitiveType = QGeometryView.PrimitiveType.Patches) :
    boundingVolumeArguments node = ([], none) := by
  unfold boundingVolumeArguments
  simp only [hp, if_true, ite_self]

theorem boundingVolumeArguments_no_geometry {node : QGeometryView}
    (hg : node.geometry = none) : boundingVolumeArguments node = ([], none) := by
  unfold boundingVolumeArguments
  simp only [hg, ite_self]

theorem calculateLocalBoundingVolume_early {node : QGeometryView} {warnings : List String}
    (h : boundingVolumeArguments node = (warnings, none)) :
    calculateLocalBoundingVolume node = ((0, 0), warnings) := by
  unfold calculateLocalBoundingVolume
  rw [h]

theorem Buffer3fVisitor.loopRaw_all_restart (positions : List Vector3D) (ri : Int) :
    ∀ (raw : List Nat) (ordinal : Nat), (∀ idx ∈ raw, (idx : Int) = ri) →
    Buffer3fVisitor.loopRaw positions true ri raw ordinal = some [] := by
  intro raw
  induction raw with
  | nil => intro ordinal _; rfl
  | cons a rest ih =>
    intro ordinal h
    unfold Buffer3fVisitor.loopRaw
    have ha : (a : Int) = ri := h a (List.mem_cons_self _ _)
    simp only [ha, decide_True, Bool.and_self, if_true]
    exact ih ordinal (fun idx hidx => h idx (List.mem_cons_of_mem _ hidx))

/-- With restart enabled, a traversal whose traversed indices all equal the
restart value completes without a callback. -/
theorem Buffer3fVisitor.callbacks_all_restart {pa : Option QAttribute} {a : QAttribute}
    {positions : List Vector3D} {ia : QAttribute} {ix : List Nat} {n : Int} {ri : Int}
    (hp : Buffer3fVisitor.positionData pa = some (a, positions))
    (hi : Buffer3fVisitor.indexData ia = some ix)
    (hN : (if n = 0 then ia.count else n.toNat) ≤ ix.length)
    (hall : ∀ idx ∈ ix.take (if n = 0 then ia.count else n.toNat), (idx : Int) = ri) :
    Buffer3fVisitor.callbacks pa (some ia) n true ri = some [] := by
  unfold Buffer3fVisitor.callbacks
  simp only [hp, hi]
  rw [Buffer3fVisitor.loop_eq_loopRaw positions ix true ri _ 0 0 (by omega), List.drop_zero]
  exact Buffer3fVisitor.loopRaw_all_restart positions ri _ 0 hall

/-- An unindexed traversal with effective count zero completes without a
callback. -/
theorem Buffer3fVisitor.callbacks_count_zero {pa : Option QAttribute} {a : QAttribute}
    {positions : List Vector3D} {n : Int} {re : Bool} {ri : Int}
    (hp : Buffer3fVisitor.positionData pa = some (a, positions))
    (hN : (if n = 0 then a.count else n.toNat) = 0) :
    Buffer3fVisitor.callbacks pa none n re ri = some [] := by
  unfold Buffer3fVisitor.callbacks
  simp only [hp, hN, Buffer3fVisitor.loop]

/-- An indexed traversal with effective count zero completes without a callback. -/
theorem Buffer3fVisitor.callbacks_index_count_zero {pa : Option QAttribute} {a : QAttribute}
    {positions : List Vector3D} {ia : QAttribute} {ix : List Nat} {n : Int} {re : Bool}
    {ri : Int} (hp : Buffer3fVisitor.positionData pa = some (a, positions))
    (hi : Buffer3fVisitor.indexData ia = some ix)
    (hN : (if n = 0 then ia.count else n.toNat) = 0) :
    Buffer3fVisitor.callbacks pa (some ia) n re ri = some [] := by
  unfold Buffer3fVisitor.callbacks
  simp only [hp, hi, hN, Buffer3fVisitor.loop]

theorem restartOnlyNode_arguments :
    boundingVolumeArguments restartOnlyNode
      = ([], some (positionsOf triangle,
          some (indicesOf VertexBaseType.UnsignedInt [7, 7]), 2)) := by
  simp [boundingVolumeArguments, staticCastInt, restartOnlyNode, QGeometryView.geometry,
    QGeometryView.primitiveType, QGeometryView.vertexCount, positionAttributeOf,
    indexAttributeOf, positionsOf, indicesOf, validIndexTypes,
    QAttribute.defaultPositionAttributeName]

theorem restartOnlyNode_callbacks :
    Buffer3fVisitor.callbacks (some (positionsOf triangle))
      (some (indicesOf VertexBaseType.UnsignedInt [7, 7])) 2 true 7 = some [] := by
  simp [Buffer3fVisitor.callbacks, Buffer3fVisitor.positionData, Buffer3fVisitor.indexData,
    Buffer3fVisitor.loop, positionsOf, indicesOf]

/-- A pass from a state whose reference point is settled either never adopts a
point, or ends with the last visited point among those at the greatest
distance. -/
theorem FindMaxDistantPoint.run_stable_last : ∀ (pts : List Vector3D)
    (s : FindMaxDistantPoint), (s.hasNoPoints && s.setReferencePoint) = false →
    ((s.run pts).maxDistPt = s.maxDistPt ∧ (s.run pts).maxLengthSquared = s.maxLengthSquared ∧
        ∀ p ∈ pts, distSq p s.referencePt < s.maxLengthSquared) ∨
      ∃ pre post, pts = pre ++ (s.run pts).maxDistPt :: post ∧
        distSq (s.run pts).maxDistPt s.referencePt = (s.run pts).maxLengthSquared ∧
        ∀ q ∈ post, distSq q s.referencePt < (s.run pts).maxLengthSquared := by
  intro pts
  induction pts with
  | nil =>
    intro s _
    left
    simp [FindMaxDistantPoint.run]
  | cons p ps ih =>
    intro s hs
    obtain ⟨v1, _, v3, v4⟩ := FindMaxDistantPoint.visit_stable_cases s 0 p hs
    have h5 := ih (s.visit 0 p.x p.y p.z) (by simp [v3])
    simp only [FindMaxDistantPoint.run]
    rw [v1] at h5
    rcases h5 with ⟨e1, e2, e3⟩ | ⟨pre, post, hsplit, hd, hpost⟩
    · rcases v4 with ⟨_, b, c⟩ | ⟨a, b, c⟩
      · right
        refine ⟨[], ps, ?_, ?_, ?_⟩
        · rw [e1, b]; rfl
        · rw [e1, e2, b, c]
        · intro q hq
          rw [e2]
          exact e3 q hq
      · left
        rw [e1, e2, b, c]
        refine ⟨rfl, rfl, ?_⟩
        intro q hq
        rcases List.mem_cons.1 hq with rfl | hq
        · exact a
        · have := e3 q hq
          rw [c] at this
          exact this
    · right
      exact ⟨p :: pre, post, by rw [List.cons_append, ← hsplit], hd, hpost⟩

theorem FindMaxDistantPoint.run_referencePt (s : FindMaxDistantPoint) (p : Vector3D)
    (ps : List Vector3D) (hn : s.hasNoPoints = true) :
    (s.run (p :: ps)).referencePt = if s.setReferencePoint = true then p else s.referencePt := by
  simp only [FindMaxDistantPoint.run]
  by_cases hr : s.setReferencePoint = true
  · rw [if_pos hr, FindMaxDistantPoint.visit_first s 0 p hn hr]
    exact (FindMaxDistantPoint.run_stable ps _ (by simp)).1
  · rw [if_neg hr]
    have hs : (s.hasNoPoints && s.setReferencePoint) = false := by simp [hr]
    rw [(FindMaxDistantPoint.run_stable ps _
      (by simp [(FindMaxDistantPoint.visit_stable_cases s 0 p hs).2.2.1])).1]
    exact (FindMaxDistantPoint.visit_stable_cases s 0 p hs).1

theorem fold_bounds (c : Vector3D → ℚ) (p : Vector3D) (ps : List Vector3D) (q : Vector3D)
    (hq : q ∈ p :: ps) : foldMin c (c p) ps ≤ c q ∧ c q ≤ foldMax c (c p) ps := by
  rcases List.mem_cons.1 hq with rfl | hq
  · exact ⟨foldMin_le_init c ps _, foldMax_ge_init c ps _⟩
  · exact ⟨foldMin_le_mem c ps _ q hq, foldMax_ge_mem c ps _ q hq⟩

theorem sq_sub_le_of_bounds {m M a b : ℚ} (ha : m ≤ a) (ha' : a ≤ M) (hb : m ≤ b)
    (hb' : b ≤ M) : (a - b) * (a - b) ≤ (M - m) * (M - m) := by
  nlinarith [mul_nonneg (by linarith : (0 : ℚ) ≤ (M - a) + (b - m))
    (by linarith : (0 : ℚ) ≤ (M - b) + (a - m))]

theorem mid_bounds {m M a b : ℚ} (ha : m ≤ a) (ha' : a ≤ M) (hb : m ≤ b) (hb' : b ≤ M) :
    m ≤ (a + b) * (1 / 2) ∧ (a + b) * (1 / 2) ≤ M := by
  constructor <;> linarith

/-- The centre of the sphere lies in the box and the squared radius is at most
the squared diagonal of the box. -/
theorem ritter_center_in_box (p : Vector3D) (ps : List Vector3D) :
    ((ritter p ps).m_min.x ≤ (ritter p ps).m_center.x ∧
      (ritter p ps).m_center.x ≤ (ritter p ps).m_max.x) ∧
    ((ritter p ps).m_min.y ≤ (ritter p ps).m_center.y ∧
      (ritter p ps).m_center.y ≤ (ritter p ps).m_max.y) ∧
    ((ritter p ps).m_min.z ≤ (ritter p ps).m_center.z ∧
      (ritter p ps).m_center.z ≤ (ritter p ps).m_max.z) ∧
    distSq (ritterCenter (p :: ps)) (ritterFar (p :: ps))
      ≤ ((ritter p ps).m_max - (ritter p ps).m_min).lengthSquared := by
  have hy := fun c => fold_bounds c p ps _ (ritterY_mem p ps)
  have hz := fun c => fold_bounds c p ps _ (ritterZ_mem p ps)
  have hf := fun c => fold_bounds c p ps _ (ritterFar_mem p ps)
  have cx := mid_bounds (hy Vector3D.x).1 (hy Vector3D.x).2 (hz Vector3D.x).1 (hz Vector3D.x).2
  have cy := mid_bounds (hy Vector3D.y).1 (hy Vector3D.y).2 (hz Vector3D.y).1 (hz Vector3D.y).2
  have cz := mid_bounds (hy Vector3D.z).1 (hy Vector3D.z).2 (hz Vector3D.z).1 (hz Vector3D.z).2
  refine ⟨cx, cy, cz, ?_⟩
  have dx : ((ritterCenter (p :: ps)).x - (ritterFar (p :: ps)).x)
        * ((ritterCenter (p :: ps)).x - (ritterFar (p :: ps)).x)
      ≤ ((ritter p ps).m_max.x - (ritter p ps).m_min.x)
        * ((ritter p ps).m_max.x - (ritter p ps).m_min.x) :=
    sq_sub_le_of_bounds cx.1 cx.2 (hf Vector3D.x).1 (hf Vector3D.x).2
  have dy : ((ritterCenter (p :: ps)).y - (ritterFar (p :: ps)).y)
        * ((ritterCenter (p :: ps)).y - (ritterFar (p :: ps)).y)
      ≤ ((ritter p ps).m_max.y - (ritter p ps).m_min.y)
        * ((ritter p ps).m_max.y - (ritter p ps).m_min.y) :=
    sq_sub_le_of_bounds cy.1 cy.2 (hf Vector3D.y).1 (hf Vector3D.y).2
  have dz : ((ritterCenter (p :: ps)).z - (ritterFar (p :: ps)).z)
        * ((ritterCenter (p :: ps)).z - (ritterFar (p :: ps)).z)
      ≤ ((ritter p ps).m_max.z - (ritter p ps).m_min.z)
        * ((ritter p ps).m_max.z - (ritter p ps).m_min.z) :=
    sq_sub_le_of_bounds cz.1 cz.2 (hf Vector3D.z).1 (hf Vector3D.z).2
  have key : ((ritter p ps).m_max - (ritter p ps).m_min).lengthSquared
      = distSq (ritter p ps).m_max (ritter p ps).m_min := rfl
  rw [key, distSq_def, distSq_def]
  linarith

theorem originNode_arguments :
    boundingVolumeArguments originNode = ([], some (positionsOf [⟨0, 0, 0⟩], none, 1)) := by
  simp [boundingVolumeArguments, staticCastInt, originNode, QGeometryView.geometry,
    QGeometryView.primitiveType, QGeometryView.vertexCount, positionAttributeOf,
    indexAttributeOf, positionsOf, QAttribute.defaultPositionAttributeName]

theorem originNode_callbacks :
    Buffer3fVisitor.callbacks (some (positionsOf [⟨0, 0, 0⟩])) none 1
      originNode.primitiveRestartEnabled originNode.restartIndexValue
      = some [(0, ⟨0, 0, 0⟩)] := by
  simp [Buffer3fVisitor.callbacks, Buffer3fVisitor.positionData, Buffer3fVisitor.loop,
    positionsOf]

theorem originNode_apply :
    BoundingVolumeCalculator.apply {} (some (positionsOf [⟨0, 0, 0⟩])) none 1
      originNode.primitiveRestartEnabled originNode.restartIndexValue
      = (true, { m_min := ⟨0, 0, 0⟩, m_max := ⟨0, 0, 0⟩, m_center := ⟨0, 0, 0⟩,
                 m_radius := Scalar.sqrt 0 }) := by
  have hp : points [(0, (⟨0, 0, 0⟩ : Vector3D))] = (⟨0, 0, 0⟩ : Vector3D) :: [] := rfl
  rw [BoundingVolumeCalculator.apply_of_cons originNode_callbacks hp,
    ritter_const ⟨0, 0, 0⟩ [] (by simp)]

theorem staticCastInt_of_lt {count : Nat} (h : count < 2147483648) :
    staticCastInt count = (count : Int) := by
  unfold staticCastInt
  omega

theorem staticCastInt_of_ge {count : Nat} (h : 2147483648 ≤ count) (h2 : count < 4294967296) :
    staticCastInt count = (count : Int) - 4294967296 := by
  unfold staticCastInt
  omega

theorem wrappedCountNode_arguments :
    boundingVolumeArguments wrappedCountNode
      = ([], some ({ positionsOf triangle with count := 2147483651 }, none, -2147483645)) := by
  simp [boundingVolumeArguments, staticCastInt, wrappedCountNode, QGeometryView.geometry,
    QGeometryView.primitiveType, QGeometryView.vertexCount, positionAttributeOf,
    indexAttributeOf, positionsOf, QAttribute.defaultPositionAttributeName]

/-! ## The binary32 model -/

@[simp]
theorem Binary32.add_fin (a b : ℚ) :
    (Binary32.fin a).add (Binary32.fin b) = Binary32.ofExact (a + b) := rfl
@[simp]
theorem Binary32.add_fin_inf (a : ℚ) (t : Bool) :
    (Binary32.fin a).add (Binary32.inf t) = Binary32.inf t := rfl
@[simp]
theorem Binary32.add_inf_fin (s : Bool) (b : ℚ) :
    (Binary32.inf s).add (Binary32.fin b) = Binary32.inf s := rfl
@[simp]
theorem Binary32.add_inf_inf (s t : Bool) :
    (Binary32.inf s).add (Binary32.inf t) = if s = t then Binary32.inf s else Binary32.nan := rfl
@[simp]
theorem Binary32.add_nan_left (b : Binary32) : Binary32.nan.add b = Binary32.nan := rfl
@[simp]
theorem Binary32.add_nan_right (a : Binary32) : a.add Binary32.nan = Binary32.nan := by
  cases a <;> rfl

@[simp]
theorem Binary32.sub_fin (a b : ℚ) :
    (Binary32.fin a).sub (Binary32.fin b) = Binary32.ofExact (a - b) := rfl
@[simp]
theorem Binary32.sub_fin_inf (a : ℚ) (t : Bool) :
    (Binary32.fin a).sub (Binary32.inf t) = Binary32.inf (!t) := rfl
@[simp]
theorem Binary32.sub_inf_fin (s : Bool) (b : ℚ) :
    (Binary32.inf s).sub (Binary32.fin b) = Binary32.inf s := rfl
@[simp]
theorem Binary32.sub_inf_inf (s t : Bool) :
    (Binary32.inf s).sub (Binary32.inf t) = if s = t then Binary32.nan else Binary32.inf s := rfl
@[simp]
theorem Binary32.sub_nan_left (b : Binary32) : Binary32.nan.sub b = Binary32.nan := rfl
@[simp]
theorem Binary32.sub_nan_right (a : Binary32) : a.sub Binary32.nan = Binary32.nan := by
  cases a <;> rfl

@[simp]
theorem Binary32.mul_fin (a b : ℚ) :
    (Binary32.fin a).mul (Binary32.fin b) = Binary32.ofExact (a * b) := rfl
@[simp]
theorem Binary32.mul_fin_inf (a : ℚ) (t : Bool) :
    (Binary32.fin a).mul (Binary32.inf t)
      = if a = 0 then Binary32.nan else Binary32.inf (decide (a < 0) != t) := rfl
@[simp]
theorem Binary32.mul_inf_fin (s : Bool) (b : ℚ) :
    (Binary32.inf s).mul (Binary32.fin b)
      = if b = 0 then Binary32.nan else Binary32.inf (s != decide (b < 0)) := rfl
@[simp]
theorem Binary32.mul_inf_inf (s t : Bool) :
    (Binary32.inf s).mul (Binary32.inf t) = Binary32.inf (s != t) := rfl
@[simp]
theorem Binary32.mul_nan_left (b : Binary32) : Binary32.nan.mul b = Binary32.nan := rfl
@[simp]
theorem Binary32.mul_nan_right (a : Binary32) : a.mul Binary32.nan = Binary32.nan := by
  cases a <;> rfl

@[simp]
theorem Binary32.lt_fin (a b : ℚ) :
    (Binary32.fin a).lt (Binary32.fin b) = decide (a < b) := rfl
@[simp]
theorem Binary32.lt_fin_inf (a : ℚ) (t : Bool) :
    (Binary32.fin a).lt (Binary32.inf t) = !t := rfl
@[simp]
theorem Binary32.lt_inf_fin (s : Bool) (b : ℚ) :
    (Binary32.inf s).lt (Binary32.fin b) = s := rfl
@[simp]
theorem Binary32.lt_inf_inf (s t : Bool) :
    (Binary32.inf s).lt (Binary32.inf t) = (s && !t) := rfl
@[simp]
theorem Binary32.lt_nan_left (b : Binary32) : Binary32.nan.lt b = false := rfl
@[simp]
theorem Binary32.lt_nan_right (a : Binary32) : a.lt Binary32.nan = false := by
  cases a <;> rfl

@[simp]
theorem Binary32.eq_fin (a b : ℚ) :
    (Binary32.fin a).eq (Binary32.fin b) = decide (a = b) := rfl
@[simp]
theorem Binary32.eq_fin_inf (a : ℚ) (t : Bool) :
    (Binary32.fin a).eq (Binary32.inf t) = false := rfl
@[simp]
theorem Binary32.eq_inf_fin (s : Bool) (b : ℚ) :
    (Binary32.inf s).eq (Binary32.fin b) = false := rfl
@[simp]
theorem Binary32.eq_inf_inf (s t : Bool) :
    (Binary32.inf s).eq (Binary32.inf t) = (s == t) := rfl
@[simp]
theorem Binary32.eq_nan_left (b : Binary32) : Binary32.nan.eq b = false := rfl
@[simp]
theorem Binary32.eq_nan_right (a : Binary32) : a.eq Binary32.nan = false := by
  cases a <;> rfl

@[simp]
theorem Binary32.le_nan_left (b : Binary32) : Binary32.nan.le b = false := rfl
@[simp]
theorem Binary32.le_nan_right (a : Binary32) : a.le Binary32.nan = false := by
  cases a <;> rfl

theorem Binary32.Vector3D.zero_eq_fin :
    (0 : Binary32.Vector3D) = ⟨Binary32.fin 0, Binary32.fin 0, Binary32.fin 0⟩ := rfl
@[simp]
theorem Binary32.Vector3D.zero_x : (0 : Binary32.Vector3D).x = Binary32.fin 0 := rfl
@[simp]
theorem Binary32.Vector3D.zero_y : (0 : Binary32.Vector3D).y = Binary32.fin 0 := rfl
@[simp]
theorem Binary32.Vector3D.zero_z : (0 : Binary32.Vector3D).z = Binary32.fin 0 := rfl

theorem Binary32.nan_callbacks_extremes :
    Binary32.FindExtremePoints.apply {} (some Binary32.nanCallbacks)
    = some { xMin := Binary32.nan, xMax := Binary32.nan,
             yMin := Binary32.fin 0, yMax := Binary32.fin 2,
             zMin := Binary32.fin 0, zMax := Binary32.fin 3,
             xMinPt := ⟨Binary32.nan, Binary32.fin 0, Binary32.fin 0⟩,
             xMaxPt := ⟨Binary32.nan, Binary32.fin 0, Binary32.fin 0⟩,
             yMinPt := ⟨Binary32.nan, Binary32.fin 0, Binary32.fin 0⟩,
             yMaxPt := ⟨Binary32.fin 1, Binary32.fin 2, Binary32.fin 3⟩,
             zMinPt := ⟨Binary32.nan, Binary32.fin 0, Binary32.fin 0⟩,
             zMaxPt := ⟨Binary32.fin 1, Binary32.fin 2, Binary32.fin 3⟩ } := by
  norm_num [Binary32.nanCallbacks, Binary32.FindExtremePoints.apply,
    Binary32.FindExtremePoints.visit]

theorem Binary32.nan_callbacks_apply :
    Binary32.BoundingVolumeCalculator.apply {} (some Binary32.nanCallbacks)
    = (true, { m_min := ⟨Binary32.nan, Binary32.fin 0, Binary32.fin 0⟩,
               m_max := ⟨Binary32.nan, Binary32.fin 2, Binary32.fin 3⟩,
               m_center := ⟨Binary32.fin (1 / 2), Binary32.fin 1, Binary32.fin (3 / 2)⟩,
               m_radius := Binary32.Scalar.length
                 ⟨Binary32.fin (-1 / 2), Binary32.fin (-1), Binary32.fin (-3 / 2)⟩ }) := by
  norm_num [Binary32.BoundingVolumeCalculator.apply, Binary32.nanCallbacks,
    Binary32.FindExtremePoints.apply, Binary32.FindExtremePoints.visit,
    Binary32.FindMaxDistantPoint.apply, Binary32.FindMaxDistantPoint.visit,
    Binary32.Vector3D.add, Binary32.Vector3D.sub, Binary32.Vector3D.scale,
    Binary32.Vector3D.lengthSquared, Binary32.Vector3D.eq, Binary32.le, Binary32.ofExact,
    Binary32.Scalar.isNegative]

theorem Binary32.nan_single_apply :
    Binary32.BoundingVolumeCalculator.apply {} (some (Binary32.nanCallbacks.take 1))
    = (true, { m_min := ⟨Binary32.nan, Binary32.fin 0, Binary32.fin 0⟩,
               m_max := ⟨Binary32.nan, Binary32.fin 0, Binary32.fin 0⟩,
               m_center := ⟨Binary32.fin 0, Binary32.fin 0, Binary32.fin 0⟩,
               m_radius := Binary32.Scalar.length
                 ⟨Binary32.fin 0, Binary32.fin 0, Binary32.fin 0⟩ }) := by
  norm_num [Binary32.BoundingVolumeCalculator.apply, Binary32.nanCallbacks,
    Binary32.FindExtremePoints.apply, Binary32.FindExtremePoints.visit,
    Binary32.FindMaxDistantPoint.apply, Binary32.FindMaxDistantPoint.visit,
    Binary32.Vector3D.add, Binary32.Vector3D.sub, Binary32.Vector3D.scale,
    Binary32.Vector3D.lengthSquared, Binary32.Vector3D.eq, Binary32.le, Binary32.ofExact,
    Binary32.Scalar.isNegative]

theorem Binary32.huge_callbacks_apply :
    Binary32.BoundingVolumeCalculator.apply {} (some Binary32.hugeCallbacks)
    = (true, { m_min := ⟨Binary32.fin (2 ^ 127), Binary32.fin 0, Binary32.fin 0⟩,
               m_max := ⟨Binary32.fin (2 ^ 127), Binary32.fin 0, Binary32.fin 0⟩,
               m_center := ⟨Binary32.inf false, Binary32.fin 0, Binary32.fin 0⟩,
               m_radius := Binary32.Scalar.length
                 ⟨Binary32.inf false, Binary32.fin 0, Binary32.fin 0⟩ }) := by
  norm_num [Binary32.BoundingVolumeCalculator.apply, Binary32.hugeCallbacks,
    Binary32.FindExtremePoints.apply, Binary32.FindExtremePoints.visit,
    Binary32.FindMaxDistantPoint.apply, Binary32.FindMaxDistantPoint.visit,
    Binary32.Vector3D.add, Binary32.Vector3D.sub, Binary32.Vector3D.scale,
    Binary32.Vector3D.lengthSquared, Binary32.Vector3D.eq, Binary32.le, Binary32.ofExact,
    Binary32.Scalar.isNegative]

theorem Binary32.huge_triangle_apply :
    Binary32.BoundingVolumeCalculator.apply {} (some Binary32.hugeTriangleCallbacks)
    = (true, { m_min := ⟨Binary32.fin 0, Binary32.fin 0, Binary32.fin 0⟩,
               m_max := ⟨Binary32.fin (2 ^ 64), Binary32.fin (2 ^ 64), Binary32.fin 0⟩,
               m_center := ⟨Binary32.fin (2 ^ 63), Binary32.fin 0, Binary32.fin 0⟩,
               m_radius := Binary32.Scalar.length
                 ⟨Binary32.fin (2 ^ 63), Binary32.fin (-(2 ^ 64)), Binary32.fin 0⟩ }) := by
  norm_num [Binary32.BoundingVolumeCalculator.apply, Binary32.hugeTriangleCallbacks,
    Binary32.FindExtremePoints.apply, Binary32.FindExtremePoints.visit,
    Binary32.FindMaxDistantPoint.apply, Binary32.FindMaxDistantPoint.visit,
    Binary32.Vector3D.add, Binary32.Vector3D.sub, Binary32.Vector3D.scale,
    Binary32.Vector3D.lengthSquared, Binary32.Vector3D.eq, Binary32.le, Binary32.ofExact,
    Binary32.Scalar.isNegative]

theorem Binary32.nan_farthest :
    Binary32.FindMaxDistantPoint.apply {}
      (some [(0, ⟨Binary32.nan, Binary32.fin 0, Binary32.fin 0⟩)])
    = some { maxLengthSquared := Binary32.fin 0, setReferencePoint := false,
             hasNoPoints := false,
             maxDistPt := ⟨Binary32.fin 0, Binary32.fin 0, Binary32.fin 0⟩,
             referencePt := ⟨Binary32.fin 0, Binary32.fin 0, Binary32.fin 0⟩ } := by
  norm_num [Binary32.FindMaxDistantPoint.apply, Binary32.FindMaxDistantPoint.visit,
    Binary32.Vector3D.sub, Binary32.Vector3D.lengthSquared, Binary32.le, Binary32.ofExact]
  rfl

theorem Binary32.overflow_farthest :
    Binary32.FindMaxDistantPoint.apply {}
      (some [(0, ⟨Binary32.fin (2 ^ 65), Binary32.fin 0, Binary32.fin 0⟩),
        (1, ⟨Binary32.fin (2 ^ 64), Binary32.fin 0, Binary32.fin 0⟩)])
    = some { maxLengthSquared := Binary32.inf false, setReferencePoint := false,
             hasNoPoints := false,
             maxDistPt := ⟨Binary32.fin (2 ^ 64), Binary32.fin 0, Binary32.fin 0⟩,
             referencePt := ⟨Binary32.fin 0, Binary32.fin 0, Binary32.fin 0⟩ } := by
  norm_num [Binary32.FindMaxDistantPoint.apply, Binary32.FindMaxDistantPoint.visit,
    Binary32.Vector3D.sub, Binary32.Vector3D.lengthSquared, Binary32.le, Binary32.ofExact]
  rfl

theorem Binary32.lt_irrefl (a : Binary32) : a.lt a = false := by
  rcases a with _ | s | a
  · rfl
  · cases s <;> rfl
  · simp [Binary32.lt]

theorem Binary32.lt_asymm {a b : Binary32} (h : a.lt b = true) : b.lt a = false := by
  rcases a with _ | s | a <;> rcases b with _ | t | b <;>
    simp_all [Binary32.lt]
  linarith

theorem Binary32.lt_trans {a b d : Binary32} (h1 : a.lt b = true) (h2 : b.lt d = true) :
    a.lt d = true := by
  rcases a with _ | s | a <;> rcases b with _ | t | b <;> rcases d with _ | u | d <;>
    simp_all [Binary32.lt]
  linarith

theorem Binary32.lt_of_lt_of_not_lt {a b d : Binary32} (hd : d ≠ Binary32.nan)
    (h1 : a.lt b = true) (h2 : d.lt b = false) : a.lt d = true := by
  rcases a with _ | s | a <;> rcases b with _ | t | b <;> rcases d with _ | u | d <;>
    simp_all [Binary32.lt]
  linarith

theorem Binary32.lt_of_not_lt_of_lt {a b d : Binary32} (hd : d ≠ Binary32.nan)
    (h1 : b.lt a = true) (h2 : b.lt d = false) : d.lt a = true := by
  rcases a with _ | s | a <;> rcases b with _ | t | b <;> rcases d with _ | u | d <;>
    simp_all [Binary32.lt]
  linarith

theorem Binary32.le_of_not_lt {a b : Binary32} (ha : a ≠ Binary32.nan) (hb : b ≠ Binary32.nan)
    (h : b.lt a = false) : a.le b = true := by
  rcases a with _ | s | a <;> rcases b with _ | t | b <;>
    simp_all [Binary32.lt, Binary32.le, Binary32.eq]
  · cases s <;> cases t <;> simp_all
  · exact lt_or_eq_of_le h

/-- The running extreme kept by `pick` over points without NaN: the recorded
point attains the recorded value, the points before it are strictly worse and
no point after it is better. -/
theorem Binary32.pick_foldl_spec (r : Binary32 → Binary32 → Bool)
    (c : Binary32.Vector3D → Binary32)
    (htrans : ∀ a b d, r a b = true → r b d = true → r a d = true)
    (hneg : ∀ a b d, d ≠ Binary32.nan → r a b = true → r d b = false → r a d = true) :
    ∀ (ps pre post : List Binary32.Vector3D) (b : Binary32.Vector3D),
      (∀ q ∈ post ++ ps, c q ≠ Binary32.nan) →
      (∀ q ∈ pre, r (c b) (c q) = true) → (∀ q ∈ post, r (c q) (c b) = false) →
      ∃ pre2 post2 b2, ps.foldl (Binary32.pick r c) (c b, b) = (c b2, b2) ∧
        pre ++ b :: post ++ ps = pre2 ++ b2 :: post2 ∧
        (∀ q ∈ pre2, r (c b2) (c q) = true) ∧ (∀ q ∈ post2, r (c q) (c b2) = false) := by
  intro ps
  induction ps with
  | nil =>
    intro pre post b _ h1 h2
    exact ⟨pre, post, b, rfl, by simp, h1, h2⟩
  | cons p ps ih =>
    intro pre post b hn h1 h2
    by_cases hp : r (c p) (c b) = true
    · have hstep : Binary32.pick r c (c b, b) p = (c p, p) := by
        simp [Binary32.pick, hp]
      obtain ⟨pre2, post2, b2, e1, e2, e3, e4⟩ := ih (pre ++ b :: post) [] p
        (by
          intro q hq
          exact hn q (by simp only [List.nil_append] at hq; simp [hq]))
        (by
          intro q hq
          simp only [List.mem_append, List.mem_cons] at hq
          rcases hq with hq | rfl | hq
          · exact htrans _ _ _ hp (h1 q hq)
          · exact hp
          · exact hneg _ _ _ (hn q (by simp [hq])) hp (h2 q hq))
        (by simp)
      refine ⟨pre2, post2, b2, ?_, ?_, e3, e4⟩
      · rw [List.foldl_cons, hstep, e1]
      · rw [← e2]; simp
    · have hp2 : r (c p) (c b) = false := by simpa using hp
      have hstep : Binary32.pick r c (c b, b) p = (c b, b) := by
        simp [Binary32.pick, hp2]
      obtain ⟨pre2, post2, b2, e1, e2, e3, e4⟩ := ih pre (post ++ [p]) b
        (by
          intro q hq
          exact hn q (by simpa using hq))
        h1
        (by
          intro q hq
          simp only [List.mem_append, List.mem_cons, List.not_mem_nil, or_false] at hq
          rcases hq with hq | rfl
          · exact h2 q hq
          · exact hp2)
      refine ⟨pre2, post2, b2, ?_, ?_, e3, e4⟩
      · rw [List.foldl_cons, hstep, e1]
      · rw [← e2]; simp

theorem Binary32.pick_foldl_min (c : Binary32.Vector3D → Binary32)
    (p : Binary32.Vector3D) (ps : List Binary32.Vector3D)
    (hn : ∀ q ∈ p :: ps, c q ≠ Binary32.nan) :
    Binary32.IsFirstMin c (p :: ps)
      (ps.foldl (Binary32.pick Binary32.lt c) (c p, p)).1
      (ps.foldl (Binary32.pick Binary32.lt c) (c p, p)).2 := by
  obtain ⟨pre, post, b, e1, e2, e3, e4⟩ := Binary32.pick_foldl_spec Binary32.lt c
    (fun _ _ _ h1 h2 => Binary32.lt_trans h1 h2)
    (fun _ _ _ hd h1 h2 => Binary32.lt_of_lt_of_not_lt hd h1 h2) ps [] [] p
    (fun q hq => hn q (by simp only [List.nil_append] at hq; simp [hq])) (by simp) (by simp)
  rw [e1]
  simp only [List.nil_append] at e2
  have e2' : p :: ps = pre ++ b :: post := by simpa using e2
  have hnb : ∀ q ∈ pre ++ b :: post, c q ≠ Binary32.nan := by
    intro q hq; rw [← e2'] at hq; exact hn q hq
  refine ⟨rfl, ?_, pre, post, e2', e3⟩
  intro q hq
  rw [e2'] at hq
  refine Binary32.le_of_not_lt (hnb b (by simp)) (hnb q hq) ?_
  simp only [List.mem_append, List.mem_cons] at hq
  rcases hq with hq | rfl | hq
  · exact Binary32.lt_asymm (e3 q hq)
  · exact Binary32.lt_irrefl _
  · exact e4 q hq

theorem Binary32.pick_foldl_max (c : Binary32.Vector3D → Binary32)
    (p : Binary32.Vector3D) (ps : List Binary32.Vector3D)
    (hn : ∀ q ∈ p :: ps, c q ≠ Binary32.nan) :
    Binary32.IsFirstMax c (p :: ps)
      (ps.foldl (Binary32.pick (fun a b => b.lt a) c) (c p, p)).1
      (ps.foldl (Binary32.pick (fun a b => b.lt a) c) (c p, p)).2 := by
  obtain ⟨pre, post, b, e1, e2, e3, e4⟩ := Binary32.pick_foldl_spec (fun a b => b.lt a) c
    (fun _ _ _ h1 h2 => Binary32.lt_trans h2 h1)
    (fun _ _ _ hd h1 h2 => Binary32.lt_of_not_lt_of_lt hd h1 h2) ps [] [] p
    (fun q hq => hn q (by simp only [List.nil_append] at hq; simp [hq])) (by simp) (by simp)
  rw [e1]
  simp only [List.nil_append] at e2
  have e2' : p :: ps = pre ++ b :: post := by simpa using e2
  have hnb : ∀ q ∈ pre ++ b :: post, c q ≠ Binary32.nan := by
    intro q hq; rw [← e2'] at hq; exact hn q hq
  refine ⟨rfl, ?_, pre, post, e2', e3⟩
  intro q hq
  rw [e2'] at hq
  refine Binary32.le_of_not_lt (hnb q hq) (hnb b (by simp)) ?_
  simp only [List.mem_append, List.mem_cons] at hq
  rcases hq with hq | rfl | hq
  · exact Binary32.lt_asymm (e3 q hq)
  · exact Binary32.lt_irrefl _
  · exact e4 q hq

theorem Binary32.FindExtremePoints.visit_succ_expand (s : Binary32.FindExtremePoints)
    (n : Nat) (x y z : Binary32) :
    s.visit (n + 1) x y z =
      ((((((s.stepXMin x y z).stepXMax x y z).stepYMin x y z).stepYMax x y z).stepZMin
        x y z).stepZMax x y z) := rfl

theorem Binary32.FindExtremePoints.stepXMin_pairs (s : Binary32.FindExtremePoints)
    (p : Binary32.Vector3D) :
    (s.stepXMin p.x p.y p.z).pairs
      = (Binary32.pick Binary32.lt Binary32.Vector3D.x s.pairs.1 p, s.pairs.2) := by
  unfold Binary32.FindExtremePoints.stepXMin Binary32.FindExtremePoints.pairs Binary32.pick
  split_ifs <;> rfl

theorem Binary32.FindExtremePoints.stepXMax_pairs (s : Binary32.FindExtremePoints)
    (p : Binary32.Vector3D) :
    (s.stepXMax p.x p.y p.z).pairs
      = (s.pairs.1, Binary32.pick (fun a b => b.lt a) Binary32.Vector3D.x s.pairs.2.1 p,
          s.pairs.2.2) := by
  unfold Binary32.FindExtremePoints.stepXMax Binary32.FindExtremePoints.pairs Binary32.pick
  split_ifs <;> rfl

theorem Binary32.FindExtremePoints.stepYMin_pairs (s : Binary32.FindExtremePoints)
    (p : Binary32.Vector3D) :
    (s.stepYMin p.x p.y p.z).pairs
      = (s.pairs.1, s.pairs.2.1,
          Binary32.pick Binary32.lt Binary32.Vector3D.y s.pairs.2.2.1 p, s.pairs.2.2.2) := by
  unfold Binary32.FindExtremePoints.stepYMin Binary32.FindExtremePoints.pairs Binary32.pick
  split_ifs <;> rfl

theorem Binary32.FindExtremePoints.stepYMax_pairs (s : Binary32.FindExtremePoints)
    (p : Binary32.Vector3D) :
    (s.stepYMax p.x p.y p.z).pairs
      = (s.pairs.1, s.pairs.2.1, s.pairs.2.2.1,
          Binary32.pick (fun a b => b.lt a) Binary32.Vector3D.y s.pairs.2.2.2.1 p,
          s.pairs.2.2.2.2) := by
  unfold Binary32.FindExtremePoints.stepYMax Binary32.FindExtremePoints.pairs Binary32.pick
  split_ifs <;> rfl

theorem Binary32.FindExtremePoints.stepZMin_pairs (s : Binary32.FindExtremePoints)
    (p : Binary32.Vector3D) :
    (s.stepZMin p.x p.y p.z).pairs
      = (s.pairs.1, s.pairs.2.1, s.pairs.2.2.1, s.pairs.2.2.2.1,
          Binary32.pick Binary32.lt Binary32.Vector3D.z s.pairs.2.2.2.2.1 p,
          s.pairs.2.2.2.2.2) := by
  unfold Binary32.FindExtremePoints.stepZMin Binary32.FindExtremePoints.pairs Binary32.pick
  split_ifs <;> rfl

theorem Binary32.FindExtremePoints.stepZMax_pairs (s : Binary32.FindExtremePoints)
    (p : Binary32.Vector3D) :
    (s.stepZMax p.x p.y p.z).pairs
      = (s.pairs.1, s.pairs.2.1, s.pairs.2.2.1, s.pairs.2.2.2.1, s.pairs.2.2.2.2.1,
          Binary32.pick (fun a b => b.lt a) Binary32.Vector3D.z s.pairs.2.2.2.2.2 p) := by
  unfold Binary32.FindExtremePoints.stepZMax Binary32.FindExtremePoints.pairs Binary32.pick
  split_ifs <;> rfl

/-- A visit with a non-zero ordinal updates each of the six extremes by `pick`. -/
theorem Binary32.FindExtremePoints.visit_succ_pairs (s : Binary32.FindExtremePoints)
    (n : Nat) (p : Binary32.Vector3D) :
    (s.visit (n + 1) p.x p.y p.z).pairs
      = (Binary32.pick Binary32.lt Binary32.Vector3D.x (s.xMin, s.xMinPt) p,
         Binary32.pick (fun a b => b.lt a) Binary32.Vector3D.x (s.xMax, s.xMaxPt) p,
         Binary32.pick Binary32.lt Binary32.Vector3D.y (s.yMin, s.yMinPt) p,
         Binary32.pick (fun a b => b.lt a) Binary32.Vector3D.y (s.yMax, s.yMaxPt) p,
         Binary32.pick Binary32.lt Binary32.Vector3D.z (s.zMin, s.zMinPt) p,
         Binary32.pick (fun a b => b.lt a) Binary32.Vector3D.z (s.zMax, s.zMaxPt) p) := by
  rw [Binary32.FindExtremePoints.visit_succ_expand, Binary32.FindExtremePoints.stepZMax_pairs,
    Binary32.FindExtremePoints.stepZMin_pairs, Binary32.FindExtremePoints.stepYMax_pairs,
    Binary32.FindExtremePoints.stepYMin_pairs, Binary32.FindExtremePoints.stepXMax_pairs,
    Binary32.FindExtremePoints.stepXMin_pairs]
  rfl

/-- The visit with the ordinal 0 sets each of the six extremes to the point. -/
theorem Binary32.FindExtremePoints.visit_zero_pairs (s : Binary32.FindExtremePoints)
    (p : Binary32.Vector3D) :
    (s.visit 0 p.x p.y p.z).pairs
      = ((p.x, p), (p.x, p), (p.y, p), (p.y, p), (p.z, p), (p.z, p)) := rfl

theorem Binary32.FindExtremePoints.run_succ_pairs : ∀ (ps : List Binary32.Vector3D)
    (s : Binary32.FindExtremePoints) (n : Nat),
    (s.run (n + 1) ps).pairs
      = (ps.foldl (Binary32.pick Binary32.lt Binary32.Vector3D.x) s.pairs.1,
         ps.foldl (Binary32.pick (fun a b => b.lt a) Binary32.Vector3D.x) s.pairs.2.1,
         ps.foldl (Binary32.pick Binary32.lt Binary32.Vector3D.y) s.pairs.2.2.1,
         ps.foldl (Binary32.pick (fun a b => b.lt a) Binary32.Vector3D.y) s.pairs.2.2.2.1,
         ps.foldl (Binary32.pick Binary32.lt Binary32.Vector3D.z) s.pairs.2.2.2.2.1,
         ps.foldl (Binary32.pick (fun a b => b.lt a) Binary32.Vector3D.z) s.pairs.2.2.2.2.2) := by
  intro ps
  induction ps with
  | nil => intro s n; rfl
  | cons p ps ih =>
    intro s n
    simp only [Binary32.FindExtremePoints.run, List.foldl_cons]
    rw [ih, Binary32.FindExtremePoints.visit_succ_pairs]
    rfl

theorem Binary32.FindExtremePoints.run_zero_pairs (s : Binary32.FindExtremePoints)
    (p : Binary32.Vector3D) (ps : List Binary32.Vector3D) :
    (s.run 0 (p :: ps)).pairs
      = (ps.foldl (Binary32.pick Binary32.lt Binary32.Vector3D.x) (p.x, p),
         ps.foldl (Binary32.pick (fun a b => b.lt a) Binary32.Vector3D.x) (p.x, p),
         ps.foldl (Binary32.pick Binary32.lt Binary32.Vector3D.y) (p.y, p),
         ps.foldl (Binary32.pick (fun a b => b.lt a) Binary32.Vector3D.y) (p.y, p),
         ps.foldl (Binary32.pick Binary32.lt Binary32.Vector3D.z) (p.z, p),
         ps.foldl (Binary32.pick (fun a b => b.lt a) Binary32.Vector3D.z) (p.z, p)) := by
  simp only [Binary32.FindExtremePoints.run]
  rw [Binary32.FindExtremePoints.run_succ_pairs, Binary32.FindExtremePoints.visit_zero_pairs]

/-- The extremes and their points after visits with the ordinals 0, 1, 2, ...: each
pair is the fold of `pick` over the later points, started at the first point. -/
theorem Binary32.FindExtremePoints.run_zero_fields (s : Binary32.FindExtremePoints)
    (p : Binary32.Vector3D) (ps : List Binary32.Vector3D) :
    ((s.run 0 (p :: ps)).xMin
        = (ps.foldl (Binary32.pick Binary32.lt Binary32.Vector3D.x) (p.x, p)).1 ∧
      (s.run 0 (p :: ps)).xMinPt
        = (ps.foldl (Binary32.pick Binary32.lt Binary32.Vector3D.x) (p.x, p)).2) ∧
    ((s.run 0 (p :: ps)).xMax
        = (ps.foldl (Binary32.pick (fun a b => b.lt a) Binary32.Vector3D.x) (p.x, p)).1 ∧
      (s.run 0 (p :: ps)).xMaxPt
        = (ps.foldl (Binary32.pick (fun a b => b.lt a) Binary32.Vector3D.x) (p.x, p)).2) ∧
    ((s.run 0 (p :: ps)).yMin
        = (ps.foldl (Binary32.pick Binary32.lt Binary32.Vector3D.y) (p.y, p)).1 ∧
      (s.run 0 (p :: ps)).yMinPt
        = (ps.foldl (Binary32.pick Binary32.lt Binary32.Vector3D.y) (p.y, p)).2) ∧
    ((s.run 0 (p :: ps)).yMax
        = (ps.foldl (Binary32.pick (fun a b => b.lt a) Binary32.Vector3D.y) (p.y, p)).1 ∧
      (s.run 0 (p :: ps)).yMaxPt
        = (ps.foldl (Binary32.pick (fun a b => b.lt a) Binary32.Vector3D.y) (p.y, p)).2) ∧
    ((s.run 0 (p :: ps)).zMin
        = (ps.foldl (Binary32.pick Binary32.lt Binary32.Vector3D.z) (p.z, p)).1 ∧
      (s.run 0 (p :: ps)).zMinPt
        = (ps.foldl (Binary32.pick Binary32.lt Binary32.Vector3D.z) (p.z, p)).2) ∧
    ((s.run 0 (p :: ps)).zMax
        = (ps.foldl (Binary32.pick (fun a b => b.lt a) Binary32.Vector3D.z) (p.z, p)).1 ∧
      (s.run 0 (p :: ps)).zMaxPt
        = (ps.foldl (Binary32.pick (fun a b => b.lt a) Binary32.Vector3D.z) (p.z, p)).2) := by
  have h := Binary32.FindExtremePoints.run_zero_pairs s p ps
  simp only [Binary32.FindExtremePoints.pairs, Prod.mk.injEq] at h
  obtain ⟨a, b, c, d, e, f⟩ := h
  exact ⟨⟨congrArg Prod.fst a, congrArg Prod.snd a⟩, ⟨congrArg Prod.fst b, congrArg Prod.snd b⟩,
    ⟨congrArg Prod.fst c, congrArg Prod.snd c⟩, ⟨congrArg Prod.fst d, congrArg Prod.snd d⟩,
    ⟨congrArg Prod.fst e, congrArg Prod.snd e⟩, ⟨congrArg Prod.fst f, congrArg Prod.snd f⟩⟩

theorem Binary32.FindExtremePoints.callbacks_foldl_eq_run :
    ∀ (cs : List (Nat × Binary32.Vector3D)) (s : Binary32.FindExtremePoints) (ordinal : Nat),
    cs.map Prod.fst = List.range' ordinal cs.length →
    cs.foldl (fun s c => s.visit c.1 c.2.x c.2.y c.2.z) s = s.run ordinal (cs.map Prod.snd) := by
  intro cs
  induction cs with
  | nil => intro s ordinal _; rfl
  | cons c cs ih =>
    intro s ordinal h
    simp only [List.map_cons, List.length_cons, List.range'_succ, List.cons.injEq] at h
    simp only [List.foldl_cons, List.map_cons, Binary32.FindExtremePoints.run]
    rw [ih _ _ h.2, h.1]

theorem Binary32.FindMaxDistantPoint.foldl_hasNoPoints_of_false :
    ∀ (cs : List (Nat × Binary32.Vector3D)) (s : Binary32.FindMaxDistantPoint),
    s.hasNoPoints = false →
    (cs.foldl (fun s c => s.visit c.1 c.2.x c.2.y c.2.z) s).hasNoPoints = false := by
  intro cs
  induction cs with
  | nil => intro s h; exact h
  | cons c cs ih => intro s _; exact ih _ rfl

theorem Binary32.FindMaxDistantPoint.foldl_hasNoPoints
    (cs : List (Nat × Binary32.Vector3D)) (s : Binary32.FindMaxDistantPoint) (hne : cs ≠ []) :
    (cs.foldl (fun s c => s.visit c.1 c.2.x c.2.y c.2.z) s).hasNoPoints = false := by
  cases cs with
  | nil => exact absurd rfl hne
  | cons c cs => exact Binary32.FindMaxDistantPoint.foldl_hasNoPoints_of_false cs _ rfl

/-- On a traversal with at least one callback `apply` returns true, and the box
it leaves is the one recorded by `FindExtremePoints`. -/
theorem Binary32.BoundingVolumeCalculator.apply_of_ne_nil (self : Binary32.BoundingVolumeCalculator)
    (cs : List (Nat × Binary32.Vector3D)) (hne : cs ≠ []) :
    (self.apply (some cs)).1 = true ∧
    (self.apply (some cs)).2.m_min
      = ⟨(cs.foldl (fun s c => s.visit c.1 c.2.x c.2.y c.2.z)
            ({} : Binary32.FindExtremePoints)).xMin,
         (cs.foldl (fun s c => s.visit c.1 c.2.x c.2.y c.2.z)
            ({} : Binary32.FindExtremePoints)).yMin,
         (cs.foldl (fun s c => s.visit c.1 c.2.x c.2.y c.2.z)
            ({} : Binary32.FindExtremePoints)).zMin⟩ ∧
    (self.apply (some cs)).2.m_max
      = ⟨(cs.foldl (fun s c => s.visit c.1 c.2.x c.2.y c.2.z)
            ({} : Binary32.FindExtremePoints)).xMax,
         (cs.foldl (fun s c => s.visit c.1 c.2.x c.2.y c.2.z)
            ({} : Binary32.FindExtremePoints)).yMax,
         (cs.foldl (fun s c => s.visit c.1 c.2.x c.2.y c.2.z)
            ({} : Binary32.FindExtremePoints)).zMax⟩ := by
  unfold Binary32.BoundingVolumeCalculator.apply
  simp only [Binary32.FindExtremePoints.apply, Binary32.FindMaxDistantPoint.apply,
    Option.map_some', Binary32.FindMaxDistantPoint.foldl_hasNoPoints cs _ hne,
    Binary32.Scalar.isNegative, Bool.and_false, Bool.false_eq_true, if_false, and_self]

/-- On a traversal without callbacks `apply` returns false. -/
theorem Binary32.BoundingVolumeCalculator.apply_nil_false (self : Binary32.BoundingVolumeCalculator) :
    (self.apply (some [])).1 = false := rfl

/-- A failed traversal makes `apply` return false. -/
theorem Binary32.BoundingVolumeCalculator.apply_none_false (self : Binary32.BoundingVolumeCalculator) :
    (self.apply none).1 = false := rfl

theorem Binary32.isFirstMin_mem {c : Binary32.Vector3D → Binary32}
    {pts : List Binary32.Vector3D} {m : Binary32} {b : Binary32.Vector3D}
    (h : Binary32.IsFirstMin c pts m b) : b ∈ pts := by
  obtain ⟨_, _, pre, post, e, _⟩ := h
  rw [e]; simp

theorem Binary32.isFirstMax_mem {c : Binary32.Vector3D → Binary32}
    {pts : List Binary32.Vector3D} {m : Binary32} {b : Binary32.Vector3D}
    (h : Binary32.IsFirstMax c pts m b) : b ∈ pts := by
  obtain ⟨_, _, pre, post, e, _⟩ := h
  rw [e]; simp

/-- On a non-empty traversal without NaN whose ordinals are 0, 1, 2, ..., each
corner coordinate of the box left by `apply` bounds that coordinate over the
visited points and is attained by a visited point. -/
theorem Binary32.BoundingVolumeCalculator.apply_box_tight
    (self : Binary32.BoundingVolumeCalculator) (cs : List (Nat × Binary32.Vector3D))
    (hord : cs.map Prod.fst = List.range cs.length)
    (hnan : ∀ c ∈ cs, c.2.NoNaN) (hne : cs ≠ []) :
    (∃ b, Binary32.IsFirstMin Binary32.Vector3D.x (cs.map Prod.snd)
      (self.apply (some cs)).2.m_min.x b) ∧
    (∃ b, Binary32.IsFirstMax Binary32.Vector3D.x (cs.map Prod.snd)
      (self.apply (some cs)).2.m_max.x b) ∧
    (∃ b, Binary32.IsFirstMin Binary32.Vector3D.y (cs.map Prod.snd)
      (self.apply (some cs)).2.m_min.y b) ∧
    (∃ b, Binary32.IsFirstMax Binary32.Vector3D.y (cs.map Prod.snd)
      (self.apply (some cs)).2.m_max.y b) ∧
    (∃ b, Binary32.IsFirstMin Binary32.Vector3D.z (cs.map Prod.snd)
      (self.apply (some cs)).2.m_min.z b) ∧
    (∃ b, Binary32.IsFirstMax Binary32.Vector3D.z (cs.map Prod.snd)
      (self.apply (some cs)).2.m_max.z b) := by
  obtain ⟨_, hmin, hmax⟩ := Binary32.BoundingVolumeCalculator.apply_of_ne_nil self cs hne
  rw [hmin, hmax, Binary32.FindExtremePoints.callbacks_foldl_eq_run cs {} 0
    (by rw [hord, List.range_eq_range'])]
  cases cs with
  | nil => exact absurd rfl hne
  | cons c cs =>
    have hn : ∀ q ∈ c.2 :: cs.map Prod.snd, q.NoNaN := by
      intro q hq
      rw [← List.map_cons] at hq
      obtain ⟨d, hd, rfl⟩ := List.mem_map.1 hq
      exact hnan d hd
    obtain ⟨⟨a1, a2⟩, ⟨b1, b2⟩, ⟨c1, c2⟩, ⟨d1, d2⟩, ⟨e1, e2⟩, ⟨f1, f2⟩⟩ :=
      Binary32.FindExtremePoints.run_zero_fields {} c.2 (cs.map Prod.snd)
    simp only [List.map_cons]
    rw [a1, b1, c1, d1, e1, f1]
    exact ⟨⟨_, Binary32.pick_foldl_min _ _ _ (fun q hq => (hn q hq).1)⟩,
      ⟨_, Binary32.pick_foldl_max _ _ _ (fun q hq => (hn q hq).1)⟩,
      ⟨_, Binary32.pick_foldl_min _ _ _ (fun q hq => (hn q hq).2.1)⟩,
      ⟨_, Binary32.pick_foldl_max _ _ _ (fun q hq => (hn q hq).2.1)⟩,
      ⟨_, Binary32.pick_foldl_min _ _ _ (fun q hq => (hn q hq).2.2)⟩,
      ⟨_, Binary32.pick_foldl_max _ _ _ (fun q hq => (hn q hq).2.2)⟩⟩

theorem Binary32.BoundingVolumeCalculator.ne_nil_of_true
    (self : Binary32.BoundingVolumeCalculator) (cs : List (Nat × Binary32.Vector3D))
    (hok : (self.apply (some cs)).1 = true) : cs ≠ [] := by
  rintro rfl
  rw [Binary32.BoundingVolumeCalculator.apply_nil_false] at hok
  exact Bool.false_ne_true hok

theorem Binary32.take_ordinals {cs : List (Nat × Binary32.Vector3D)} (k : Nat)
    (hord : cs.map Prod.fst = List.range cs.length) :
    (cs.take k).map Prod.fst = List.range (cs.take k).length := by
  rw [List.map_take, hord, List.take_range, List.length_take]

theorem Binary32.infCallbacks_noNaN : ∀ c ∈ Binary32.infCallbacks, c.2.NoNaN := by
  intro c hc
  simp only [Binary32.infCallbacks, List.mem_cons, List.mem_singleton, List.not_mem_nil,
    or_false] at hc
  rcases hc with rfl | rfl <;> simp [Binary32.Vector3D.NoNaN]

/-! ## The claims -/

/-- C1 (sphere containment): whenever `apply` returns true, the stored centre is
`(y + z) / 2` for the points `y`, `z` of passes 2 and 3, the stored radius is the
distance from the centre to the point found by pass 4, and every point visited
by the traversal lies within the sphere: its squared distance to the centre is
at most the square `q` of the radius, hence its distance is at most the radius. -/
theorem BoundingVolumeCalculator.sphere_contains_visited (self : BoundingVolumeCalculator)
    (pa ia : Option QAttribute) (n : Int) (re : Bool) (ri : Int) (cs : List (Nat × Vector3D))
    (hcs : Buffer3fVisitor.callbacks pa ia n re ri = some cs)
    (hok : (self.apply pa ia n re ri).1 = true) :
    (self.apply pa ia n re ri).2.m_center
      = (ritterY (points cs) + ritterZ (points cs)).scale (1 / 2) ∧
    (self.apply pa ia n re ri).2.m_radius
      = ((self.apply pa ia n re ri).2.m_center - ritterFar (points cs)).length ∧
    ∃ q : ℚ, (self.apply pa ia n re ri).2.m_radius = Scalar.sqrt q ∧
      ∀ c ∈ cs, (c.2 - (self.apply pa ia n re ri).2.m_center).lengthSquared ≤ q ∧
        Real.sqrt (((c.2 - (self.apply pa ia n re ri).2.m_center).lengthSquared : ℚ) : ℝ)
          ≤ Real.sqrt (q : ℝ) := by
  obtain ⟨p, ps, hp, he⟩ := BoundingVolumeCalculator.apply_true hcs self hok
  rw [he, hp]
  refine ⟨rfl, rfl, _, rfl, ?_⟩
  intro c hc
  have hmem : c.2 ∈ p :: ps := by
    rw [← hp]; exact List.mem_map_of_mem _ hc
  have hfar := (ritterFar_isFarthest (p :: ps) (List.cons_ne_nil _ _)).2 c.2 hmem
  have hle : (c.2 - ritterCenter (p :: ps)).lengthSquared
      ≤ (ritterCenter (p :: ps) - ritterFar (p :: ps)).lengthSquared := by
    have := distSq_comm (ritterFar (p :: ps)) (ritterCenter (p :: ps))
    unfold distSq at hfar this
    rw [← this]; exact hfar
  exact ⟨hle, sqrt_cast_le hle⟩

/-- C3 (primitive-restart invariance): with restart enabled and a zero draw count
(so that the count of the index attribute, which covers the whole index list,
is used), inserting an index equal to the restart value at any position `j` of
the index list, the front included, leaves the returned flag and all members
(min, max, center, radius) unchanged, for every position attribute and every
index list. -/
theorem BoundingVolumeCalculator.restart_insert_invariant (self : BoundingVolumeCalculator)
    (pa : Option QAttribute) (ia : QAttribute) (b : QBuffer) (ri : Int) (r j : Nat)
    (hb : ia.buffer = some b) (hcount : ia.count = b.indices.length)
    (hr : (r : Int) = ri) (hj : j ≤ b.indices.length) :
    self.apply pa
        (some { ia with
          count := ia.count + 1,
          buffer := some { b with indices := b.indices.insertIdx j r } })
        0 true ri
      = self.apply pa (some ia) 0 true ri := by
  apply BoundingVolumeCalculator.apply_congr
  unfold Buffer3fVisitor.callbacks
  rcases hp : Buffer3fVisitor.positionData pa with _ | ⟨position, positions⟩
  · rfl
  · simp only [Buffer3fVisitor.indexData, hb, if_true]
    split_ifs with ht
    · simp only [hcount]
      have h1 := Buffer3fVisitor.loop_eq_loopRaw positions (b.indices.insertIdx j r) true ri
        (b.indices.length + 1) 0 0 (by rw [List.length_insertIdx _ _ hj]; omega)
      have h2 := Buffer3fVisitor.loop_eq_loopRaw positions b.indices true ri
        b.indices.length 0 0 (by omega)
      rw [h1, h2]
      have e1 : (List.drop 0 (b.indices.insertIdx j r)).take (b.indices.length + 1)
          = b.indices.insertIdx j r := by
        rw [List.drop_zero, ← List.length_insertIdx j b.indices hj (a := r), List.take_length]
      have e2 : (List.drop 0 b.indices).take b.indices.length = b.indices := by
        rw [List.drop_zero, List.take_length]
      rw [e1, e2]
      exact Buffer3fVisitor.loopRaw_insert positions ri r hr j b.indices 0 hj
    · rfl

/-- A witness for `sphere_contains_visited`: the indexed right triangle. -/
theorem BoundingVolumeCalculator.sphere_contains_visited_witness :
    Buffer3fVisitor.callbacks (some (positionsOf triangle))
      (some (indicesOf VertexBaseType.UnsignedShort [0, 1, 2])) 0 false 0
      = some triangleCallbacks ∧
    (BoundingVolumeCalculator.apply {} (some (positionsOf triangle))
      (some (indicesOf VertexBaseType.UnsignedShort [0, 1, 2])) 0 false 0).1 = true ∧
    ∃ q : ℚ, (BoundingVolumeCalculator.apply {} (some (positionsOf triangle))
        (some (indicesOf VertexBaseType.UnsignedShort [0, 1, 2])) 0 false 0).2.m_radius
          = Scalar.sqrt q ∧
      ∀ c ∈ triangleCallbacks,
        (c.2 - (BoundingVolumeCalculator.apply {} (some (positionsOf triangle))
          (some (indicesOf VertexBaseType.UnsignedShort [0, 1, 2])) 0 false 0).2.m_center
          ).lengthSquared ≤ q ∧
        Real.sqrt (((c.2 - (BoundingVolumeCalculator.apply {} (some (positionsOf triangle))
          (some (indicesOf VertexBaseType.UnsignedShort [0, 1, 2])) 0 false 0).2.m_center
          ).lengthSquared : ℚ) : ℝ) ≤ Real.sqrt (q : ℝ) :=
  ⟨triangle_callbacks, by rw [triangle_apply],
    (BoundingVolumeCalculator.sphere_contains_visited {} _ _ _ _ _ _ triangle_callbacks
      (by rw [triangle_apply])).2.2⟩

/-- A witness for `restart_insert_invariant`: the restart value `0xFFFFFFFF` inserted
at position 2 of the indices `0, 1, 2` of the triangle. -/
theorem BoundingVolumeCalculator.restart_insert_invariant_witness :
    (indicesOf VertexBaseType.UnsignedInt [0, 1, 2]).buffer
      = some { positions := [], indices := [0, 1, 2] } ∧
    (indicesOf VertexBaseType.UnsignedInt [0, 1, 2]).count = 3 ∧
    ((4294967295 : Nat) : Int) = 4294967295 ∧ 2 ≤ 3 ∧
    BoundingVolumeCalculator.apply {} (some (positionsOf triangle))
        (some { indicesOf VertexBaseType.UnsignedInt [0, 1, 2] with
          count := 4,
          buffer := some { positions := [], indices := [0, 1, 4294967295, 2] } })
        0 true 4294967295
      = BoundingVolumeCalculator.apply {} (some (positionsOf triangle))
        (some (indicesOf VertexBaseType.UnsignedInt [0, 1, 2])) 0 true 4294967295 :=
  ⟨rfl, rfl, rfl, by decide,
    BoundingVolumeCalculator.restart_insert_invariant {} (some (positionsOf triangle))
      (indicesOf VertexBaseType.UnsignedInt [0, 1, 2]) { positions := [], indices := [0, 1, 2] }
      4294967295 4294967295 2 rfl rfl rfl (by decide)⟩

/-- C4 (counterexample): truncating the draw count can enlarge the sphere.  Over
the first three of the points (0,0,0), (6,0,0), (3,6,0), (3,-2,0) `apply` stores
the radius `sqrt (117/4)`, over all four it stores the radius `sqrt 16 = 4`, and
the former is not less than or equal to the latter. -/
theorem BoundingVolumeCalculator.truncation_enlarges_sphere :
    (BoundingVolumeCalculator.apply {} (some (positionsOf truncationPoints)) none 3 false 0
      = (true, { m_min := ⟨0, 0, 0⟩, m_max := ⟨6, 6, 0⟩, m_center := ⟨9 / 2, 3, 0⟩,
                 m_radius := Scalar.sqrt (117 / 4) })) ∧
    (BoundingVolumeCalculator.apply {} (some (positionsOf truncationPoints)) none 4 false 0
      = (true, { m_min := ⟨0, -2, 0⟩, m_max := ⟨6, 6, 0⟩, m_center := ⟨3, 2, 0⟩,
                 m_radius := Scalar.sqrt 16 })) ∧
    ¬ (Real.sqrt (((117 / 4 : ℚ)) : ℝ) ≤ Real.sqrt (((16 : ℚ)) : ℝ)) := by
  refine ⟨truncationPoints_apply_three, truncationPoints_apply_four, ?_⟩
  rw [not_le]
  apply Real.sqrt_lt_sqrt <;> norm_num

/-- C4 (amended): in exact arithmetic (rational coordinates, no rounding, overflow
or NaN), truncating the draw count enlarges the sphere by at most a factor of
two and never lets a point escape.  For draw counts `1 ≤ k ≤ n` on which `apply`
returns true, the radius over the first `k` elements is at most twice the radius
over the first `n` elements, and every point visited by the traversal of the
first `k` elements lies within the sphere computed over the first `n`
elements. -/
theorem BoundingVolumeCalculator.truncation_radius_bound (self self' : BoundingVolumeCalculator)
    (pa ia : Option QAttribute) (k n : Nat) (re : Bool) (ri : Int) (hk : 1 ≤ k) (hkn : k ≤ n)
    (hokk : (self.apply pa ia (k : Int) re ri).1 = true)
    (hokn : (self'.apply pa ia (n : Int) re ri).1 = true) :
    ∃ qk qn : ℚ,
      (self.apply pa ia (k : Int) re ri).2.m_radius = Scalar.sqrt qk ∧
      (self'.apply pa ia (n : Int) re ri).2.m_radius = Scalar.sqrt qn ∧
      qk ≤ 4 * qn ∧ Real.sqrt (qk : ℝ) ≤ 2 * Real.sqrt (qn : ℝ) ∧
      ∀ ck, Buffer3fVisitor.callbacks pa ia (k : Int) re ri = some ck → ∀ c ∈ ck,
        (c.2 - (self'.apply pa ia (n : Int) re ri).2.m_center).lengthSquared ≤ qn ∧
        Real.sqrt (((c.2 - (self'.apply pa ia (n : Int) re ri).2.m_center).lengthSquared : ℚ) : ℝ)
          ≤ Real.sqrt (qn : ℝ) := by
  obtain ⟨p, ps, more, ck, hck, hp, hek, hen⟩ :=
    BoundingVolumeCalculator.truncation_cases hk hkn hokk hokn
  rw [hek, hen]
  have hsub : ∀ q, q ∈ p :: ps → q ∈ p :: (ps ++ more) := by
    intro q hq
    rcases List.mem_cons.1 hq with rfl | hq
    · exact List.mem_cons_self _ _
    · exact List.mem_cons_of_mem _ (List.mem_append_left _ hq)
  have hin : ∀ q, q ∈ p :: ps → distSq q (ritterCenter (p :: (ps ++ more)))
      ≤ distSq (ritterCenter (p :: (ps ++ more))) (ritterFar (p :: (ps ++ more))) :=
    fun q hq => ritter_contains p (ps ++ more) q (hsub q hq)
  have hpair : ∀ a b, a ∈ p :: ps → b ∈ p :: ps → distSq a b
      ≤ 4 * distSq (ritterCenter (p :: (ps ++ more))) (ritterFar (p :: (ps ++ more))) := by
    intro a b ha hb
    have h1 := distSq_le_two a b (ritterCenter (p :: (ps ++ more)))
    have h2 := hin a ha
    have h3 := hin b hb
    linarith
  have hq : distSq (ritterCenter (p :: ps)) (ritterFar (p :: ps))
      ≤ 4 * distSq (ritterCenter (p :: (ps ++ more))) (ritterFar (p :: (ps ++ more))) := by
    have h1 : distSq (ritterCenter (p :: ps)) (ritterFar (p :: ps))
        ≤ (distSq (ritterY (p :: ps)) (ritterFar (p :: ps))
          + distSq (ritterZ (p :: ps)) (ritterFar (p :: ps))) / 2 :=
      distSq_mid_le (ritterY (p :: ps)) (ritterZ (p :: ps)) (ritterFar (p :: ps))
    have h2 := hpair _ _ (ritterY_mem p ps) (ritterFar_mem p ps)
    have h3 := hpair _ _ (ritterZ_mem p ps) (ritterFar_mem p ps)
    linarith
  refine ⟨_, _, rfl, rfl, hq, sqrt_cast_le_two_mul (distSq_nonneg _ _) hq, ?_⟩
  intro ck' hck' c hc
  rw [hck] at hck'
  obtain rfl : ck = ck' := by simpa using hck'
  have hmem : c.2 ∈ p :: ps := by
    rw [← hp]; exact List.mem_map_of_mem _ hc
  exact ⟨hin c.2 hmem, sqrt_cast_le (hin c.2 hmem)⟩

/-- A witness for `truncation_radius_bound`: the counts 3 and 4 over four points. -/
theorem BoundingVolumeCalculator.truncation_radius_bound_witness :
    1 ≤ 3 ∧ 3 ≤ 4 ∧
    (BoundingVolumeCalculator.apply {} (some (positionsOf truncationPoints)) none
      ((3 : Nat) : Int) false 0).1 = true ∧
    (BoundingVolumeCalculator.apply {} (some (positionsOf truncationPoints)) none
      ((4 : Nat) : Int) false 0).1 = true ∧
    ∃ qk qn : ℚ,
      (BoundingVolumeCalculator.apply {} (some (positionsOf truncationPoints)) none
        ((3 : Nat) : Int) false 0).2.m_radius = Scalar.sqrt qk ∧
      (BoundingVolumeCalculator.apply {} (some (positionsOf truncationPoints)) none
        ((4 : Nat) : Int) false 0).2.m_radius = Scalar.sqrt qn ∧
      qk ≤ 4 * qn ∧ Real.sqrt (qk : ℝ) ≤ 2 * Real.sqrt (qn : ℝ) :=
  have h3 : (BoundingVolumeCalculator.apply {} (some (positionsOf truncationPoints)) none
      ((3 : Nat) : Int) false 0).1 = true := by
    rw [show ((3 : Nat) : Int) = 3 from rfl, truncationPoints_apply_three]
  have h4 : (BoundingVolumeCalculator.apply {} (some (positionsOf truncationPoints)) none
      ((4 : Nat) : Int) false 0).1 = true := by
    rw [show ((4 : Nat) : Int) = 4 from rfl, truncationPoints_apply_four]
  ⟨by decide, by decide, h3, h4,
    let ⟨qk, qn, a, b, c, d, _⟩ := BoundingVolumeCalculator.truncation_radius_bound {} {}
      (some (positionsOf truncationPoints)) none 3 4 false 0 (by decide) (by decide) h3 h4
    ⟨qk, qn, a, b, c, d⟩⟩

/-- C6 (translation equivariance): if one traversal visits a non-empty point
sequence and another visits the same sequence with every point translated by
`t`, then `apply` returns true on both, the second result has `min + t`,
`max + t` and `center + t`, and its radius is exactly the radius of the first. -/
theorem BoundingVolumeCalculator.translation_equivariant (self self' : BoundingVolumeCalculator)
    (pa ia pa' ia' : Option QAttribute) (n n' : Int) (re re' : Bool) (ri ri' : Int)
    (cs cs' : List (Nat × Vector3D)) (t : Vector3D)
    (hcs : Buffer3fVisitor.callbacks pa ia n re ri = some cs)
    (hcs' : Buffer3fVisitor.callbacks pa' ia' n' re' ri' = some cs')
    (hne : cs ≠ []) (ht : points cs' = (points cs).map (fun p => p + t)) :
    (self.apply pa ia n re ri).1 = true ∧ (self'.apply pa' ia' n' re' ri').1 = true ∧
    (self'.apply pa' ia' n' re' ri').2.m_min = (self.apply pa ia n re ri).2.m_min + t ∧
    (self'.apply pa' ia' n' re' ri').2.m_max = (self.apply pa ia n re ri).2.m_max + t ∧
    (self'.apply pa' ia' n' re' ri').2.m_center = (self.apply pa ia n re ri).2.m_center + t ∧
    (self'.apply pa' ia' n' re' ri').2.m_radius = (self.apply pa ia n re ri).2.m_radius := by
  rw [← Vector3D.affine_one] at ht
  obtain ⟨p, ps, h1, h2⟩ := BoundingVolumeCalculator.apply_affine self self' 1 one_pos t
    hcs hcs' hne ht
  rw [h1, h2]
  refine ⟨rfl, rfl, congrFun (Vector3D.affine_one t) _, congrFun (Vector3D.affine_one t) _,
    congrFun (Vector3D.affine_one t) _, ?_⟩
  show Scalar.sqrt (1 * 1 * _) = _
  rw [one_mul, one_mul]
  rfl

/-- C7 (positive-scaling equivariance): if one traversal visits a non-empty point
sequence and another visits the same sequence with every point multiplied by
`s > 0`, then `apply` returns true on both, the second result has `s * min`,
`s * max`, `s * center`, and its radius is `s` times the radius of the first:
the radii are `sqrt q` and `sqrt (s * s * q) = s * sqrt q`. -/
theorem BoundingVolumeCalculator.scaling_equivariant (self self' : BoundingVolumeCalculator)
    (pa ia pa' ia' : Option QAttribute) (n n' : Int) (re re' : Bool) (ri ri' : Int)
    (cs cs' : List (Nat × Vector3D)) (s : ℚ) (hs : 0 < s)
    (hcs : Buffer3fVisitor.callbacks pa ia n re ri = some cs)
    (hcs' : Buffer3fVisitor.callbacks pa' ia' n' re' ri' = some cs')
    (hne : cs ≠ []) (ht : points cs' = (points cs).map (fun p => p.scale s)) :
    (self.apply pa ia n re ri).1 = true ∧ (self'.apply pa' ia' n' re' ri').1 = true ∧
    (self'.apply pa' ia' n' re' ri').2.m_min = (self.apply pa ia n re ri).2.m_min.scale s ∧
    (self'.apply pa' ia' n' re' ri').2.m_max = (self.apply pa ia n re ri).2.m_max.scale s ∧
    (self'.apply pa' ia' n' re' ri').2.m_center = (self.apply pa ia n re ri).2.m_center.scale s ∧
    ∃ q : ℚ, (self.apply pa ia n re ri).2.m_radius = Scalar.sqrt q ∧
      (self'.apply pa' ia' n' re' ri').2.m_radius = Scalar.sqrt (s * s * q) ∧
      Real.sqrt ((s * s * q : ℚ) : ℝ) = (s : ℝ) * Real.sqrt (q : ℝ) := by
  rw [← Vector3D.affine_zero] at ht
  obtain ⟨p, ps, h1, h2⟩ := BoundingVolumeCalculator.apply_affine self self' s hs 0
    hcs hcs' hne ht
  rw [h1, h2]
  exact ⟨rfl, rfl, congrFun (Vector3D.affine_zero s) _, congrFun (Vector3D.affine_zero s) _,
    congrFun (Vector3D.affine_zero s) _, _, ritter_radius p ps, rfl, sqrt_cast_mul_self s _ hs⟩

/-- A witness for `translation_equivariant`: the right triangle and its translate
by `(1, 2, 3)`. -/
theorem BoundingVolumeCalculator.translation_equivariant_witness :
    Buffer3fVisitor.callbacks (some (positionsOf triangle))
      (some (indicesOf VertexBaseType.UnsignedShort [0, 1, 2])) 0 false 0
      = some triangleCallbacks ∧
    Buffer3fVisitor.callbacks
      (some (positionsOf [⟨1, 2, 3⟩, ⟨2, 2, 3⟩, ⟨1, 3, 3⟩])) none 0 false 0
      = some shiftedCallbacks ∧
    triangleCallbacks ≠ [] ∧
    points shiftedCallbacks = (points triangleCallbacks).map (fun p => p + ⟨1, 2, 3⟩) ∧
    (BoundingVolumeCalculator.apply {}
        (some (positionsOf [⟨1, 2, 3⟩, ⟨2, 2, 3⟩, ⟨1, 3, 3⟩])) none 0 false 0).2.m_radius
      = (BoundingVolumeCalculator.apply {} (some (positionsOf triangle))
        (some (indicesOf VertexBaseType.UnsignedShort [0, 1, 2])) 0 false 0).2.m_radius :=
  have hne : triangleCallbacks ≠ [] := by simp [triangleCallbacks]
  have ht : points shiftedCallbacks
      = (points triangleCallbacks).map (fun p => p + ⟨1, 2, 3⟩) := by
    norm_num [points, shiftedCallbacks, triangleCallbacks, Vector3D.add_def]
  ⟨triangle_callbacks, unindexed_callbacks_shifted, hne, ht,
    (BoundingVolumeCalculator.translation_equivariant {} {} _ _ _ _ _ _ _ _ _ _ _ _ _
      triangle_callbacks unindexed_callbacks_shifted hne ht).2.2.2.2.2⟩

/-- A witness for `scaling_equivariant`: the right triangle and its image under
scaling by `2`. -/
theorem BoundingVolumeCalculator.scaling_equivariant_witness :
    (0 : ℚ) < 2 ∧
    Buffer3fVisitor.callbacks (some (positionsOf triangle))
      (some (indicesOf VertexBaseType.UnsignedShort [0, 1, 2])) 0 false 0
      = some triangleCallbacks ∧
    Buffer3fVisitor.callbacks
      (some (positionsOf [⟨0, 0, 0⟩, ⟨2, 0, 0⟩, ⟨0, 2, 0⟩])) none 0 false 0
      = some scaledCallbacks ∧
    triangleCallbacks ≠ [] ∧
    points scaledCallbacks = (points triangleCallbacks).map (fun p => p.scale 2) ∧
    (BoundingVolumeCalculator.apply {}
        (some (positionsOf [⟨0, 0, 0⟩, ⟨2, 0, 0⟩, ⟨0, 2, 0⟩])) none 0 false 0).2.m_max
      = (BoundingVolumeCalculator.apply {} (some (positionsOf triangle))
        (some (indicesOf VertexBaseType.UnsignedShort [0, 1, 2])) 0 false 0).2.m_max.scale 2 :=
  have hne : triangleCallbacks ≠ [] := by simp [triangleCallbacks]
  have ht : points scaledCallbacks
      = (points triangleCallbacks).map (fun p => p.scale 2) := by
    norm_num [points, scaledCallbacks, triangleCallbacks, Vector3D.scale_def]
  ⟨by norm_num, triangle_callbacks, unindexed_callbacks_scaled, hne, ht,
    (BoundingVolumeCalculator.scaling_equivariant {} {} _ _ _ _ _ _ _ _ _ _ _ _ 2 (by norm_num)
      triangle_callbacks unindexed_callbacks_scaled hne ht).2.2.2.1⟩

/-- C8 (degenerate input, amended): in exact arithmetic (rational coordinates, no
overflow or NaN), if the traversal visits at least one point and all visited
points equal `p0`, then `apply` returns true with `min = max = center = p0` and
the radius `sqrt 0 = 0`. -/
theorem BoundingVolumeCalculator.identical_points (self : BoundingVolumeCalculator)
    (pa ia : Option QAttribute) (n : Int) (re : Bool) (ri : Int) (cs : List (Nat × Vector3D))
    (p0 : Vector3D) (hcs : Buffer3fVisitor.callbacks pa ia n re ri = some cs)
    (hne : cs ≠ []) (hall : ∀ c ∈ cs, c.2 = p0) :
    self.apply pa ia n re ri
      = (true, { m_min := p0, m_max := p0, m_center := p0, m_radius := Scalar.sqrt 0 }) ∧
    Real.sqrt ((0 : ℚ) : ℝ) = 0 := by
  refine ⟨?_, by simp⟩
  rcases hp : points cs with _ | ⟨p, ps⟩
  · exact absurd (List.map_eq_nil_iff.1 hp) hne
  · have hmem : ∀ q ∈ points cs, q = p0 := by
      intro q hq
      obtain ⟨c, hc, rfl⟩ := List.mem_map.1 hq
      exact hall c hc
    rw [hp] at hmem
    have h0 : p = p0 := hmem p (List.mem_cons_self _ _)
    subst h0
    rw [BoundingVolumeCalculator.apply_of_cons hcs hp self,
      ritter_const p ps (fun q hq => hmem q (List.mem_cons_of_mem _ hq))]

/-- A witness for `identical_points`: the single point `(2, 3, 4)`. -/
theorem BoundingVolumeCalculator.identical_points_witness :
    Buffer3fVisitor.callbacks (some (positionsOf [⟨2, 3, 4⟩])) none 0 false 0
      = some [(0, ⟨2, 3, 4⟩)] ∧
    BoundingVolumeCalculator.apply {} (some (positionsOf [⟨2, 3, 4⟩])) none 0 false 0
      = (true, { m_min := ⟨2, 3, 4⟩, m_max := ⟨2, 3, 4⟩, m_center := ⟨2, 3, 4⟩,
                 m_radius := Scalar.sqrt 0 }) :=
  ⟨single_point_callbacks,
    (BoundingVolumeCalculator.identical_points {} _ _ _ _ _ _ ⟨2, 3, 4⟩ single_point_callbacks
      (by simp) (by simp)).1⟩

/-- C9 (unit cube): if the traversal visits the eight points `(±1, ±1, ±1)` in any
order, then `apply` returns true with `min = (-1,-1,-1)`, `max = (1,1,1)`,
`center = (0,0,0)` and the radius `sqrt 3`, whose square is 3. -/
theorem BoundingVolumeCalculator.unit_cube (self : BoundingVolumeCalculator)
    (pa ia : Option QAttribute) (n : Int) (re : Bool) (ri : Int) (cs : List (Nat × Vector3D))
    (hcs : Buffer3fVisitor.callbacks pa ia n re ri = some cs)
    (hperm : (points cs).Perm cubeCorners) :
    self.apply pa ia n re ri
      = (true, { m_min := ⟨-1, -1, -1⟩, m_max := ⟨1, 1, 1⟩, m_center := ⟨0, 0, 0⟩,
                 m_radius := Scalar.sqrt 3 }) ∧
    Real.sqrt ((3 : ℚ) : ℝ) ^ 2 = 3 := by
  refine ⟨?_, by rw [Real.sq_sqrt] <;> norm_num⟩
  rcases hp : points cs with _ | ⟨p, ps⟩
  · rw [hp] at hperm
    exact absurd hperm.symm.eq_nil (by simp [cubeCorners])
  · rw [hp] at hperm
    rw [BoundingVolumeCalculator.apply_of_cons hcs hp self, ritter_cube p ps hperm]

/-- A witness for `unit_cube`: the unindexed traversal of the eight corners in the
listed order. -/
theorem BoundingVolumeCalculator.unit_cube_witness :
    Buffer3fVisitor.callbacks (some (positionsOf cubeCorners)) none 0 false 0
      = some cubeCallbacks ∧
    (points cubeCallbacks).Perm cubeCorners ∧
    BoundingVolumeCalculator.apply {} (some (positionsOf cubeCorners)) none 0 false 0
      = (true, { m_min := ⟨-1, -1, -1⟩, m_max := ⟨1, 1, 1⟩, m_center := ⟨0, 0, 0⟩,
                 m_radius := Scalar.sqrt 3 }) :=
  have hperm : (points cubeCallbacks).Perm cubeCorners := List.Perm.refl _
  ⟨cube_callbacks, hperm,
    (BoundingVolumeCalculator.unit_cube {} _ _ _ _ _ _ cube_callbacks hperm).1⟩

/-- C10 (right-triangle exactness, amended): in exact arithmetic (rational
coordinates, no rounding, overflow or NaN), if the traversal visits three points
`A`, `B`, `C` in any order and the angle at `A` is right,
`(B - A) . (C - A) = 0`, then `apply` returns true with the exact circumscribing
sphere: `center = (B + C) / 2` and radius `sqrt (|B - C|² / 4) = |B - C| / 2`. -/
theorem BoundingVolumeCalculator.right_triangle_exact (self : BoundingVolumeCalculator)
    (pa ia : Option QAttribute) (n : Int) (re : Bool) (ri : Int) (cs : List (Nat × Vector3D))
    (A B C : Vector3D) (hcs : Buffer3fVisitor.callbacks pa ia n re ri = some cs)
    (hperm : (points cs).Perm [A, B, C]) (hright : (B - A).dot (C - A) = 0) :
    (self.apply pa ia n re ri).1 = true ∧
    (self.apply pa ia n re ri).2.m_center = (B + C).scale (1 / 2) ∧
    (self.apply pa ia n re ri).2.m_radius = Scalar.sqrt ((B - C).lengthSquared / 4) ∧
    Real.sqrt (((B - C).lengthSquared / 4 : ℚ) : ℝ)
      = Real.sqrt (((B - C).lengthSquared : ℚ) : ℝ) / 2 := by
  rcases hp : points cs with _ | ⟨p, ps⟩
  · rw [hp] at hperm
    exact absurd hperm.symm.eq_nil (by simp)
  · rw [hp] at hperm
    rw [BoundingVolumeCalculator.apply_of_cons hcs hp self]
    have hmem : ∀ q, q ∈ p :: ps ↔ (q = A ∨ q = B ∨ q = C) := by
      intro q
      rw [hperm.mem_iff]
      simp
    obtain ⟨hy1, hy2⟩ := ritterY_isFarthest p ps
    obtain ⟨hz1, hz2⟩ := ritterZ_isFarthest (p :: ps) (List.cons_ne_nil _ _)
    have hyz : ritterY (p :: ps) + ritterZ (p :: ps) = B + C :=
      right_triangle_diameter A B C p _ _ hright ((hmem p).1 (List.mem_cons_self _ _))
        ((hmem _).1 hy1) ((hmem _).1 hz1) (fun q hq => hy2 q ((hmem q).2 hq))
        (fun q hq => hz2 q ((hmem q).2 hq))
    have hc : ritterCenter (p :: ps) = (B + C).scale (1 / 2) := by
      unfold ritterCenter; rw [hyz]
    obtain ⟨tA, tB, tC⟩ := distSq_mid_right A B C hright
    have hr : distSq (ritterCenter (p :: ps)) (ritterFar (p :: ps)) = distSq B C / 4 := by
      rw [hc]
      rcases (hmem _).1 (ritterFar_mem p ps) with e | e | e <;> rw [e]
      · exact tA
      · exact tB
      · exact tC
    refine ⟨rfl, hc, ?_, sqrt_cast_div_four _⟩
    rw [ritter_radius, hr]
    rfl

/-- A witness for `right_triangle_exact`: the positions (0,0,0), (1,0,0), (0,1,0)
with the indices 0, 1, 2 give `min = (0,0,0)`, `max = (1,1,0)` and the radius
`sqrt (1/2)`. -/
theorem BoundingVolumeCalculator.right_triangle_exact_witness :
    Buffer3fVisitor.callbacks (some (positionsOf triangle))
      (some (indicesOf VertexBaseType.UnsignedShort [0, 1, 2])) 0 false 0
      = some triangleCallbacks ∧
    (points triangleCallbacks).Perm [⟨0, 0, 0⟩, ⟨1, 0, 0⟩, ⟨0, 1, 0⟩] ∧
    ((⟨1, 0, 0⟩ : Vector3D) - ⟨0, 0, 0⟩).dot (⟨0, 1, 0⟩ - ⟨0, 0, 0⟩) = 0 ∧
    (BoundingVolumeCalculator.apply {} (some (positionsOf triangle))
      (some (indicesOf VertexBaseType.UnsignedShort [0, 1, 2])) 0 false 0).2.m_center
      = ((⟨1, 0, 0⟩ : Vector3D) + ⟨0, 1, 0⟩).scale (1 / 2) ∧
    BoundingVolumeCalculator.apply {} (some (positionsOf triangle))
      (some (indicesOf VertexBaseType.UnsignedShort [0, 1, 2])) 0 false 0
      = (true, { m_min := ⟨0, 0, 0⟩, m_max := ⟨1, 1, 0⟩, m_center := ⟨1 / 2, 1 / 2, 0⟩,
                 m_radius := Scalar.sqrt (1 / 2) }) :=
  have hperm : (points triangleCallbacks).Perm [⟨0, 0, 0⟩, ⟨1, 0, 0⟩, ⟨0, 1, 0⟩] :=
    List.Perm.refl _
  have hright : ((⟨1, 0, 0⟩ : Vector3D) - ⟨0, 0, 0⟩).dot (⟨0, 1, 0⟩ - ⟨0, 0, 0⟩) = 0 := by
    norm_num [Vector3D.dot_def, Vector3D.sub_def]
  ⟨triangle_callbacks, hperm, hright,
    (BoundingVolumeCalculator.right_triangle_exact {} _ _ _ _ _ _ _ _ _ triangle_callbacks
      hperm hright).2.1,
    triangle_apply⟩

/-- C11 (effective draw count, amended): whenever `calculateLocalBoundingVolume`
reaches the call of `reader.apply`, the position attribute handed over is the one
chosen for the geometry, the index attribute is the geometry's index attribute,
and the count handed over is the node's `vertexCount` when that is non-zero; when
it is zero, the count is `static_cast<int>` of the index attribute's count if
there is an index attribute and of the position attribute's count otherwise,
which is the count itself when the count is below 2^31 and the count minus 2^32
when it is 2^31 or more. -/
theorem calculateLocalBoundingVolume_draw_count (node : QGeometryView)
    (warnings : List String) (pa : QAttribute) (ia : Option QAttribute) (n : Int)
    (h : boundingVolumeArguments node = (warnings, some (pa, ia, n))) :
    (∃ geom, node.geometry = some geom ∧ positionAttributeOf geom = some pa ∧
      ia = indexAttributeOf geom) ∧
    (node.vertexCount ≠ 0 → n = node.vertexCount) ∧
    (node.vertexCount = 0 → ∀ i, ia = some i →
      n = staticCastInt i.count ∧
      (i.count < 2147483648 → n = (i.count : Int)) ∧
      (2147483648 ≤ i.count → i.count < 4294967296 → n = (i.count : Int) - 4294967296)) ∧
    (node.vertexCount = 0 → ia = none →
      n = staticCastInt pa.count ∧
      (pa.count < 2147483648 → n = (pa.count : Int)) ∧
      (2147483648 ≤ pa.count → pa.count < 4294967296 → n = (pa.count : Int) - 4294967296)) ∧
    calculateLocalBoundingVolume node =
      if (BoundingVolumeCalculator.apply {} (some pa) ia n node.primitiveRestartEnabled
          node.restartIndexValue).1 = true then
        (((BoundingVolumeCalculator.apply {} (some pa) ia n node.primitiveRestartEnabled
            node.restartIndexValue).2.m_min,
          (BoundingVolumeCalculator.apply {} (some pa) ia n node.primitiveRestartEnabled
            node.restartIndexValue).2.m_max), [])
      else ((0, 0), []) := by
  obtain ⟨_, _, _, geom, hg, hpos, _, _, _, _, hia, _, hn⟩ := boundingVolumeArguments_some h
  refine ⟨⟨geom, hg, hpos, hia⟩, ?_, ?_, ?_, calculateLocalBoundingVolume_of_some h⟩
  · intro h0
    rw [hn, if_neg h0]
  · intro h0 i hi
    have e : n = staticCastInt i.count := by
      rw [hn, if_pos h0, hi]
      rfl
    exact ⟨e, fun hlt => e.trans (staticCastInt_of_lt hlt),
      fun hge hlt => e.trans (staticCastInt_of_ge hge hlt)⟩
  · intro h0 hi
    have e : n = staticCastInt pa.count := by
      rw [hn, if_pos h0, hi]
      rfl
    exact ⟨e, fun hlt => e.trans (staticCastInt_of_lt hlt),
      fun hge hlt => e.trans (staticCastInt_of_ge hge hlt)⟩

/-- A witness for `calculateLocalBoundingVolume_draw_count`: the indexed triangle
with `vertexCount = 0` hands over the count 3 of its index attribute. -/
theorem calculateLocalBoundingVolume_draw_count_witness :
    boundingVolumeArguments triangleNode
      = ([], some (positionsOf triangle,
          some (indicesOf VertexBaseType.UnsignedShort [0, 1, 2]), 3)) ∧
    triangleNode.vertexCount = 0 ∧
    (indicesOf VertexBaseType.UnsignedShort [0, 1, 2]).count < 2147483648 ∧
    (3 : Int) = ((indicesOf VertexBaseType.UnsignedShort [0, 1, 2]).count : Int) :=
  ⟨triangleNode_arguments, rfl, by decide,
    ((calculateLocalBoundingVolume_draw_count triangleNode _ _ _ _
      triangleNode_arguments).2.2.1 rfl _ rfl).2.1 (by decide)⟩

/-- C11 as stated fails: an enabled, unindexed node with `vertexCount = 0` whose
position attribute has the count 0x80000003 reaches the call of `reader.apply`
with the count -2147483645, which is not the position attribute's count. -/
theorem calculateLocalBoundingVolume_draw_count_wraps :
    wrappedCountNode.vertexCount = 0 ∧
    boundingVolumeArguments wrappedCountNode
      = ([], some ({ positionsOf triangle with count := 2147483651 }, none, -2147483645)) ∧
    ({ positionsOf triangle with count := 2147483651 } : QAttribute).count = 2147483651 ∧
    ¬ ((-2147483645 : Int)
        = (({ positionsOf triangle with count := 2147483651 } : QAttribute).count : Int)) :=
  ⟨rfl, wrappedCountNode_arguments, rfl, by simp [positionsOf]⟩

/-- C12 (Patches short-circuit): for every node whose primitive type is `Patches`,
whatever its other properties, `calculateLocalBoundingVolume` returns the empty
result and does not call `reader.apply`. -/
theorem calculateLocalBoundingVolume_patches (node : QGeometryView)
    (h : node.primitiveType = QGeometryView.PrimitiveType.Patches) :
    (calculateLocalBoundingVolume node).1 = (0, 0) ∧ (boundingVolumeArguments node).2 = none := by
  have hnone : (boundingVolumeArguments node).2 = none := by
    rcases hb : boundingVolumeArguments node with ⟨w, _ | ⟨pa, ia, n⟩⟩
    · rfl
    · exact absurd h (boundingVolumeArguments_some hb).2.2.1
  exact ⟨by rw [calculateLocalBoundingVolume_of_none hnone], hnone⟩

/-- A witness for `calculateLocalBoundingVolume_patches`: the triangle node with the
primitive type `Patches`. -/
theorem calculateLocalBoundingVolume_patches_witness :
    patchesNode.primitiveType = QGeometryView.PrimitiveType.Patches ∧
    (calculateLocalBoundingVolume patchesNode).1 = (0, 0) :=
  ⟨rfl, (calculateLocalBoundingVolume_patches patchesNode rfl).1⟩

/-- C13 (position gate): if the position attribute chosen for the geometry (the
configured bounding-volume position attribute, or else the first attribute with
the default position name) is absent, does not have base type `Float`, or has
fewer than 3 components, `calculateLocalBoundingVolume` returns the empty result
and does not call `reader.apply`, so no traversal runs. -/
theorem calculateLocalBoundingVolume_position_gate (node : QGeometryView)
    (h : ∀ geom a, node.geometry = some geom → positionAttributeOf geom = some a →
      a.vertexBaseType ≠ VertexBaseType.Float ∨ a.vertexSize < 3) :
    (calculateLocalBoundingVolume node).1 = (0, 0) ∧ (boundingVolumeArguments node).2 = none := by
  have hnone : (boundingVolumeArguments node).2 = none := by
    rcases hb : boundingVolumeArguments node with ⟨w, _ | ⟨pa, ia, n⟩⟩
    · rfl
    · obtain ⟨_, _, _, geom, hg, hpos, _, hf, hs, _⟩ := boundingVolumeArguments_some hb
      rcases h geom pa hg hpos with h1 | h1
      · exact absurd hf h1
      · omega
  exact ⟨by rw [calculateLocalBoundingVolume_of_none hnone], hnone⟩

/-- A witness for `calculateLocalBoundingVolume_position_gate`: a position attribute
with two components. -/
theorem calculateLocalBoundingVolume_position_gate_witness :
    (∀ geom a, flatNode.geometry = some geom → positionAttributeOf geom = some a →
      a.vertexBaseType ≠ VertexBaseType.Float ∨ a.vertexSize < 3) ∧
    (calculateLocalBoundingVolume flatNode).1 = (0, 0) ∧
    (boundingVolumeArguments flatNode).2 = none :=
  have h : ∀ geom a, flatNode.geometry = some geom → positionAttributeOf geom = some a →
      a.vertexBaseType ≠ VertexBaseType.Float ∨ a.vertexSize < 3 := by
    intro geom a hg ha
    simp only [flatNode, QGeometryView.geometry, Option.some.injEq] at hg
    subst hg
    simp [positionAttributeOf, positionsOf, QAttribute.defaultPositionAttributeName] at ha
    subst ha
    right
    decide
  ⟨h, calculateLocalBoundingVolume_position_gate flatNode h⟩

/-- C14 (counterexample): an index attribute of base type `Float` does not always
make `calculateLocalBoundingVolume` return the empty result.  A `Float` index
attribute that references no buffer is skipped by the loop, and a `Float` index
attribute that follows a U16 index attribute with a buffer is never looked at;
in both geometries the result is the box `(0,0,0)`, `(1,1,0)` of the triangle,
which is not the empty result. -/
theorem calculateLocalBoundingVolume_float_index_not_empty :
    (∃ geom a, floatIndexNoBufferNode.geometry = some geom ∧ a ∈ geom.attributes ∧
      a.attributeType = AttributeType.IndexAttribute ∧
      a.vertexBaseType = VertexBaseType.Float) ∧
    (calculateLocalBoundingVolume floatIndexNoBufferNode).1 = (⟨0, 0, 0⟩, ⟨1, 1, 0⟩) ∧
    (calculateLocalBoundingVolume floatIndexNoBufferNode).1 ≠ (0, 0) ∧
    (∃ geom a, twoIndexNode.geometry = some geom ∧ a ∈ geom.attributes ∧
      a.attributeType = AttributeType.IndexAttribute ∧
      a.vertexBaseType = VertexBaseType.Float) ∧
    (calculateLocalBoundingVolume twoIndexNode).1 = (⟨0, 0, 0⟩, ⟨1, 1, 0⟩) ∧
    (calculateLocalBoundingVolume twoIndexNode).1 ≠ (0, 0) := by
  refine ⟨⟨_, { indicesOf VertexBaseType.Float [0, 1, 2] with buffer := none }, rfl,
      by simp, rfl, rfl⟩, ?_, ?_,
    ⟨_, indicesOf VertexBaseType.Float [0, 1, 2], rfl, by simp, rfl, rfl⟩, ?_, ?_⟩
  · rw [floatIndexNoBufferNode_result]
  · rw [floatIndexNoBufferNode_result]; exact Vector3D.pair_ne_zero
  · rw [twoIndexNode_result]
  · rw [twoIndexNode_result]; exact Vector3D.pair_ne_zero

/-- C14 (amended): if the first index attribute of the geometry that references a
buffer has a base type outside `UnsignedByte`, `UnsignedShort`, `UnsignedInt`
(for example `Float`), `calculateLocalBoundingVolume` returns the empty result
and does not call `reader.apply`. -/
theorem calculateLocalBoundingVolume_index_gate (node : QGeometryView) (geom : QGeometry)
    (i : QAttribute) (hg : node.geometry = some geom) (hi : indexAttributeOf geom = some i)
    (ht : i.vertexBaseType ≠ VertexBaseType.UnsignedByte ∧
      i.vertexBaseType ≠ VertexBaseType.UnsignedShort ∧
      i.vertexBaseType ≠ VertexBaseType.UnsignedInt) :
    (calculateLocalBoundingVolume node).1 = (0, 0) ∧ (boundingVolumeArguments node).2 = none := by
  have hnone : (boundingVolumeArguments node).2 = none := by
    rcases hb : boundingVolumeArguments node with ⟨w, _ | ⟨pa, ia, n⟩⟩
    · rfl
    · obtain ⟨_, _, _, geom', hg', _, _, _, _, _, hia, hvalid, _⟩ :=
        boundingVolumeArguments_some hb
      rw [hg] at hg'
      simp only [Option.some.injEq] at hg'
      subst hg'
      rw [hi] at hia
      have := hvalid i hia
      simp only [validIndexTypes, List.mem_cons, List.mem_singleton, List.not_mem_nil,
        or_false] at this
      rcases this with h | h | h
      · exact absurd h ht.2.1
      · exact absurd h ht.2.2
      · exact absurd h ht.1
  exact ⟨by rw [calculateLocalBoundingVolume_of_none hnone], hnone⟩

/-- A witness for `calculateLocalBoundingVolume_index_gate`: a `Float` index
attribute with a buffer. -/
theorem calculateLocalBoundingVolume_index_gate_witness :
    floatIndexNode.geometry
      = some { attributes := [positionsOf triangle, indicesOf VertexBaseType.Float [0, 1, 2]],
               m_boundingVolumePositionAttribute := none } ∧
    indexAttributeOf
        { attributes := [positionsOf triangle, indicesOf VertexBaseType.Float [0, 1, 2]],
          m_boundingVolumePositionAttribute := none }
      = some (indicesOf VertexBaseType.Float [0, 1, 2]) ∧
    (calculateLocalBoundingVolume floatIndexNode).1 = (0, 0) :=
  have hi : indexAttributeOf
        { attributes := [positionsOf triangle, indicesOf VertexBaseType.Float [0, 1, 2]],
          m_boundingVolumePositionAttribute := none }
      = some (indicesOf VertexBaseType.Float [0, 1, 2]) := by
    simp [indexAttributeOf, positionsOf, indicesOf]
  ⟨rfl, hi,
    (calculateLocalBoundingVolume_index_gate floatIndexNode _ _ rfl hi
      ⟨by simp [indicesOf], by simp [indicesOf], by simp [indicesOf]⟩).1⟩

/-- C15 (counterexample): an enabled node with a geometry and the primitive type
`Patches` makes `calculateLocalBoundingVolume` return the empty result without
any diagnostic: the list of warnings is empty, so its length is not 1. -/
theorem calculateLocalBoundingVolume_patches_silent :
    patchesNode.isEnabled = true ∧
    patchesNode.primitiveType = QGeometryView.PrimitiveType.Patches ∧
    calculateLocalBoundingVolume patchesNode = ((0, 0), []) ∧
    (calculateLocalBoundingVolume patchesNode).2.length ≠ 1 := by
  refine ⟨rfl, rfl, patchesNode_result, ?_⟩
  rw [patchesNode_result]
  decide

/-- C15 (amended): on an enabled node with a geometry and a primitive type other
than `Patches`, a chosen position attribute with a base type other than `Float`
or with fewer than 3 components, and likewise an index attribute (the first one
with a buffer) of an unsupported base type behind a suited position attribute
with a buffer, make `calculateLocalBoundingVolume` return the empty result with
exactly one diagnostic.  With the primitive type `Patches` the empty result is
returned without a diagnostic. -/
theorem calculateLocalBoundingVolume_diagnostics (node : QGeometryView) (geom : QGeometry)
    (he : node.isEnabled = true) (hg : node.geometry = some geom) :
    (node.primitiveType ≠ QGeometryView.PrimitiveType.Patches →
      ∀ a, positionAttributeOf geom = some a →
        (a.vertexBaseType ≠ VertexBaseType.Float ∨ a.vertexSize < 3) →
        calculateLocalBoundingVolume node = ((0, 0), [warnPositionNotSuited])) ∧
    (node.primitiveType ≠ QGeometryView.PrimitiveType.Patches →
      ∀ a b i, positionAttributeOf geom = some a →
        a.attributeType = AttributeType.VertexAttribute →
        a.vertexBaseType = VertexBaseType.Float → 3 ≤ a.vertexSize → a.buffer = some b →
        indexAttributeOf geom = some i → i.vertexBaseType ∉ validIndexTypes →
        calculateLocalBoundingVolume node = ((0, 0), [warnUnsupportedIndex i])) ∧
    (node.primitiveType = QGeometryView.PrimitiveType.Patches →
      calculateLocalBoundingVolume node = ((0, 0), [])) := by
  refine ⟨?_, ?_, ?_⟩
  · intro hp a ha hbad
    exact calculateLocalBoundingVolume_early
      (boundingVolumeArguments_position_unsuited he hp hg ha hbad)
  · intro hp a b i ha h1 h2 h3 hb hi ht
    exact calculateLocalBoundingVolume_early
      (boundingVolumeArguments_index_unsupported he hp hg ha h1 h2 h3 hb hi ht)
  · intro hp
    exact calculateLocalBoundingVolume_early (boundingVolumeArguments_patches hp)

/-- A witness for `calculateLocalBoundingVolume_diagnostics`: the node with a
two-component position attribute emits exactly one warning. -/
theorem calculateLocalBoundingVolume_diagnostics_witness :
    flatNode.isEnabled = true ∧
    flatNode.geometry
      = some { attributes := [{ positionsOf triangle with vertexSize := 2 }],
               m_boundingVolumePositionAttribute := none } ∧
    calculateLocalBoundingVolume flatNode = ((0, 0), [warnPositionNotSuited]) :=
  ⟨rfl, rfl,
    (calculateLocalBoundingVolume_diagnostics flatNode _ rfl rfl).1 (by decide)
      { positionsOf triangle with vertexSize := 2 }
      (by simp [positionAttributeOf, positionsOf, QAttribute.defaultPositionAttributeName])
      (Or.inr (by decide))⟩

/-- C16 (counterexample): a position attribute that references no buffer is not a
silent failure.  On the enabled triangle node whose position attribute has no
buffer, `calculateLocalBoundingVolume` returns the empty result and emits the
warning about the missing buffer. -/
theorem calculateLocalBoundingVolume_no_buffer_warns :
    noBufferNode.isEnabled = true ∧
    (∃ geom a, noBufferNode.geometry = some geom ∧ positionAttributeOf geom = some a ∧
      a.buffer = none) ∧
    calculateLocalBoundingVolume noBufferNode = ((0, 0), [warnPositionNoBuffer]) ∧
    (calculateLocalBoundingVolume noBufferNode).2 ≠ [] := by
  refine ⟨rfl, ⟨_, { positionsOf triangle with buffer := none }, rfl, ?_, rfl⟩,
    noBufferNode_result, ?_⟩
  · simp [positionAttributeOf, positionsOf, QAttribute.defaultPositionAttributeName]
  · rw [noBufferNode_result]; simp

/-- C16 (amended): a disabled node and a node without a geometry make
`calculateLocalBoundingVolume` return the empty result without a diagnostic.  A
suited position attribute that references no buffer (on an enabled node with a
primitive type other than `Patches`) makes it return the empty result with
exactly one diagnostic, the warning about the missing buffer. -/
theorem calculateLocalBoundingVolume_silent (node : QGeometryView) :
    (node.isEnabled = false → calculateLocalBoundingVolume node = ((0, 0), [])) ∧
    (node.geometry = none → calculateLocalBoundingVolume node = ((0, 0), [])) ∧
    (node.isEnabled = true → node.primitiveType ≠ QGeometryView.PrimitiveType.Patches →
      ∀ geom a, node.geometry = some geom → positionAttributeOf geom = some a →
        a.attributeType = AttributeType.VertexAttribute →
        a.vertexBaseType = VertexBaseType.Float → 3 ≤ a.vertexSize → a.buffer = none →
        calculateLocalBoundingVolume node = ((0, 0), [warnPositionNoBuffer])) := by
  refine ⟨?_, ?_, ?_⟩
  · intro he
    exact calculateLocalBoundingVolume_early (boundingVolumeArguments_disabled he)
  · intro hg
    exact calculateLocalBoundingVolume_early (boundingVolumeArguments_no_geometry hg)
  · intro he hp geom a hg ha h1 h2 h3 hb
    exact calculateLocalBoundingVolume_early
      (boundingVolumeArguments_no_buffer he hp hg ha h1 h2 h3 hb)

/-- A witness for `calculateLocalBoundingVolume_silent`: a node built with the
defaults of the constructor has no geometry. -/
theorem calculateLocalBoundingVolume_silent_witness :
    (({} : QGeometryView)).geometry = none ∧
    calculateLocalBoundingVolume {} = ((0, 0), []) :=
  ⟨rfl, (calculateLocalBoundingVolume_silent {}).2.1 rfl⟩

/-- C17 (empty stream): whenever the traversal completes without error and without
a callback, `BoundingVolumeCalculator::apply` returns false, and a call of
`calculateLocalBoundingVolume` that runs this traversal returns the empty result
without a diagnostic. -/
theorem BoundingVolumeCalculator.empty_stream (self : BoundingVolumeCalculator)
    (pa : QAttribute) (ia : Option QAttribute) (n : Int) (re : Bool) (ri : Int)
    (h : Buffer3fVisitor.callbacks (some pa) ia n re ri = some []) :
    (self.apply (some pa) ia n re ri).1 = false ∧
    ∀ (node : QGeometryView) (warnings : List String),
      boundingVolumeArguments node = (warnings, some (pa, ia, n)) →
      node.primitiveRestartEnabled = re → node.restartIndexValue = ri →
      calculateLocalBoundingVolume node = ((0, 0), []) := by
  have hf : ∀ s : BoundingVolumeCalculator, (s.apply (some pa) ia n re ri).1 = false := by
    intro s
    rw [BoundingVolumeCalculator.apply_of_nil h rfl]
  refine ⟨hf self, ?_⟩
  intro node warnings ha hre hri
  rw [calculateLocalBoundingVolume_of_some ha, hre, hri, hf]
  simp

/-- A witness for `empty_stream`: restart enabled with the value 7 and the indices
`7, 7`. -/
theorem BoundingVolumeCalculator.empty_stream_witness :
    Buffer3fVisitor.callbacks (some (positionsOf triangle))
      (some (indicesOf VertexBaseType.UnsignedInt [7, 7])) 2 true 7 = some [] ∧
    (BoundingVolumeCalculator.apply {} (some (positionsOf triangle))
      (some (indicesOf VertexBaseType.UnsignedInt [7, 7])) 2 true 7).1 = false ∧
    calculateLocalBoundingVolume restartOnlyNode = ((0, 0), []) :=
  ⟨restartOnlyNode_callbacks,
    (BoundingVolumeCalculator.empty_stream {} _ _ _ _ _ restartOnlyNode_callbacks).1,
    (BoundingVolumeCalculator.empty_stream {} _ _ _ _ _ restartOnlyNode_callbacks).2
      restartOnlyNode [] restartOnlyNode_arguments rfl rfl⟩

/-- C18 (the degeneracy guard is not taken): whenever the traversals succeed and
visit at least one point, the radius computed after pass 4 is the square root
`sqrt q` of a rational `q ≥ 0`, hence not negative; the guard
`center == Vector3D{} && radius < 0` is false, and `apply` returns true with
that radius stored. -/
theorem BoundingVolumeCalculator.guard_not_taken (self : BoundingVolumeCalculator)
    (pa ia : Option QAttribute) (n : Int) (re : Bool) (ri : Int) (cs : List (Nat × Vector3D))
    (hcs : Buffer3fVisitor.callbacks pa ia n re ri = some cs) (hne : cs ≠ []) :
    (self.apply pa ia n re ri).1 = true ∧
    ∃ q : ℚ, (self.apply pa ia n re ri).2.m_radius = Scalar.sqrt q ∧
      q = ((self.apply pa ia n re ri).2.m_center - ritterFar (points cs)).lengthSquared ∧
      0 ≤ q ∧ 0 ≤ Real.sqrt (q : ℝ) ∧
      (self.apply pa ia n re ri).2.m_radius.isNegative = false ∧
      ¬ ((self.apply pa ia n re ri).2.m_center = 0 ∧
          (self.apply pa ia n re ri).2.m_radius.isNegative = true) := by
  rcases hp : points cs with _ | ⟨p, ps⟩
  · exact absurd (List.map_eq_nil_iff.1 hp) hne
  · rw [BoundingVolumeCalculator.apply_of_cons hcs hp self]
    refine ⟨rfl, _, rfl, rfl, distSq_nonneg _ _, Real.sqrt_nonneg _, rfl, ?_⟩
    rintro ⟨_, h2⟩
    exact absurd h2 (by simp [ritter, Vector3D.length, Scalar.isNegative])

/-- A witness for `guard_not_taken`: the indexed right triangle. -/
theorem BoundingVolumeCalculator.guard_not_taken_witness :
    Buffer3fVisitor.callbacks (some (positionsOf triangle))
      (some (indicesOf VertexBaseType.UnsignedShort [0, 1, 2])) 0 false 0
      = some triangleCallbacks ∧
    triangleCallbacks ≠ [] ∧
    (BoundingVolumeCalculator.apply {} (some (positionsOf triangle))
      (some (indicesOf VertexBaseType.UnsignedShort [0, 1, 2])) 0 false 0).1 = true :=
  ⟨triangle_callbacks, by simp [triangleCallbacks],
    (BoundingVolumeCalculator.guard_not_taken {} _ _ _ _ _ _ triangle_callbacks
      (by simp [triangleCallbacks])).1⟩

/-- C19 (postcondition of `FindMaxDistantPoint`, amended): in exact arithmetic
(rational coordinates, no rounding, overflow or NaN), starting from a fresh
visitor (`maxLengthSquared = 0`, `hasNoPoints = true`), after visiting a
non-empty point sequence `hasNoPoints` is false; `referencePt` is the first
visited point when `setReferencePoint` is true and the value set by the caller
otherwise;
`maxLengthSquared` is the greatest squared distance of a visited point to
`referencePt`; and `maxDistPt` is the last visited point at that distance: the
sequence splits as `pre ++ maxDistPt :: post` with every point of `post`
strictly closer. -/
theorem FindMaxDistantPoint.postcondition (s : FindMaxDistantPoint) (p : Vector3D)
    (ps : List Vector3D) (hm : s.maxLengthSquared = 0) (hn : s.hasNoPoints = true) :
    (s.run (p :: ps)).hasNoPoints = false ∧
    (s.run (p :: ps)).setReferencePoint = s.setReferencePoint ∧
    (s.run (p :: ps)).referencePt
      = (if s.setReferencePoint = true then p else s.referencePt) ∧
    (∀ q ∈ p :: ps,
      distSq q (s.run (p :: ps)).referencePt ≤ (s.run (p :: ps)).maxLengthSquared) ∧
    distSq (s.run (p :: ps)).maxDistPt (s.run (p :: ps)).referencePt
      = (s.run (p :: ps)).maxLengthSquared ∧
    ∃ pre post, p :: ps = pre ++ (s.run (p :: ps)).maxDistPt :: post ∧
      ∀ q ∈ post,
        distSq q (s.run (p :: ps)).referencePt < (s.run (p :: ps)).maxLengthSquared := by
  have href := FindMaxDistantPoint.run_referencePt s p ps hn
  refine ⟨FindMaxDistantPoint.run_hasNoPoints s p ps, ?_, href, ?_⟩
  · simp only [FindMaxDistantPoint.run]
    by_cases hr : s.setReferencePoint = true
    · rw [FindMaxDistantPoint.visit_first s 0 p hn hr]
      exact (FindMaxDistantPoint.run_stable ps _ (by simp)).2.1
    · have hs : (s.hasNoPoints && s.setReferencePoint) = false := by simp [hr]
      rw [(FindMaxDistantPoint.run_stable ps _
        (by simp [(FindMaxDistantPoint.visit_stable_cases s 0 p hs).2.2.1])).2.1]
      exact (FindMaxDistantPoint.visit_stable_cases s 0 p hs).2.1
  · rw [href]
    by_cases hr : s.setReferencePoint = true
    · -- the first visit adopts `p` as reference point and as farthest point
      rw [if_pos hr]
      simp only [FindMaxDistantPoint.run]
      rw [FindMaxDistantPoint.visit_first s 0 p hn hr]
      obtain ⟨_, _, h3, h4, _⟩ := FindMaxDistantPoint.run_stable ps
        { s with maxDistPt := p, maxLengthSquared := 0, referencePt := p, hasNoPoints := false }
        (by simp)
      have hl := FindMaxDistantPoint.run_stable_last ps
        { s with maxDistPt := p, maxLengthSquared := 0, referencePt := p, hasNoPoints := false }
        (by simp)
      simp only at h3 h4 hl
      refine ⟨?_, ?_, ?_⟩
      · intro q hq
        rcases List.mem_cons.1 hq with rfl | hq
        · rw [distSq_self]; exact h3
        · exact h4 q hq
      · rcases hl with ⟨e1, e2, _⟩ | ⟨_, _, _, hd, _⟩
        · rw [e1, e2, distSq_self]
        · exact hd
      · rcases hl with ⟨e1, e2, e3⟩ | ⟨pre, post, hsplit, _, hpost⟩
        · refine ⟨[], ps, by rw [e1]; rfl, ?_⟩
          intro q hq
          rw [e2]
          exact e3 q hq
        · exact ⟨p :: pre, post, by rw [List.cons_append, ← hsplit], hpost⟩
    · rw [if_neg hr]
      have hs : (s.hasNoPoints && s.setReferencePoint) = false := by simp [hr]
      obtain ⟨_, _, _, h4, _⟩ := FindMaxDistantPoint.run_stable (p :: ps) s hs
      have hl := FindMaxDistantPoint.run_stable_last (p :: ps) s hs
      have hno : ¬ (∀ q ∈ p :: ps, distSq q s.referencePt < s.maxLengthSquared) := by
        intro h
        have := h p (List.mem_cons_self _ _)
        rw [hm] at this
        exact absurd this (not_lt.2 (distSq_nonneg _ _))
      rcases hl with ⟨_, _, e3⟩ | ⟨pre, post, hsplit, hd, hpost⟩
      · exact absurd e3 hno
      · exact ⟨h4, hd, pre, post, hsplit, hpost⟩

/-- A witness for `postcondition`: the seeding pass over the right triangle records
the last of the two points at squared distance 1 from the first point. -/
theorem FindMaxDistantPoint.postcondition_witness :
    (({ setReferencePoint := true } : FindMaxDistantPoint)).maxLengthSquared = 0 ∧
    (({ setReferencePoint := true } : FindMaxDistantPoint)).hasNoPoints = true ∧
    (FindMaxDistantPoint.run { setReferencePoint := true }
      ((⟨0, 0, 0⟩ : Vector3D) :: [⟨1, 0, 0⟩, ⟨0, 1, 0⟩])).hasNoPoints = false ∧
    (FindMaxDistantPoint.run { setReferencePoint := true }
      ((⟨0, 0, 0⟩ : Vector3D) :: [⟨1, 0, 0⟩, ⟨0, 1, 0⟩])).maxDistPt = ⟨0, 1, 0⟩ :=
  ⟨rfl, rfl,
    (FindMaxDistantPoint.postcondition { setReferencePoint := true } ⟨0, 0, 0⟩
      [⟨1, 0, 0⟩, ⟨0, 1, 0⟩] rfl rfl).1,
    by norm_num [FindMaxDistantPoint.run, FindMaxDistantPoint.visit, Vector3D.lengthSquared,
      Vector3D.sub_def]⟩

/-- C21 (the sphere centre lies inside the AABB): whenever `apply` returns true, the
centre is the midpoint of two visited points, `min ≤ center ≤ max` holds
componentwise, and the radius is at most the diagonal `|max - min|` of the box:
the radius is `sqrt q` with `q ≤ |max - min|²`. -/
theorem BoundingVolumeCalculator.center_in_aabb (self : BoundingVolumeCalculator)
    (pa ia : Option QAttribute) (n : Int) (re : Bool) (ri : Int)
    (hok : (self.apply pa ia n re ri).1 = true) :
    (∃ cs y z, Buffer3fVisitor.callbacks pa ia n re ri = some cs ∧
      y ∈ points cs ∧ z ∈ points cs ∧
      (self.apply pa ia n re ri).2.m_center = (y + z).scale (1 / 2)) ∧
    ((self.apply pa ia n re ri).2.m_min.x ≤ (self.apply pa ia n re ri).2.m_center.x ∧
      (self.apply pa ia n re ri).2.m_center.x ≤ (self.apply pa ia n re ri).2.m_max.x) ∧
    ((self.apply pa ia n re ri).2.m_min.y ≤ (self.apply pa ia n re ri).2.m_center.y ∧
      (self.apply pa ia n re ri).2.m_center.y ≤ (self.apply pa ia n re ri).2.m_max.y) ∧
    ((self.apply pa ia n re ri).2.m_min.z ≤ (self.apply pa ia n re ri).2.m_center.z ∧
      (self.apply pa ia n re ri).2.m_center.z ≤ (self.apply pa ia n re ri).2.m_max.z) ∧
    ∃ q : ℚ, (self.apply pa ia n re ri).2.m_radius = Scalar.sqrt q ∧
      q ≤ ((self.apply pa ia n re ri).2.m_max
            - (self.apply pa ia n re ri).2.m_min).lengthSquared ∧
      Real.sqrt (q : ℝ)
        ≤ Real.sqrt ((((self.apply pa ia n re ri).2.m_max
            - (self.apply pa ia n re ri).2.m_min).lengthSquared : ℚ) : ℝ) := by
  obtain ⟨cs, hcs⟩ := BoundingVolumeCalculator.callbacks_of_true hok
  obtain ⟨p, ps, hp, he⟩ := BoundingVolumeCalculator.apply_true hcs self hok
  rw [he]
  obtain ⟨bx, by', bz, hr⟩ := ritter_center_in_box p ps
  refine ⟨⟨cs, ritterY (p :: ps), ritterZ (p :: ps), hcs, ?_, ?_, rfl⟩, bx, by', bz, _,
    ritter_radius p ps, hr, sqrt_cast_le hr⟩
  · rw [hp]; exact ritterY_mem p ps
  · rw [hp]; exact ritterZ_mem p ps

/-- A witness for `center_in_aabb`: the indexed right triangle. -/
theorem BoundingVolumeCalculator.center_in_aabb_witness :
    (BoundingVolumeCalculator.apply {} (some (positionsOf triangle))
      (some (indicesOf VertexBaseType.UnsignedShort [0, 1, 2])) 0 false 0).1 = true ∧
    ((BoundingVolumeCalculator.apply {} (some (positionsOf triangle))
        (some (indicesOf VertexBaseType.UnsignedShort [0, 1, 2])) 0 false 0).2.m_min.x
      ≤ (BoundingVolumeCalculator.apply {} (some (positionsOf triangle))
        (some (indicesOf VertexBaseType.UnsignedShort [0, 1, 2])) 0 false 0).2.m_center.x ∧
     (BoundingVolumeCalculator.apply {} (some (positionsOf triangle))
        (some (indicesOf VertexBaseType.UnsignedShort [0, 1, 2])) 0 false 0).2.m_center.x
      ≤ (BoundingVolumeCalculator.apply {} (some (positionsOf triangle))
        (some (indicesOf VertexBaseType.UnsignedShort [0, 1, 2])) 0 false 0).2.m_max.x) :=
  ⟨by rw [triangle_apply],
    (BoundingVolumeCalculator.center_in_aabb {} _ _ _ _ _ (by rw [triangle_apply])).2.1⟩

/-- C22 (the empty result is not distinguishable from a valid one): the enabled node
`originNode`, whose primitive type is not `Patches` and whose suited position
attribute holds the single point `(0,0,0)`, reaches `reader.apply`, the traversal
visits that point and `apply` returns true; the pair `(min, max)` returned for
it is the pair of zero vectors, which is also the pair returned for the
disabled node `disabledNode`. -/
theorem calculateLocalBoundingVolume_empty_ambiguous :
    originNode.isEnabled = true ∧
    originNode.primitiveType ≠ QGeometryView.PrimitiveType.Patches ∧
    boundingVolumeArguments originNode = ([], some (positionsOf [⟨0, 0, 0⟩], none, 1)) ∧
    Buffer3fVisitor.callbacks (some (positionsOf [⟨0, 0, 0⟩])) none 1
      originNode.primitiveRestartEnabled originNode.restartIndexValue
      = some [(0, ⟨0, 0, 0⟩)] ∧
    (BoundingVolumeCalculator.apply {} (some (positionsOf [⟨0, 0, 0⟩])) none 1
      originNode.primitiveRestartEnabled originNode.restartIndexValue).1 = true ∧
    disabledNode.isEnabled = false ∧
    (calculateLocalBoundingVolume originNode).1 = (0, 0) ∧
    (calculateLocalBoundingVolume disabledNode).1 = (0, 0) ∧
    (calculateLocalBoundingVolume originNode).1 = (calculateLocalBoundingVolume disabledNode).1 := by
  have h1 : (calculateLocalBoundingVolume originNode).1 = (0, 0) := by
    rw [calculateLocalBoundingVolume_of_some originNode_arguments, originNode_apply]
    rfl
  have h2 : (calculateLocalBoundingVolume disabledNode).1 = (0, 0) := by
    rw [calculateLocalBoundingVolume_early
      (boundingVolumeArguments_disabled (rfl : disabledNode.isEnabled = false))]
  refine ⟨rfl, by decide, originNode_arguments, originNode_callbacks, ?_, rfl, h1, h2, ?_⟩
  · rw [originNode_apply]
  · rw [h1, h2]

/-- C2 as stated fails on a float input: for the traversal of the two points
(NaN, 0, 0) and (1, 2, 3), `apply` returns true with `min.x` and `max.x` both
NaN, so for the visited point (1, 2, 3) neither `min.x <= p.x` nor
`p.x <= max.x` holds, and `min.x <= max.x` is false. -/
theorem Binary32.aabb_misses_visited_point :
    (Binary32.BoundingVolumeCalculator.apply {} (some Binary32.nanCallbacks)).1 = true ∧
    (1, (⟨Binary32.fin 1, Binary32.fin 2, Binary32.fin 3⟩ : Binary32.Vector3D))
      ∈ Binary32.nanCallbacks ∧
    (Binary32.BoundingVolumeCalculator.apply {} (some Binary32.nanCallbacks)).2.m_min.x
      = Binary32.nan ∧
    (Binary32.BoundingVolumeCalculator.apply {} (some Binary32.nanCallbacks)).2.m_max.x
      = Binary32.nan ∧
    Binary32.le
      (Binary32.BoundingVolumeCalculator.apply {} (some Binary32.nanCallbacks)).2.m_min.x
      (Binary32.fin 1) = false ∧
    Binary32.le (Binary32.fin 1)
      (Binary32.BoundingVolumeCalculator.apply {} (some Binary32.nanCallbacks)).2.m_max.x
      = false ∧
    Binary32.le
      (Binary32.BoundingVolumeCalculator.apply {} (some Binary32.nanCallbacks)).2.m_min.x
      (Binary32.BoundingVolumeCalculator.apply {} (some Binary32.nanCallbacks)).2.m_max.x
      = false := by
  rw [Binary32.nan_callbacks_apply]
  refine ⟨rfl, by simp [Binary32.nanCallbacks], rfl, rfl, rfl, rfl, rfl⟩

/-- C5 as stated fails on a float input: over the point sequence (NaN, 0, 0),
(1, 2, 3), `apply` returns true both for the first element alone (k = 1) and for
both elements (n = 2), and `min.x` is NaN in both results, so
`min_n.x <= min_k.x` is false. -/
theorem Binary32.truncation_aabb_not_contained :
    (Binary32.BoundingVolumeCalculator.apply {} (some (Binary32.nanCallbacks.take 1))).1
      = true ∧
    (Binary32.BoundingVolumeCalculator.apply {} (some Binary32.nanCallbacks)).1 = true ∧
    Binary32.le
      (Binary32.BoundingVolumeCalculator.apply {} (some Binary32.nanCallbacks)).2.m_min.x
      (Binary32.BoundingVolumeCalculator.apply {}
        (some (Binary32.nanCallbacks.take 1))).2.m_min.x = false ∧
    Binary32.le
      (Binary32.BoundingVolumeCalculator.apply {}
        (some (Binary32.nanCallbacks.take 1))).2.m_max.x
      (Binary32.BoundingVolumeCalculator.apply {} (some Binary32.nanCallbacks)).2.m_max.x
      = false := by
  rw [Binary32.nan_callbacks_apply, Binary32.nan_single_apply]
  exact ⟨rfl, rfl, rfl, rfl⟩

/-- C8 as stated fails on a float input: for the traversal of the single finite
point (2^127, 0, 0), the sum `y + z` overflows, and `apply` returns true with
`center.x` infinite, so the centre is not the point and the radius is the
length of a vector with an infinite coordinate, not 0. -/
theorem Binary32.identical_points_overflow :
    Binary32.BoundingVolumeCalculator.apply {} (some Binary32.hugeCallbacks)
    = (true, { m_min := ⟨Binary32.fin (2 ^ 127), Binary32.fin 0, Binary32.fin 0⟩,
               m_max := ⟨Binary32.fin (2 ^ 127), Binary32.fin 0, Binary32.fin 0⟩,
               m_center := ⟨Binary32.inf false, Binary32.fin 0, Binary32.fin 0⟩,
               m_radius := Binary32.Scalar.length
                 ⟨Binary32.inf false, Binary32.fin 0, Binary32.fin 0⟩ }) ∧
    (Binary32.BoundingVolumeCalculator.apply {} (some Binary32.hugeCallbacks)).2.m_center
      ≠ ⟨Binary32.fin (2 ^ 127), Binary32.fin 0, Binary32.fin 0⟩ ∧
    Binary32.Vector3D.eq
      (Binary32.BoundingVolumeCalculator.apply {} (some Binary32.hugeCallbacks)).2.m_center
      ⟨Binary32.fin (2 ^ 127), Binary32.fin 0, Binary32.fin 0⟩ = false := by
  rw [Binary32.huge_callbacks_apply]
  refine ⟨rfl, by simp, rfl⟩

/-- C10 as stated fails on a float input: for the right triangle A = (0, 0, 0),
B = (2^64, 0, 0), C = (0, 2^64, 0), whose dot product `(B - A) . (C - A)` is 0,
traversed in the order C, B, A, the squared distances overflow to infinity and
`apply` returns the centre (2^63, 0, 0), which is not `(B + C) / 2`
= (2^63, 2^63, 0). -/
theorem Binary32.right_triangle_overflow :
    Binary32.Vector3D.dot
      (Binary32.Vector3D.sub ⟨Binary32.fin (2 ^ 64), Binary32.fin 0, Binary32.fin 0⟩
        ⟨Binary32.fin 0, Binary32.fin 0, Binary32.fin 0⟩)
      (Binary32.Vector3D.sub ⟨Binary32.fin 0, Binary32.fin (2 ^ 64), Binary32.fin 0⟩
        ⟨Binary32.fin 0, Binary32.fin 0, Binary32.fin 0⟩) = Binary32.fin 0 ∧
    (Binary32.BoundingVolumeCalculator.apply {} (some Binary32.hugeTriangleCallbacks)).1
      = true ∧
    (Binary32.BoundingVolumeCalculator.apply {}
      (some Binary32.hugeTriangleCallbacks)).2.m_center
      = ⟨Binary32.fin (2 ^ 63), Binary32.fin 0, Binary32.fin 0⟩ ∧
    Binary32.Vector3D.scale
      (Binary32.Vector3D.add ⟨Binary32.fin (2 ^ 64), Binary32.fin 0, Binary32.fin 0⟩
        ⟨Binary32.fin 0, Binary32.fin (2 ^ 64), Binary32.fin 0⟩) (Binary32.fin (1 / 2))
      = ⟨Binary32.fin (2 ^ 63), Binary32.fin (2 ^ 63), Binary32.fin 0⟩ ∧
    (Binary32.BoundingVolumeCalculator.apply {}
      (some Binary32.hugeTriangleCallbacks)).2.m_center
      ≠ ⟨Binary32.fin (2 ^ 63), Binary32.fin (2 ^ 63), Binary32.fin 0⟩ := by
  rw [Binary32.huge_triangle_apply]
  refine ⟨?_, rfl, rfl, ?_, ?_⟩
  · norm_num [Binary32.Vector3D.dot, Binary32.Vector3D.sub, Binary32.ofExact]
  · norm_num [Binary32.Vector3D.scale, Binary32.Vector3D.add, Binary32.ofExact]
  · norm_num

/-- C19 as stated fails on float inputs.  A fresh visitor that visits the single
point (NaN, 0, 0) ends with `hasNoPoints = false` and `maxDistPt` still the
default (0, 0, 0), which is not a visited point.  A fresh visitor that visits
(2^65, 0, 0) and then (2^64, 0, 0) records infinity as `maxLengthSquared` and the
second point as `maxDistPt`, although the first point is farther from the
reference point (0, 0, 0). -/
theorem Binary32.farthest_point_not_visited :
    Binary32.FindMaxDistantPoint.apply {}
      (some [(0, ⟨Binary32.nan, Binary32.fin 0, Binary32.fin 0⟩)])
    = some { maxLengthSquared := Binary32.fin 0, setReferencePoint := false,
             hasNoPoints := false,
             maxDistPt := ⟨Binary32.fin 0, Binary32.fin 0, Binary32.fin 0⟩,
             referencePt := ⟨Binary32.fin 0, Binary32.fin 0, Binary32.fin 0⟩ } ∧
    (⟨Binary32.fin 0, Binary32.fin 0, Binary32.fin 0⟩ : Binary32.Vector3D)
      ≠ ⟨Binary32.nan, Binary32.fin 0, Binary32.fin 0⟩ ∧
    Binary32.FindMaxDistantPoint.apply {}
      (some [(0, ⟨Binary32.fin (2 ^ 65), Binary32.fin 0, Binary32.fin 0⟩),
        (1, ⟨Binary32.fin (2 ^ 64), Binary32.fin 0, Binary32.fin 0⟩)])
    = some { maxLengthSquared := Binary32.inf false, setReferencePoint := false,
             hasNoPoints := false,
             maxDistPt := ⟨Binary32.fin (2 ^ 64), Binary32.fin 0, Binary32.fin 0⟩,
             referencePt := ⟨Binary32.fin 0, Binary32.fin 0, Binary32.fin 0⟩ } ∧
    ((2 : ℚ) ^ 64) * 2 ^ 64 < 2 ^ 65 * 2 ^ 65 :=
  ⟨Binary32.nan_farthest, by simp, Binary32.overflow_farthest, by norm_num⟩

/-- C20 as stated fails on a float input: after visiting (NaN, 0, 0) and (1, 2, 3)
with the ordinals 0 and 1, `xMin` and `xMax` are NaN: `xMin <= 1` and
`1 <= xMax` are false for the visited coordinate 1, and the comparison
`xMinPt.x == xMin` is false. -/
theorem Binary32.extremes_not_tight :
    Binary32.FindExtremePoints.apply {} (some Binary32.nanCallbacks)
    = some { xMin := Binary32.nan, xMax := Binary32.nan,
             yMin := Binary32.fin 0, yMax := Binary32.fin 2,
             zMin := Binary32.fin 0, zMax := Binary32.fin 3,
             xMinPt := ⟨Binary32.nan, Binary32.fin 0, Binary32.fin 0⟩,
             xMaxPt := ⟨Binary32.nan, Binary32.fin 0, Binary32.fin 0⟩,
             yMinPt := ⟨Binary32.nan, Binary32.fin 0, Binary32.fin 0⟩,
             yMaxPt := ⟨Binary32.fin 1, Binary32.fin 2, Binary32.fin 3⟩,
             zMinPt := ⟨Binary32.nan, Binary32.fin 0, Binary32.fin 0⟩,
             zMaxPt := ⟨Binary32.fin 1, Binary32.fin 2, Binary32.fin 3⟩ } ∧
    (1, (⟨Binary32.fin 1, Binary32.fin 2, Binary32.fin 3⟩ : Binary32.Vector3D))
      ∈ Binary32.nanCallbacks ∧
    Binary32.le Binary32.nan (Binary32.fin 1) = false ∧
    Binary32.le (Binary32.fin 1) Binary32.nan = false ∧
    Binary32.eq
      (⟨Binary32.nan, Binary32.fin 0, Binary32.fin 0⟩ : Binary32.Vector3D).x
      Binary32.nan = false :=
  ⟨Binary32.nan_callbacks_extremes, by simp [Binary32.nanCallbacks], rfl, rfl, rfl⟩

/-- C2 (AABB containment, amended): on a traversal none of whose visited
coordinates is NaN, whenever `apply` returns true, at least one point was
visited, every visited point `p` satisfies `min <= p <= max` componentwise, and
`min <= max` componentwise. -/
theorem Binary32.BoundingVolumeCalculator.aabb_contains_without_nan
    (self : Binary32.BoundingVolumeCalculator) (cs : List (Nat × Binary32.Vector3D))
    (hord : cs.map Prod.fst = List.range cs.length)
    (hnan : ∀ c ∈ cs, c.2.x ≠ Binary32.nan ∧ c.2.y ≠ Binary32.nan ∧ c.2.z ≠ Binary32.nan)
    (hok : (self.apply (some cs)).1 = true) :
    cs ≠ [] ∧
    (∀ c ∈ cs,
      (Binary32.le (self.apply (some cs)).2.m_min.x c.2.x = true ∧
        Binary32.le c.2.x (self.apply (some cs)).2.m_max.x = true) ∧
      (Binary32.le (self.apply (some cs)).2.m_min.y c.2.y = true ∧
        Binary32.le c.2.y (self.apply (some cs)).2.m_max.y = true) ∧
      (Binary32.le (self.apply (some cs)).2.m_min.z c.2.z = true ∧
        Binary32.le c.2.z (self.apply (some cs)).2.m_max.z = true)) ∧
    Binary32.le (self.apply (some cs)).2.m_min.x (self.apply (some cs)).2.m_max.x = true ∧
    Binary32.le (self.apply (some cs)).2.m_min.y (self.apply (some cs)).2.m_max.y = true ∧
    Binary32.le (self.apply (some cs)).2.m_min.z (self.apply (some cs)).2.m_max.z = true := by
  have hne := Binary32.BoundingVolumeCalculator.ne_nil_of_true self cs hok
  obtain ⟨⟨b1, h1⟩, ⟨b2, h2⟩, ⟨b3, h3⟩, ⟨b4, h4⟩, ⟨b5, h5⟩, ⟨b6, h6⟩⟩ :=
    Binary32.BoundingVolumeCalculator.apply_box_tight self cs hord hnan hne
  refine ⟨hne, ?_, ?_, ?_, ?_⟩
  · intro c hc
    have hm : c.2 ∈ cs.map Prod.snd := List.mem_map_of_mem _ hc
    exact ⟨⟨h1.2.1 _ hm, h2.2.1 _ hm⟩, ⟨h3.2.1 _ hm, h4.2.1 _ hm⟩,
      ⟨h5.2.1 _ hm, h6.2.1 _ hm⟩⟩
  · have h := h2.2.1 b1 (Binary32.isFirstMin_mem h1)
    rw [h1.1] at h
    exact h
  · have h := h4.2.1 b3 (Binary32.isFirstMin_mem h3)
    rw [h3.1] at h
    exact h
  · have h := h6.2.1 b5 (Binary32.isFirstMin_mem h5)
    rw [h5.1] at h
    exact h

/-- A witness for `aabb_contains_without_nan`: the traversal of (-inf, 0, 0) and
(1, 2, 3). -/
theorem Binary32.BoundingVolumeCalculator.aabb_contains_without_nan_witness :
    Binary32.infCallbacks.map Prod.fst = List.range Binary32.infCallbacks.length ∧
    (∀ c ∈ Binary32.infCallbacks,
      c.2.x ≠ Binary32.nan ∧ c.2.y ≠ Binary32.nan ∧ c.2.z ≠ Binary32.nan) ∧
    (Binary32.BoundingVolumeCalculator.apply {} (some Binary32.infCallbacks)).1 = true ∧
    Binary32.le
      (Binary32.BoundingVolumeCalculator.apply {} (some Binary32.infCallbacks)).2.m_min.x
      (Binary32.BoundingVolumeCalculator.apply {} (some Binary32.infCallbacks)).2.m_max.x
      = true :=
  ⟨rfl, Binary32.infCallbacks_noNaN,
    (Binary32.BoundingVolumeCalculator.apply_of_ne_nil {} Binary32.infCallbacks
      (by simp [Binary32.infCallbacks])).1,
    (Binary32.BoundingVolumeCalculator.aabb_contains_without_nan {} Binary32.infCallbacks rfl
      Binary32.infCallbacks_noNaN
      (Binary32.BoundingVolumeCalculator.apply_of_ne_nil {} Binary32.infCallbacks
        (by simp [Binary32.infCallbacks])).1).2.2.1⟩

/-- C5 (truncation does not enlarge the AABB, amended): on a traversal none of
whose visited coordinates is NaN, when `apply` returns true both on the first
`k` callbacks and on all callbacks, the box computed over the first `k` is
contained in the box computed over all of them: `min_n <= min_k` and
`max_k <= max_n` componentwise.  The callbacks of a traversal with a smaller
draw count are such a prefix (`Buffer3fVisitor.callbacks_prefix`). -/
theorem Binary32.BoundingVolumeCalculator.truncation_aabb_without_nan
    (self self' : Binary32.BoundingVolumeCalculator) (cs : List (Nat × Binary32.Vector3D))
    (k : Nat) (hord : cs.map Prod.fst = List.range cs.length)
    (hnan : ∀ c ∈ cs, c.2.x ≠ Binary32.nan ∧ c.2.y ≠ Binary32.nan ∧ c.2.z ≠ Binary32.nan)
    (hokk : (self.apply (some (cs.take k))).1 = true)
    (hokn : (self'.apply (some cs)).1 = true) :
    (Binary32.le (self'.apply (some cs)).2.m_min.x
        (self.apply (some (cs.take k))).2.m_min.x = true ∧
      Binary32.le (self'.apply (some cs)).2.m_min.y
        (self.apply (some (cs.take k))).2.m_min.y = true ∧
      Binary32.le (self'.apply (some cs)).2.m_min.z
        (self.apply (some (cs.take k))).2.m_min.z = true) ∧
    (Binary32.le (self.apply (some (cs.take k))).2.m_max.x
        (self'.apply (some cs)).2.m_max.x = true ∧
      Binary32.le (self.apply (some (cs.take k))).2.m_max.y
        (self'.apply (some cs)).2.m_max.y = true ∧
      Binary32.le (self.apply (some (cs.take k))).2.m_max.z
        (self'.apply (some cs)).2.m_max.z = true) := by
  have hnk := Binary32.BoundingVolumeCalculator.ne_nil_of_true self _ hokk
  have hnn := Binary32.BoundingVolumeCalculator.ne_nil_of_true self' _ hokn
  obtain ⟨⟨a1, k1⟩, ⟨a2, k2⟩, ⟨a3, k3⟩, ⟨a4, k4⟩, ⟨a5, k5⟩, ⟨a6, k6⟩⟩ :=
    Binary32.BoundingVolumeCalculator.apply_box_tight self (cs.take k)
      (Binary32.take_ordinals k hord) (fun c hc => hnan c (List.mem_of_mem_take hc)) hnk
  obtain ⟨⟨b1, n1⟩, ⟨b2, n2⟩, ⟨b3, n3⟩, ⟨b4, n4⟩, ⟨b5, n5⟩, ⟨b6, n6⟩⟩ :=
    Binary32.BoundingVolumeCalculator.apply_box_tight self' cs hord hnan hnn
  have hsub : ∀ q ∈ (cs.take k).map Prod.snd, q ∈ cs.map Prod.snd := by
    intro q hq
    obtain ⟨d, hd, rfl⟩ := List.mem_map.1 hq
    exact List.mem_map_of_mem _ (List.mem_of_mem_take hd)
  refine ⟨⟨?_, ?_, ?_⟩, ?_, ?_, ?_⟩
  · rw [← k1.1]; exact n1.2.1 _ (hsub _ (Binary32.isFirstMin_mem k1))
  · rw [← k3.1]; exact n3.2.1 _ (hsub _ (Binary32.isFirstMin_mem k3))
  · rw [← k5.1]; exact n5.2.1 _ (hsub _ (Binary32.isFirstMin_mem k5))
  · rw [← k2.1]; exact n2.2.1 _ (hsub _ (Binary32.isFirstMax_mem k2))
  · rw [← k4.1]; exact n4.2.1 _ (hsub _ (Binary32.isFirstMax_mem k4))
  · rw [← k6.1]; exact n6.2.1 _ (hsub _ (Binary32.isFirstMax_mem k6))

/-- A witness for `truncation_aabb_without_nan`: the first callback and both
callbacks of the traversal of (-inf, 0, 0) and (1, 2, 3). -/
theorem Binary32.BoundingVolumeCalculator.truncation_aabb_without_nan_witness :
    Binary32.infCallbacks.map Prod.fst = List.range Binary32.infCallbacks.length ∧
    (∀ c ∈ Binary32.infCallbacks,
      c.2.x ≠ Binary32.nan ∧ c.2.y ≠ Binary32.nan ∧ c.2.z ≠ Binary32.nan) ∧
    (Binary32.BoundingVolumeCalculator.apply {} (some (Binary32.infCallbacks.take 1))).1
      = true ∧
    (Binary32.BoundingVolumeCalculator.apply {} (some Binary32.infCallbacks)).1 = true ∧
    Binary32.le
      (Binary32.BoundingVolumeCalculator.apply {}
        (some (Binary32.infCallbacks.take 1))).2.m_max.y
      (Binary32.BoundingVolumeCalculator.apply {} (some Binary32.infCallbacks)).2.m_max.y
      = true :=
  ⟨rfl, Binary32.infCallbacks_noNaN,
    (Binary32.BoundingVolumeCalculator.apply_of_ne_nil {} (Binary32.infCallbacks.take 1)
      (by simp [Binary32.infCallbacks])).1,
    (Binary32.BoundingVolumeCalculator.apply_of_ne_nil {} Binary32.infCallbacks
      (by simp [Binary32.infCallbacks])).1,
    (Binary32.BoundingVolumeCalculator.truncation_aabb_without_nan {} {}
      Binary32.infCallbacks 1 rfl Binary32.infCallbacks_noNaN
      (Binary32.BoundingVolumeCalculator.apply_of_ne_nil {} (Binary32.infCallbacks.take 1)
        (by simp [Binary32.infCallbacks])).1
      (Binary32.BoundingVolumeCalculator.apply_of_ne_nil {} Binary32.infCallbacks
        (by simp [Binary32.infCallbacks])).1).2.2.1⟩

/-- C20 (`FindExtremePoints` is tight, amended): after visiting a non-empty point
sequence none of whose coordinates is NaN with the ordinals 0, 1, 2, ...,
whatever the state before, each of `xMin`, `yMin`, `zMin` is the least and each
of `xMax`, `yMax`, `zMax` the greatest value of its coordinate over the visited
points, and each of the six recorded points is the first visited point whose
coordinate equals the recorded extreme (the sequence splits as
`pre ++ point :: post` with no point of `pre` attaining the extreme). -/
theorem Binary32.FindExtremePoints.tight_without_nan (s : Binary32.FindExtremePoints)
    (p : Binary32.Vector3D) (ps : List Binary32.Vector3D)
    (hnan : ∀ q ∈ p :: ps, q.x ≠ Binary32.nan ∧ q.y ≠ Binary32.nan ∧ q.z ≠ Binary32.nan) :
    Binary32.IsFirstMin Binary32.Vector3D.x (p :: ps)
      (s.run 0 (p :: ps)).xMin (s.run 0 (p :: ps)).xMinPt ∧
    Binary32.IsFirstMax Binary32.Vector3D.x (p :: ps)
      (s.run 0 (p :: ps)).xMax (s.run 0 (p :: ps)).xMaxPt ∧
    Binary32.IsFirstMin Binary32.Vector3D.y (p :: ps)
      (s.run 0 (p :: ps)).yMin (s.run 0 (p :: ps)).yMinPt ∧
    Binary32.IsFirstMax Binary32.Vector3D.y (p :: ps)
      (s.run 0 (p :: ps)).yMax (s.run 0 (p :: ps)).yMaxPt ∧
    Binary32.IsFirstMin Binary32.Vector3D.z (p :: ps)
      (s.run 0 (p :: ps)).zMin (s.run 0 (p :: ps)).zMinPt ∧
    Binary32.IsFirstMax Binary32.Vector3D.z (p :: ps)
      (s.run 0 (p :: ps)).zMax (s.run 0 (p :: ps)).zMaxPt := by
  obtain ⟨⟨a1, a2⟩, ⟨b1, b2⟩, ⟨c1, c2⟩, ⟨d1, d2⟩, ⟨e1, e2⟩, ⟨f1, f2⟩⟩ :=
    Binary32.FindExtremePoints.run_zero_fields s p ps
  rw [a1, a2, b1, b2, c1, c2, d1, d2, e1, e2, f1, f2]
  exact ⟨Binary32.pick_foldl_min _ p ps (fun q hq => (hnan q hq).1),
    Binary32.pick_foldl_max _ p ps (fun q hq => (hnan q hq).1),
    Binary32.pick_foldl_min _ p ps (fun q hq => (hnan q hq).2.1),
    Binary32.pick_foldl_max _ p ps (fun q hq => (hnan q hq).2.1),
    Binary32.pick_foldl_min _ p ps (fun q hq => (hnan q hq).2.2),
    Binary32.pick_foldl_max _ p ps (fun q hq => (hnan q hq).2.2)⟩

/-- A witness for `tight_without_nan`: the points (-inf, 0, 0) and (1, 2, 3). -/
theorem Binary32.FindExtremePoints.tight_without_nan_witness :
    (∀ q ∈ [(⟨Binary32.inf true, Binary32.fin 0, Binary32.fin 0⟩ : Binary32.Vector3D),
        ⟨Binary32.fin 1, Binary32.fin 2, Binary32.fin 3⟩],
      q.x ≠ Binary32.nan ∧ q.y ≠ Binary32.nan ∧ q.z ≠ Binary32.nan) ∧
    Binary32.IsFirstMin Binary32.Vector3D.x
      [⟨Binary32.inf true, Binary32.fin 0, Binary32.fin 0⟩,
        ⟨Binary32.fin 1, Binary32.fin 2, Binary32.fin 3⟩]
      (Binary32.FindExtremePoints.run {} 0
        [⟨Binary32.inf true, Binary32.fin 0, Binary32.fin 0⟩,
          ⟨Binary32.fin 1, Binary32.fin 2, Binary32.fin 3⟩]).xMin
      (Binary32.FindExtremePoints.run {} 0
        [⟨Binary32.inf true, Binary32.fin 0, Binary32.fin 0⟩,
          ⟨Binary32.fin 1, Binary32.fin 2, Binary32.fin 3⟩]).xMinPt :=
  have h : ∀ q ∈ [(⟨Binary32.inf true, Binary32.fin 0, Binary32.fin 0⟩ : Binary32.Vector3D),
        ⟨Binary32.fin 1, Binary32.fin 2, Binary32.fin 3⟩],
      q.x ≠ Binary32.nan ∧ q.y ≠ Binary32.nan ∧ q.z ≠ Binary32.nan := by
    intro q hq
    simp only [List.mem_cons, List.mem_singleton, List.not_mem_nil, or_false] at hq
    rcases hq with rfl | rfl <;> simp
  ⟨h, (Binary32.FindExtremePoints.tight_without_nan {} _ _ h).1⟩

end Qt3DCore
